import Mathlib

/-!
# ftracker: workout metrics calculator

A shallow embedding of `src/ftracker.go`.

Modelling conventions.

* Go `int` values are embedded as `Int`; the only operation the source applies
  to them is the conversion `float64(·)`, embedded as the cast `Int → ℚ` in the
  exact embedding and as the rounding conversion `F64.ofInt` in the binary64 one.
* Go `float64` values have two embeddings.  The exact one takes them as
  rationals `ℚ`: every arithmetic expression keeps the operator order of the
  source (Go evaluates `*` and `/` left to right), but is evaluated without
  rounding, and a division by zero takes Lean's value `x / 0 = 0`.  It carries
  the statements about the shape of the formulas, the dispatch and the report.
* The binary64 one (`F64`, `distance64`, `RunningSpentCalories64`, ...) takes
  them as IEEE-754 binary64 values: NaN, the two infinities, and the finite
  values as a sign with a rational magnitude, so that the two zeros are
  distinct.  Every operation is computed exactly and then rounded to nearest,
  ties to even, with gradual underflow and overflow to infinity, each operation
  on its own (no fused multiply-add, as the Go compiler does on amd64).  A
  finite input is any sign and non-negative magnitude; the binary64 numbers are
  among them.  `math.Pow(x, 2)` follows the pure-Go algorithm of the standard
  library: the significand of `x` is squared and rounded, then scaled by
  `Ldexp`, which rounds once more in the subnormal range.  It carries the
  statements whose truth depends on rounding, underflow or NaN.
* The six formulas have a third embedding with guarded division
  (`divGuarded`, `distanceGuarded`, ...) over the binary64 values, which returns
  `none` where the source divides by zero; it is used for the statements about
  zero divisors.
* Go `string` values are embedded as `String`, compared with `=` the way the
  source compares them with `==`.
* `fmt.Sprintf` is embedded for the two verbs the source uses: `%s` splices the
  string, `%.2f` prints a number with exactly two digits after the point.
-/

namespace Ftracker

/-! ## Constants (`src/ftracker.go`, lines 9-15) -/

/-- Mean length of a step, in metres. -/
def lenStep : ℚ := 0.65

/-- Metres in a kilometre. -/
def mInKm : ℚ := 1000

/-- Minutes in an hour. -/
def minInH : ℚ := 60

/-- Coefficient converting km/h to m/s. -/
def kmhInMsec : ℚ := 0.278

/-- Centimetres in a metre. -/
def cmInM : ℚ := 100

/-! ## Distance and mean speed (lines 22-38) -/

/-- Source `distance`: `float64(action) * lenStep / mInKm`. -/
def distance (action : Int) : ℚ :=
  (action : ℚ) * lenStep / mInKm

/-- Source `meanSpeed`: zero for a zero duration, otherwise distance over duration. -/
def meanSpeed (action : Int) (duration : ℚ) : ℚ :=
  if duration = 0 then
    0
  else
    let distance := distance action
    distance / duration

/-! ## Running (lines 81-96) -/

/-- Multiplier of the mean speed. -/
def runningCaloriesMeanSpeedMultiplier : ℚ := 18

/-- Shift of the mean speed. -/
def runningCaloriesMeanSpeedShift : ℚ := 1.79

/-- Source `RunningSpentCalories`. -/
def RunningSpentCalories (action : Int) (weight duration : ℚ) : ℚ :=
  runningCaloriesMeanSpeedMultiplier * meanSpeed action duration * runningCaloriesMeanSpeedShift
    * weight / mInKm * duration * minInH

/-! ## Walking (lines 99-117) -/

/-- Multiplier of the body weight. -/
def walkingCaloriesWeightMultiplier : ℚ := 0.035

/-- Multiplier of the height. -/
def walkingSpeedHeightMultiplier : ℚ := 0.029

/-- Go `math.Pow`, for the natural exponents the source passes to it. -/
def mathPow (x : ℚ) (y : Nat) : ℚ := x ^ y

/-- Source `WalkingSpentCalories`. -/
def WalkingSpentCalories (action : Int) (duration weight height : ℚ) : ℚ :=
  let meanSpeedInMs := meanSpeed action duration * kmhInMsec
  let heightInM := height / cmInM
  (walkingCaloriesWeightMultiplier * weight
      + mathPow meanSpeedInMs 2 / heightInM * walkingSpeedHeightMultiplier * weight)
    * duration * minInH

/-! ## Swimming (lines 120-150) -/

/-- Shift of the mean speed. -/
def swimmingCaloriesMeanSpeedShift : ℚ := 1.1

/-- Multiplier of the weight. -/
def swimmingCaloriesWeightMultiplier : ℚ := 2

/-- Source `swimmingMeanSpeed`. -/
def swimmingMeanSpeed (lengthPool countPool : Int) (duration : ℚ) : ℚ :=
  if duration = 0 then
    0
  else
    (lengthPool : ℚ) * (countPool : ℚ) / mInKm / duration

/-- Source `SwimmingSpentCalories`. -/
def SwimmingSpentCalories (lengthPool countPool : Int) (duration weight : ℚ) : ℚ :=
  (swimmingMeanSpeed lengthPool countPool duration + swimmingCaloriesMeanSpeedShift)
    * swimmingCaloriesWeightMultiplier * weight * duration

/-! ## Report (lines 51-78) -/

/-- The decimal digit `d` (taken modulo ten) as a character. -/
def digitChar (d : Nat) : Char :=
  Char.ofNat (48 + d % 10)

/-- The decimal digits of `n`, most significant first, on top of `acc`; the
fuel bounds the number of digits. -/
def decimalDigits : Nat → Nat → List Char → List Char
  | 0, _, acc => acc
  | fuel + 1, n, acc =>
    if n / 10 = 0 then digitChar n :: acc
    else decimalDigits fuel (n / 10) (digitChar n :: acc)

/-- The integer nearest to `n / d`, a tie going to the even one. -/
def roundHalfEven (n d : Nat) : Nat :=
  let q := n / d
  let r := n % d
  if 2 * r < d then q
  else if d < 2 * r then q + 1
  else if q % 2 = 0 then q else q + 1

/-- The number of hundredths nearest to `|x|`. -/
def roundHundredths (x : ℚ) : Nat :=
  roundHalfEven (x.num.natAbs * 100) x.den

/-- The text of `n` hundredths: sign, integer part, point, two digits. -/
def hundredthsText (negative : Bool) (n : Nat) : String :=
  (if negative then "-" else "") ++ String.mk (decimalDigits (n + 1) (n / 100) [])
    ++ "." ++ String.mk [digitChar (n / 10), digitChar n]

/-- The verb `%.2f` of `fmt.Sprintf`: the number rounded to hundredths, printed
with its sign and exactly two digits after the point. -/
def fmtFloat2 (x : ℚ) : String :=
  hundredthsText (decide (x < 0)) (roundHundredths x)

/-- The sentinel the report function returns for an unknown training type. -/
def unknownTrainingType : String := "неизвестный тип тренировки"

/-- The template `resultOutput` applied by `fmt.Sprintf` to its five arguments. -/
def resultOutput (trainingType : String) (duration trainingDistance trainingSpeed
    trainingCalories : ℚ) : String :=
  "Тип тренировки: " ++ trainingType ++ "\n"
    ++ "Длительность: " ++ fmtFloat2 duration ++ " ч.\n"
    ++ "Дистанция: " ++ fmtFloat2 trainingDistance ++ " км.\n"
    ++ "Скорость: " ++ fmtFloat2 trainingSpeed ++ " км/ч\n"
    ++ "Сожгли калорий: " ++ fmtFloat2 trainingCalories ++ "\n"

/-- Source `ShowTrainingInfo`: the `switch` fills distance, speed and calories
or leaves through `default`; the filled values go to the template. -/
def ShowTrainingInfo (action : Int) (trainingType : String) (duration weight height : ℚ)
    (lengthPool countPool : Int) : String :=
  let selected : Option (ℚ × ℚ × ℚ) :=
    if trainingType = "Бег" then
      some (distance action, meanSpeed action duration,
        RunningSpentCalories action weight duration)
    else if trainingType = "Ходьба" then
      some (distance action, meanSpeed action duration,
        WalkingSpentCalories action duration weight height)
    else if trainingType = "Плавание" then
      some (distance action, swimmingMeanSpeed lengthPool countPool duration,
        SwimmingSpentCalories lengthPool countPool duration weight)
    else
      none
  match selected with
  | none => unknownTrainingType
  | some (trainingDistance, trainingSpeed, trainingCalories) =>
    resultOutput trainingType duration trainingDistance trainingSpeed trainingCalories

/-- The `switch` of `ShowTrainingInfo` on its own: the distance, speed and
calories it assigns for a recognised training type, `none` for `default`. -/
def selectedValues (action : Int) (trainingType : String) (duration weight height : ℚ)
    (lengthPool countPool : Int) : Option (ℚ × ℚ × ℚ) :=
  if trainingType = "Бег" then
    some (distance action, meanSpeed action duration,
      RunningSpentCalories action weight duration)
  else if trainingType = "Ходьба" then
    some (distance action, meanSpeed action duration,
      WalkingSpentCalories action duration weight height)
  else if trainingType = "Плавание" then
    some (distance action, swimmingMeanSpeed lengthPool countPool duration,
      SwimmingSpentCalories lengthPool countPool duration weight)
  else
    none

/-! ## IEEE-754 binary64 -/

/-- A binary64 value: NaN, an infinity, or a finite value given by its sign
and its magnitude (`fin true 0` is the negative zero). -/
inductive F64
  | nan
  | inf (neg : Bool)
  | fin (neg : Bool) (mag : ℚ)

/-- The integer nearest to `x`, a tie going to the even one. -/
def rne (x : ℚ) : ℤ :=
  if x - ⌊x⌋ < 1 / 2 then ⌊x⌋
  else if 1 / 2 < x - ⌊x⌋ then ⌊x⌋ + 1
  else if ⌊x⌋ % 2 = 0 then ⌊x⌋ else ⌊x⌋ + 1

/-- The multiple of `2 ^ (e - 52)` nearest to `q`. -/
def roundAt (e : ℤ) (q : ℚ) : ℚ :=
  (rne (q / 2 ^ (e - 52)) : ℚ) * 2 ^ (e - 52)

/-- The magnitude `q` rounded to 53 significant bits, the exponent unbounded. -/
def roundPrec (q : ℚ) : ℚ :=
  roundAt (Int.log 2 q) q

/-- The magnitude `q` rounded to the binary64 grid: 53 significant bits, the
exponent not below -1022 (gradual underflow). -/
def roundMag (q : ℚ) : ℚ :=
  roundAt (max (Int.log 2 q) (-1022)) q

/-- The binary64 value of sign `neg` nearest to the magnitude `q`; a rounded
magnitude of `2 ^ 1024` or more overflows to the infinity. -/
def F64.round (neg : Bool) (q : ℚ) : F64 :=
  if 2 ^ 1024 ≤ roundMag q then F64.inf neg else F64.fin neg (roundMag q)


/-- The factor `1 - 2 ^ (-53)` that one rounding to nearest can cost. -/
def relStep : ℚ := 1 - 1 / 2 ^ 53

/-- The binary64 value of a Go constant. -/
def F64.lit (q : ℚ) : F64 :=
  F64.round (decide (q < 0)) |q|

/-- Go `float64(n)` for an integer `n`. -/
def F64.ofInt (n : Int) : F64 :=
  F64.round (decide (n < 0)) |(n : ℚ)|

/-- Go `x == 0`. -/
def F64.isZero : F64 → Bool
  | F64.fin _ m => decide (m = 0)
  | _ => false

/-- Go `x * y`. -/
def F64.mul : F64 → F64 → F64
  | F64.nan, _ => F64.nan
  | _, F64.nan => F64.nan
  | F64.inf s, F64.inf t => F64.inf (xor s t)
  | F64.inf s, F64.fin t n => if n = 0 then F64.nan else F64.inf (xor s t)
  | F64.fin s m, F64.inf t => if m = 0 then F64.nan else F64.inf (xor s t)
  | F64.fin s m, F64.fin t n => F64.round (xor s t) (m * n)

/-- Go `x / y`. -/
def F64.div : F64 → F64 → F64
  | F64.nan, _ => F64.nan
  | _, F64.nan => F64.nan
  | F64.inf _, F64.inf _ => F64.nan
  | F64.inf s, F64.fin t _ => F64.inf (xor s t)
  | F64.fin s _, F64.inf t => F64.fin (xor s t) 0
  | F64.fin s m, F64.fin t n =>
    if n = 0 then (if m = 0 then F64.nan else F64.inf (xor s t))
    else F64.round (xor s t) (m / n)

/-- Go `x + y`. -/
def F64.add : F64 → F64 → F64
  | F64.nan, _ => F64.nan
  | _, F64.nan => F64.nan
  | F64.inf s, F64.inf t => if s = t then F64.inf s else F64.nan
  | F64.inf s, F64.fin _ _ => F64.inf s
  | F64.fin _ _, F64.inf t => F64.inf t
  | F64.fin s m, F64.fin t n =>
    if s = t then F64.round s (m + n)
    else if n < m then F64.round s (m - n)
    else if m < n then F64.round t (n - m)
    else F64.fin false 0

/-- Go `math.Pow(x, 2)`: the square of the fraction of `x` is rounded to 53
bits and `math.Ldexp` scales it back, rounding once more where the result is
subnormal. -/
def F64.powTwo : F64 → F64
  | F64.nan => F64.nan
  | F64.inf _ => F64.inf false
  | F64.fin _ m => F64.round false (roundPrec (m * m))

/-- The value of a finite binary64 number as a signed rational. -/
def F64.signed (neg : Bool) (mag : ℚ) : ℚ :=
  if neg then -mag else mag

/-- Go `x <= y`. -/
def F64.le : F64 → F64 → Bool
  | F64.nan, _ => false
  | _, F64.nan => false
  | F64.inf s, F64.inf t => s || !t
  | F64.inf s, F64.fin _ _ => s
  | F64.fin _ _, F64.inf t => !t
  | F64.fin s m, F64.fin t n => decide (F64.signed s m ≤ F64.signed t n)

/-- Go `x == y`. -/
def F64.eq : F64 → F64 → Bool
  | F64.inf s, F64.inf t => s == t
  | F64.fin s m, F64.fin t n => decide (F64.signed s m = F64.signed t n)
  | _, _ => false

/-- Source `distance` in binary64. -/
def distance64 (action : Int) : F64 :=
  ((F64.ofInt action).mul (F64.lit lenStep)).div (F64.lit mInKm)

/-- Source `meanSpeed` in binary64. -/
def meanSpeed64 (action : Int) (duration : F64) : F64 :=
  if duration.isZero then
    F64.fin false 0
  else
    let distance := distance64 action
    distance.div duration

/-- Source `RunningSpentCalories` in binary64. -/
def RunningSpentCalories64 (action : Int) (weight duration : F64) : F64 :=
  ((((((F64.lit runningCaloriesMeanSpeedMultiplier).mul (meanSpeed64 action duration)).mul
    (F64.lit runningCaloriesMeanSpeedShift)).mul weight).div (F64.lit mInKm)).mul duration).mul
    (F64.lit minInH)

/-- Source `WalkingSpentCalories` in binary64. -/
def WalkingSpentCalories64 (action : Int) (duration weight height : F64) : F64 :=
  let meanSpeedInMs := (meanSpeed64 action duration).mul (F64.lit kmhInMsec)
  let heightInM := height.div (F64.lit cmInM)
  ((((F64.lit walkingCaloriesWeightMultiplier).mul weight).add
      ((((F64.powTwo meanSpeedInMs).div heightInM).mul
        (F64.lit walkingSpeedHeightMultiplier)).mul weight)).mul duration).mul (F64.lit minInH)

/-- Source `swimmingMeanSpeed` in binary64. -/
def swimmingMeanSpeed64 (lengthPool countPool : Int) (duration : F64) : F64 :=
  if duration.isZero then
    F64.fin false 0
  else
    ((((F64.ofInt lengthPool).mul (F64.ofInt countPool)).div (F64.lit mInKm)).div duration)

/-- Source `SwimmingSpentCalories` in binary64. -/
def SwimmingSpentCalories64 (lengthPool countPool : Int) (duration weight : F64) : F64 :=
  (((((swimmingMeanSpeed64 lengthPool countPool duration).add
    (F64.lit swimmingCaloriesMeanSpeedShift)).mul
    (F64.lit swimmingCaloriesWeightMultiplier)).mul weight).mul duration)


/-! ## The formulas with guarded division -/

/-- Division that reports a zero divisor. -/
def divGuarded (x y : F64) : Option F64 :=
  if y.isZero then none else some (x.div y)

/-- Source `distance` with guarded division. -/
def distanceGuarded (action : Int) : Option F64 :=
  divGuarded ((F64.ofInt action).mul (F64.lit lenStep)) (F64.lit mInKm)

/-- Source `meanSpeed` with guarded division. -/
def meanSpeedGuarded (action : Int) (duration : F64) : Option F64 :=
  if duration.isZero then
    some (F64.fin false 0)
  else do
    let distance ← distanceGuarded action
    divGuarded distance duration

/-- Source `RunningSpentCalories` with guarded division. -/
def RunningSpentCaloriesGuarded (action : Int) (weight duration : F64) : Option F64 := do
  let speed ← meanSpeedGuarded action duration
  let perKm ← divGuarded
    ((((F64.lit runningCaloriesMeanSpeedMultiplier).mul speed).mul
      (F64.lit runningCaloriesMeanSpeedShift)).mul weight) (F64.lit mInKm)
  pure ((perKm.mul duration).mul (F64.lit minInH))

/-- Source `WalkingSpentCalories` with guarded division. -/
def WalkingSpentCaloriesGuarded (action : Int) (duration weight height : F64) : Option F64 := do
  let speed ← meanSpeedGuarded action duration
  let meanSpeedInMs := speed.mul (F64.lit kmhInMsec)
  let heightInM ← divGuarded height (F64.lit cmInM)
  let perHeight ← divGuarded (F64.powTwo meanSpeedInMs) heightInM
  pure (((((F64.lit walkingCaloriesWeightMultiplier).mul weight).add
    ((perHeight.mul (F64.lit walkingSpeedHeightMultiplier)).mul weight)).mul duration).mul
    (F64.lit minInH))

/-- Source `swimmingMeanSpeed` with guarded division. -/
def swimmingMeanSpeedGuarded (lengthPool countPool : Int) (duration : F64) : Option F64 :=
  if duration.isZero then
    some (F64.fin false 0)
  else do
    let km ← divGuarded ((F64.ofInt lengthPool).mul (F64.ofInt countPool)) (F64.lit mInKm)
    divGuarded km duration

/-- Source `SwimmingSpentCalories` with guarded division. -/
def SwimmingSpentCaloriesGuarded (lengthPool countPool : Int) (duration weight : F64) :
    Option F64 := do
  let speed ← swimmingMeanSpeedGuarded lengthPool countPool duration
  pure ((((speed.add (F64.lit swimmingCaloriesMeanSpeedShift)).mul
    (F64.lit swimmingCaloriesWeightMultiplier)).mul weight).mul duration)

/-- The non-negative values: the finite ones with the sign bit clear, and the
positive infinity. -/
def F64.NN : F64 → Prop
  | F64.fin false m => 0 ≤ m
  | F64.inf false => True
  | _ => False

/-- Two non-negative values in order. -/
def F64.LE2 (a b : F64) : Prop :=
  a.NN ∧ b.NN ∧ a.le b = true

/-- `a` and `b` agree up to `k` roundings: each is at least the other times
`relStep ^ k`. -/
def Near (k : ℕ) (a b : ℚ) : Prop :=
  b * relStep ^ k ≤ a ∧ a * relStep ^ k ≤ b

/-- The magnitude `p` approximates the exact value `x`: both are zero, or they
agree up to `k` roundings and `x` lies between `2 ^ (-L)` and `2 ^ L`. -/
def Appr (k : ℕ) (L : ℤ) (p x : ℚ) : Prop :=
  (x = 0 ∧ p = 0) ∨ (Near k p x ∧ 2 ^ (-L) ≤ x ∧ x ≤ 2 ^ L)

/-- The binary64 value `v` is a non-negative finite number approximating `x`. -/
def F64.Tracks (k : ℕ) (L : ℤ) (v : F64) (x : ℚ) : Prop :=
  ∃ z, v = F64.fin false z ∧ Appr k L z x

/-! ## Evaluating the formatter -/

/-- The rendering of a non-negative fraction `n / d` given in lowest terms. -/
theorem fmtFloat2_of_num_den (x : ℚ) (n d : Nat) (hnum : x.num = (n : Int))
    (hden : x.den = d) :
    fmtFloat2 x = hundredthsText false (roundHalfEven (n * 100) d) := by
  have hx : ¬ x < 0 := by
    rw [not_lt, ← Rat.num_nonneg, hnum]
    exact Int.natCast_nonneg n
  simp only [fmtFloat2, roundHundredths, hnum, hden, hx, decide_False, Int.natAbs_ofNat]

/-! ## Shared lemmas -/

/-- The report is the template applied to the values the `switch` selects. -/
theorem showTrainingInfo_eq_selected (action : Int) (trainingType : String)
    (duration weight height : ℚ) (lengthPool countPool : Int) :
    ShowTrainingInfo action trainingType duration weight height lengthPool countPool
      = match selectedValues action trainingType duration weight height lengthPool countPool with
        | none => unknownTrainingType
        | some (trainingDistance, trainingSpeed, trainingCalories) =>
          resultOutput trainingType duration trainingDistance trainingSpeed trainingCalories :=
  rfl

/-- Past the guard the mean speed is the distance over the duration. -/
theorem meanSpeed_of_ne (action : Int) (duration : ℚ) (h : duration ≠ 0) :
    meanSpeed action duration = distance action / duration := by
  simp only [meanSpeed, if_neg h]

/-- The distance of a non-negative action count is non-negative. -/
theorem distance_nonneg (action : Int) (h : 0 ≤ action) : 0 ≤ distance action := by
  have hc : (0 : ℚ) ≤ (action : ℚ) := by exact_mod_cast h
  simp only [distance, lenStep, mInKm]
  positivity

/-- Running calories for a non-zero duration: the duration cancels. -/
theorem runningSpentCalories_of_ne (action : Int) (weight duration : ℚ) (h : duration ≠ 0) :
    RunningSpentCalories action weight duration
      = 18 * 1.79 * 60 / 1000 * weight * distance action := by
  simp only [RunningSpentCalories, runningCaloriesMeanSpeedMultiplier,
    runningCaloriesMeanSpeedShift, mInKm, minInH, meanSpeed_of_ne action duration h]
  field_simp
  ring

/-- Swimming calories for a non-zero duration. -/
theorem swimmingSpentCalories_of_ne (lengthPool countPool : Int) (duration weight : ℚ)
    (h : duration ≠ 0) :
    SwimmingSpentCalories lengthPool countPool duration weight
      = 2 * weight * ((lengthPool : ℚ) * (countPool : ℚ) / 1000 + 1.1 * duration) := by
  simp only [SwimmingSpentCalories, swimmingMeanSpeed, if_neg h,
    swimmingCaloriesMeanSpeedShift, swimmingCaloriesWeightMultiplier, mInKm]
  field_simp
  ring

/-- Walking calories for a non-zero duration, the weight and the duration
factored out. -/
theorem walkingSpentCalories_of_ne (action : Int) (duration weight height : ℚ)
    (h : duration ≠ 0) :
    WalkingSpentCalories action duration weight height
      = 60 * weight * (0.035 * duration
          + (distance action * 0.278) ^ 2 / (height / 100) * 0.029 / duration) := by
  simp only [WalkingSpentCalories, walkingCaloriesWeightMultiplier,
    walkingSpeedHeightMultiplier, mathPow, kmhInMsec, cmInM, minInH,
    meanSpeed_of_ne action duration h]
  by_cases hh : height = 0
  · subst hh
    simp only [zero_div, div_zero, zero_mul, add_zero]
    ring
  · field_simp
    ring

/-- The difference of `a * t + c / t` at two non-zero arguments. -/
theorem linear_plus_inverse_sub (a c t1 t2 : ℚ) (h1 : t1 ≠ 0) (h2 : t2 ≠ 0) :
    (a * t2 + c / t2) - (a * t1 + c / t1) = (t2 - t1) * (a * t1 * t2 - c) / (t1 * t2) := by
  field_simp
  ring

/-- A text that starts with the first words of the template is not the sentinel. -/
theorem report_ne_sentinel (trainingType rest : String) :
    "Тип тренировки: " ++ trainingType ++ rest ≠ unknownTrainingType := by
  intro h
  have h2 := congrArg (fun s => s.data.head?) h
  simp only [String.data_append, unknownTrainingType, List.cons_append, List.head?_cons,
    Option.some.injEq] at h2
  exact absurd h2 (by decide)

/-- The filled template starts with its first words and the training type. -/
theorem resultOutput_prefix (trainingType : String) (a b c d : ℚ) :
    ∃ rest, resultOutput trainingType a b c d
      = "Тип тренировки: " ++ trainingType ++ rest := by
  simp only [resultOutput, String.append_assoc]
  exact ⟨_, rfl⟩

/-- For a recognised training type the `switch` selects some values. -/
theorem selectedValues_isSome (action : Int) (trainingType : String)
    (duration weight height : ℚ) (lengthPool countPool : Int)
    (h : trainingType = "Бег" ∨ trainingType = "Ходьба" ∨ trainingType = "Плавание") :
    ∃ v, selectedValues action trainingType duration weight height lengthPool countPool
      = some v := by
  unfold selectedValues
  split_ifs with h1 h2 h3
  · exact ⟨_, rfl⟩
  · exact ⟨_, rfl⟩
  · exact ⟨_, rfl⟩
  · rcases h with h | h | h
    · exact absurd h h1
    · exact absurd h h2
    · exact absurd h h3

/-- In exact arithmetic, for a positive weight and durations `0 < t1 ≤ t2`, the
walking calories at `t1` are at most those at `t2` when
`(distance * 0.278) ^ 2 / (height / 100) * 0.029 ≤ 0.035 * t1 * t2`; for
`t1 < t2` that condition is also necessary. -/
theorem walkingSpentCalories_le_iff (action : Int) (weight height t1 t2 : ℚ)
    (_hAction : 0 ≤ action) (hWeight : 0 < weight) (_hHeight : 0 < height)
    (ht1 : 0 < t1) (ht : t1 ≤ t2) :
    ((distance action * 0.278) ^ 2 / (height / 100) * 0.029 ≤ 0.035 * t1 * t2 →
        WalkingSpentCalories action t1 weight height
          ≤ WalkingSpentCalories action t2 weight height)
    ∧ (t1 < t2 →
        WalkingSpentCalories action t1 weight height
          ≤ WalkingSpentCalories action t2 weight height →
        (distance action * 0.278) ^ 2 / (height / 100) * 0.029 ≤ 0.035 * t1 * t2) := by
  have ht2 : 0 < t2 := lt_of_lt_of_le ht1 ht
  have hprod : 0 < t1 * t2 := mul_pos ht1 ht2
  have hsub := linear_plus_inverse_sub 0.035
    ((distance action * 0.278) ^ 2 / (height / 100) * 0.029) t1 t2
    (ne_of_gt ht1) (ne_of_gt ht2)
  rw [walkingSpentCalories_of_ne action t1 weight height (ne_of_gt ht1),
    walkingSpentCalories_of_ne action t2 weight height (ne_of_gt ht2)]
  generalize (distance action * 0.278) ^ 2 / (height / 100) * 0.029 = c at hsub ⊢
  have h60 : (0 : ℚ) < 60 * weight := by positivity
  constructor
  · intro hc
    have hnum : 0 ≤ (t2 - t1) * (0.035 * t1 * t2 - c) :=
      mul_nonneg (sub_nonneg.2 ht) (sub_nonneg.2 hc)
    have hdiff : 0 ≤ (0.035 * t2 + c / t2) - (0.035 * t1 + c / t1) := by
      rw [hsub]
      exact div_nonneg hnum hprod.le
    have hle : 0.035 * t1 + c / t1 ≤ 0.035 * t2 + c / t2 := sub_nonneg.1 hdiff
    exact mul_le_mul_of_nonneg_left hle h60.le
  · intro hlt hle
    have hle2 : 0.035 * t1 + c / t1 ≤ 0.035 * t2 + c / t2 :=
      le_of_mul_le_mul_left hle h60
    have hdiff : 0 ≤ (t2 - t1) * (0.035 * t1 * t2 - c) / (t1 * t2) := by
      rw [← hsub]
      exact sub_nonneg.2 hle2
    have hnum : 0 ≤ (t2 - t1) * (0.035 * t1 * t2 - c) := by
      have := mul_nonneg hdiff hprod.le
      rwa [div_mul_cancel₀ _ (ne_of_gt hprod)] at this
    have hpos : 0 < t2 - t1 := sub_pos.2 hlt
    have : 0 ≤ 0.035 * t1 * t2 - c := nonneg_of_mul_nonneg_right hnum hpos
    exact sub_nonneg.1 this

/-- In exact arithmetic, for a positive weight and durations `0 < t1 ≤ t2`, the
swimming calories at `t1` are at most those at `t2`. -/
theorem swimmingSpentCalories_le_of_le (lengthPool countPool : Int) (weight t1 t2 : ℚ)
    (_hLength : 0 ≤ lengthPool) (_hCount : 0 ≤ countPool) (hWeight : 0 < weight)
    (ht1 : 0 < t1) (ht : t1 ≤ t2) :
    SwimmingSpentCalories lengthPool countPool t1 weight
      ≤ SwimmingSpentCalories lengthPool countPool t2 weight := by
  have ht2 : 0 < t2 := lt_of_lt_of_le ht1 ht
  rw [swimmingSpentCalories_of_ne lengthPool countPool t1 weight (ne_of_gt ht1),
    swimmingSpentCalories_of_ne lengthPool countPool t2 weight (ne_of_gt ht2)]
  have h2w : (0 : ℚ) ≤ 2 * weight := by positivity
  have hle : (lengthPool : ℚ) * (countPool : ℚ) / 1000 + 1.1 * t1
      ≤ (lengthPool : ℚ) * (countPool : ℚ) / 1000 + 1.1 * t2 := by
    have h11 : (0 : ℚ) ≤ 1.1 := by norm_num
    have := mul_le_mul_of_nonneg_left ht h11
    linarith
  exact mul_le_mul_of_nonneg_left hle h2w

/-! ## Rounding to binary64 -/

theorem rne_floor_le (x : ℚ) : ⌊x⌋ ≤ rne x := by
  unfold rne
  split_ifs <;> omega

theorem rne_le_floor_add_one (x : ℚ) : rne x ≤ ⌊x⌋ + 1 := by
  unfold rne
  split_ifs <;> omega

theorem rne_sub_le (x : ℚ) : (rne x : ℚ) - x ≤ 1 / 2 := by
  have h1 := Int.floor_le x
  have h2 := Int.lt_floor_add_one x
  unfold rne
  split_ifs with a b c
  · linarith
  · push_cast; linarith
  · linarith
  · push_cast; linarith

theorem sub_rne_le (x : ℚ) : x - (rne x : ℚ) ≤ 1 / 2 := by
  have h1 := Int.floor_le x
  have h2 := Int.lt_floor_add_one x
  unfold rne
  split_ifs with a b c
  · linarith
  · push_cast; linarith
  · linarith
  · push_cast; linarith

theorem rne_mono {x y : ℚ} (h : x ≤ y) : rne x ≤ rne y := by
  have hf : ⌊x⌋ ≤ ⌊y⌋ := Int.floor_le_floor h
  rcases lt_or_eq_of_le hf with hlt | heq
  · have := rne_le_floor_add_one x
    have := rne_floor_le y
    omega
  · unfold rne
    rw [heq]
    have hxy : x - (⌊y⌋ : ℚ) ≤ y - (⌊y⌋ : ℚ) := by linarith
    split_ifs <;> first | omega | (exfalso; linarith)

theorem rne_intCast (n : ℤ) : rne (n : ℚ) = n := by
  unfold rne
  simp

theorem rne_eq_of_near (x : ℚ) (m : ℤ) (hlo : (m : ℚ) - 1 / 2 < x) (hhi : x < (m : ℚ) + 1 / 2) :
    rne x = m := by
  have h1 := rne_sub_le x
  have h2 := sub_rne_le x
  have h3 : ((rne x - m : ℤ) : ℚ) < 1 := by push_cast; linarith
  have h4 : (-1 : ℚ) < ((rne x - m : ℤ) : ℚ) := by push_cast; linarith
  have h5 : rne x - m < 1 := by exact_mod_cast h3
  have h6 : -1 < rne x - m := by exact_mod_cast h4
  omega

theorem roundAt_zero (e : ℤ) : roundAt e 0 = 0 := by
  unfold roundAt
  rw [zero_div]
  have : rne 0 = 0 := by simpa using rne_intCast 0
  rw [this]
  simp

theorem roundMag_zero : roundMag 0 = 0 := roundAt_zero _

theorem roundPrec_zero : roundPrec 0 = 0 := roundAt_zero _

/-- Evaluating `roundMag` at a normal magnitude that is not a tie. -/
theorem roundMag_eval (q : ℚ) (e m : ℤ) (he : -1022 ≤ e) (h1 : (2 : ℚ) ^ e ≤ q)
    (h2 : q < (2 : ℚ) ^ (e + 1)) (hlo : (m : ℚ) - 1 / 2 < q / 2 ^ (e - 52)) (hhi : q / 2 ^ (e - 52) < (m : ℚ) + 1 / 2) :
    roundMag q = (m : ℚ) * 2 ^ (e - 52) := by
  have hq : 0 < q := lt_of_lt_of_le (by positivity) h1
  have hlog : Int.log 2 q = e := by
    apply le_antisymm
    · have := (Int.lt_zpow_iff_log_lt (b := 2) (by norm_num) hq (x := e + 1)).1 (by exact_mod_cast h2)
      omega
    · exact (Int.zpow_le_iff_le_log (b := 2) (by norm_num) hq).1 (by exact_mod_cast h1)
  unfold roundMag roundAt
  rw [hlog, max_eq_left he, rne_eq_of_near _ m hlo hhi]

/-- Evaluating `roundMag` below the normal range, away from a tie. -/
theorem roundMag_eval_subnormal (q : ℚ) (m : ℤ) (h0 : 0 < q) (h2 : q < (2 : ℚ) ^ (-1022 : ℤ))
    (hlo : (m : ℚ) - 1 / 2 < q / 2 ^ (-1074 : ℤ))
    (hhi : q / 2 ^ (-1074 : ℤ) < (m : ℚ) + 1 / 2) :
    roundMag q = (m : ℚ) * 2 ^ (-1074 : ℤ) := by
  have hlog : Int.log 2 q < -1022 :=
    (Int.lt_zpow_iff_log_lt (b := 2) (by norm_num) h0).1 (by exact_mod_cast h2)
  unfold roundMag roundAt
  rw [max_eq_right (le_of_lt hlog)]
  have : (-1022 : ℤ) - 52 = -1074 := by norm_num
  rw [this, rne_eq_of_near _ m hlo hhi]

theorem F64.round_zero (neg : Bool) : F64.round neg 0 = F64.fin neg 0 := by
  have h : ¬ ((2 : ℚ) ^ 1024 ≤ 0) := by norm_num
  simp only [F64.round, roundMag_zero, if_neg h]

/-- Evaluating a rounding that lands on a finite normal value. -/
theorem F64.round_eval (neg : Bool) (q : ℚ) (e m : ℤ) (r : ℚ) (he : -1022 ≤ e)
    (h1 : (2 : ℚ) ^ e ≤ q) (h2 : q < (2 : ℚ) ^ (e + 1))
    (hlo : (m : ℚ) - 1 / 2 < q / 2 ^ (e - 52)) (hhi : q / 2 ^ (e - 52) < (m : ℚ) + 1 / 2)
    (hr : (m : ℚ) * 2 ^ (e - 52) = r)
    (hfin : r < 2 ^ 1024) :
    F64.round neg q = F64.fin neg r := by
  have h : ¬ ((2 : ℚ) ^ 1024 ≤ r) := not_le.2 hfin
  simp only [F64.round, roundMag_eval q e m he h1 h2 hlo hhi, hr, if_neg h]

/-- Evaluating a rounding below the normal range. -/
theorem F64.round_eval_subnormal (neg : Bool) (q : ℚ) (m : ℤ) (r : ℚ) (h0 : 0 < q)
    (h2 : q < (2 : ℚ) ^ (-1022 : ℤ)) (hlo : (m : ℚ) - 1 / 2 < q / 2 ^ (-1074 : ℤ))
    (hhi : q / 2 ^ (-1074 : ℤ) < (m : ℚ) + 1 / 2)
    (hr : (m : ℚ) * 2 ^ (-1074 : ℤ) = r) (hfin : r < 2 ^ 1024) :
    F64.round neg q = F64.fin neg r := by
  have h : ¬ ((2 : ℚ) ^ 1024 ≤ r) := not_le.2 hfin
  simp only [F64.round, roundMag_eval_subnormal q m h0 h2 hlo hhi, hr, if_neg h]

theorem F64.mul_fin (s t : Bool) (m n : ℚ) :
    (F64.fin s m).mul (F64.fin t n) = F64.round (xor s t) (m * n) := rfl

theorem F64.div_fin (s t : Bool) (m n : ℚ) (h : n ≠ 0) :
    (F64.fin s m).div (F64.fin t n) = F64.round (xor s t) (m / n) := by
  simp only [F64.div, if_neg h]

theorem F64.add_fin_pos (m n : ℚ) :
    (F64.fin false m).add (F64.fin false n) = F64.round false (m + n) := by
  simp only [F64.add, if_true]

theorem meanSpeed64_of_ne (action : Int) (s : Bool) (m : ℚ) (h : m ≠ 0) :
    meanSpeed64 action (F64.fin s m) = (distance64 action).div (F64.fin s m) := by
  simp [meanSpeed64, F64.isZero, h]

theorem meanSpeed64_zero (action : Int) (s : Bool) :
    meanSpeed64 action (F64.fin s 0) = F64.fin false 0 := by
  simp [meanSpeed64, F64.isZero]

theorem F64.lit_of_nonneg (q : ℚ) (h : 0 ≤ q) : F64.lit q = F64.round false q := by
  have h2 : ¬ q < 0 := not_lt.2 h
  simp only [F64.lit, h2, decide_False, abs_of_nonneg h]

theorem F64.ofInt_of_nonneg (n : Int) (h : 0 ≤ n) : F64.ofInt n = F64.round false (n : ℚ) := by
  have h2 : ¬ n < 0 := not_lt.2 h
  have h3 : (0 : ℚ) ≤ (n : ℚ) := by exact_mod_cast h
  simp only [F64.ofInt, h2, decide_False, abs_of_nonneg h3]

theorem rne_nonneg {x : ℚ} (h : 0 ≤ x) : 0 ≤ rne x := by
  have := rne_mono h
  rwa [show rne 0 = 0 from by simpa using rne_intCast 0] at this

theorem roundAt_nonneg (e : ℤ) {q : ℚ} (h : 0 ≤ q) : 0 ≤ roundAt e q := by
  unfold roundAt
  have h1 : (0 : ℚ) ≤ q / 2 ^ (e - 52) := by positivity
  have h2 : (0 : ℚ) ≤ (rne (q / 2 ^ (e - 52)) : ℚ) := by exact_mod_cast rne_nonneg h1
  positivity

theorem roundAt_mono (e : ℤ) {q r : ℚ} (h : q ≤ r) : roundAt e q ≤ roundAt e r := by
  unfold roundAt
  have hu : (0 : ℚ) < 2 ^ (e - 52) := by positivity
  have h1 : q / 2 ^ (e - 52) ≤ r / 2 ^ (e - 52) := div_le_div_of_nonneg_right h hu.le
  have h2 : (rne (q / 2 ^ (e - 52)) : ℚ) ≤ (rne (r / 2 ^ (e - 52)) : ℚ) := by
    exact_mod_cast rne_mono h1
  exact mul_le_mul_of_nonneg_right h2 hu.le

/-- A grid point is rounded to itself. -/
theorem roundAt_grid (e : ℤ) (n : ℤ) : roundAt e ((n : ℚ) * 2 ^ (e - 52)) = (n : ℚ) * 2 ^ (e - 52) := by
  unfold roundAt
  have hu : (2 : ℚ) ^ (e - 52) ≠ 0 := by positivity
  rw [mul_div_assoc, div_self hu, mul_one, rne_intCast]

/-- A power of two at or above the grid step is a grid point. -/
theorem two_zpow_eq_grid (e k : ℤ) (h : e - 52 ≤ k) :
    (2 : ℚ) ^ k = (((2 : ℤ) ^ (k - (e - 52)).toNat : ℤ) : ℚ) * 2 ^ (e - 52) := by
  have h2 : ((k - (e - 52)).toNat : ℤ) = k - (e - 52) := Int.toNat_of_nonneg (by omega)
  push_cast
  rw [← zpow_natCast, h2, ← zpow_add₀ (by norm_num : (2 : ℚ) ≠ 0)]
  congr 1
  ring

theorem roundAt_le_two_zpow (e k : ℤ) (h : e - 52 ≤ k) {q : ℚ} (hq : q ≤ 2 ^ k) :
    roundAt e q ≤ 2 ^ k := by
  have := roundAt_mono e hq
  rw [two_zpow_eq_grid e k h, roundAt_grid] at this
  rwa [two_zpow_eq_grid e k h]

theorem two_zpow_le_roundAt (e k : ℤ) (h : e - 52 ≤ k) {q : ℚ} (hq : 2 ^ k ≤ q) :
    2 ^ k ≤ roundAt e q := by
  have := roundAt_mono e hq
  rw [two_zpow_eq_grid e k h, roundAt_grid] at this
  rwa [two_zpow_eq_grid e k h]

theorem zpow_log_le {q : ℚ} (h : 0 < q) : (2 : ℚ) ^ (Int.log 2 q) ≤ q := by
  have := Int.zpow_log_le_self (b := 2) (by norm_num) h
  exact_mod_cast this

theorem lt_zpow_log_succ (q : ℚ) : q < (2 : ℚ) ^ (Int.log 2 q + 1) := by
  have := Int.lt_zpow_succ_log_self (b := 2) (by norm_num) q
  exact_mod_cast this

theorem log_le_of_le_zpow {q : ℚ} (h0 : 0 < q) {k : ℤ} (h : q ≤ 2 ^ k) : Int.log 2 q ≤ k := by
  have h1 := Int.log_mono_right (b := 2) h0 h
  have h2 : Int.log 2 ((2 : ℚ) ^ k) = k := by
    have := Int.log_zpow (R := ℚ) (b := 2) (by norm_num) k
    exact_mod_cast this
  omega

theorem le_log_of_zpow_le {q : ℚ} {k : ℤ} (h : 2 ^ k ≤ q) : k ≤ Int.log 2 q := by
  have h1 := Int.log_mono_right (b := 2) (by positivity) h
  have h2 : Int.log 2 ((2 : ℚ) ^ k) = k := by
    have := Int.log_zpow (R := ℚ) (b := 2) (by norm_num) k
    exact_mod_cast this
  omega

theorem roundMag_nonneg {q : ℚ} (h : 0 ≤ q) : 0 ≤ roundMag q := roundAt_nonneg _ h

theorem roundPrec_nonneg {q : ℚ} (h : 0 ≤ q) : 0 ≤ roundPrec q := roundAt_nonneg _ h

theorem roundMag_le_two_zpow {q : ℚ} (h0 : 0 ≤ q) (k : ℤ) (hk : -1022 ≤ k) (h : q ≤ 2 ^ k) :
    roundMag q ≤ 2 ^ k := by
  rcases eq_or_lt_of_le h0 with h0 | h0
  · rw [← h0, roundMag_zero]; positivity
  · have := log_le_of_le_zpow h0 h
    exact roundAt_le_two_zpow _ k (by have := max_le this hk; omega) h

theorem two_zpow_le_roundMag {q : ℚ} (k : ℤ) (hk : -1074 ≤ k) (h : 2 ^ k ≤ q) :
    2 ^ k ≤ roundMag q := by
  have h0 : 0 < q := lt_of_lt_of_le (by positivity) h
  rcases le_total (Int.log 2 q) (-1022) with hl | hl
  · unfold roundMag
    rw [max_eq_right hl]
    exact two_zpow_le_roundAt _ k (by omega) h
  · unfold roundMag
    rw [max_eq_left hl]
    have h1 : (2 : ℚ) ^ (Int.log 2 q) ≤ roundAt (Int.log 2 q) q :=
      two_zpow_le_roundAt _ _ (by omega) (zpow_log_le h0)
    have h2 : (2 : ℚ) ^ k ≤ 2 ^ (Int.log 2 q) :=
      zpow_le_zpow_right₀ (by norm_num) (le_log_of_zpow_le h)
    exact le_trans h2 h1

theorem roundMag_mono {q r : ℚ} (h0 : 0 ≤ q) (h : q ≤ r) : roundMag q ≤ roundMag r := by
  rcases eq_or_lt_of_le h0 with h0 | h0
  · rw [← h0, roundMag_zero]; exact roundMag_nonneg (le_trans (le_of_eq h0) h)
  · have hr : 0 < r := lt_of_lt_of_le h0 h
    have hlog : Int.log 2 q ≤ Int.log 2 r := Int.log_mono_right h0 h
    rcases eq_or_lt_of_le (max_le_max hlog (le_refl (-1022 : ℤ))) with he | he
    · unfold roundMag
      rw [he]
      exact roundAt_mono _ h
    · have hk : -1022 ≤ max (Int.log 2 q) (-1022) + 1 := by
        have := le_max_right (Int.log 2 q) (-1022); omega
      have h1 : roundMag q ≤ 2 ^ (max (Int.log 2 q) (-1022) + 1) := by
        apply roundMag_le_two_zpow h0.le _ hk
        have h2 := lt_zpow_log_succ q
        have h3 : (2 : ℚ) ^ (Int.log 2 q + 1) ≤ 2 ^ (max (Int.log 2 q) (-1022) + 1) :=
          zpow_le_zpow_right₀ (by norm_num) (by have := le_max_left (Int.log 2 q) (-1022); omega)
        linarith
      have hmax : max (Int.log 2 r) (-1022) = Int.log 2 r := by
        apply max_eq_left
        by_contra hc
        rw [max_eq_right (le_of_lt (not_le.1 hc))] at he
        have := le_max_right (Int.log 2 q) (-1022)
        omega
      rw [hmax] at he
      have h2 : (2 : ℚ) ^ (Int.log 2 r) ≤ roundMag r :=
        two_zpow_le_roundMag _ (by have := le_max_right (Int.log 2 q) (-1022); omega)
          (zpow_log_le hr)
      have h3 : (2 : ℚ) ^ (max (Int.log 2 q) (-1022) + 1) ≤ 2 ^ (Int.log 2 r) :=
        zpow_le_zpow_right₀ (by norm_num) (by omega)
      linarith

theorem half_mul_two_zpow (e : ℤ) : (1 : ℚ) / 2 * 2 ^ (e + 1) = 2 ^ e := by
  rw [zpow_add₀ (by norm_num : (2 : ℚ) ≠ 0)]
  simp only [zpow_one]
  ring

/-- The error of rounding at exponent `e` is at most half a grid step. -/
theorem roundAt_error (e : ℤ) (q : ℚ) :
    roundAt e q - q ≤ 2 ^ (e - 53) ∧ q - roundAt e q ≤ 2 ^ (e - 53) := by
  have hu : (0 : ℚ) < 2 ^ (e - 52) := by positivity
  have h1 := rne_sub_le (q / 2 ^ (e - 52))
  have h2 := sub_rne_le (q / 2 ^ (e - 52))
  have hq : q = q / 2 ^ (e - 52) * 2 ^ (e - 52) := by field_simp
  have hh : (2 : ℚ) ^ (e - 53) = 1 / 2 * 2 ^ (e - 52) := by
    rw [show e - 52 = (e - 53) + 1 from by ring, zpow_add₀ (by norm_num : (2 : ℚ) ≠ 0)]
    ring
  unfold roundAt
  rw [hh]
  constructor
  · nlinarith
  · nlinarith

/-- Rounding a magnitude whose exponent is `e` costs at most the factor `relStep`. -/
theorem roundAt_relative (e : ℤ) {q : ℚ} (h : 2 ^ e ≤ q) :
    q * relStep ≤ roundAt e q ∧ roundAt e q * relStep ≤ q := by
  obtain ⟨h1, h2⟩ := roundAt_error e q
  have h0 : (0 : ℚ) < 2 ^ e := by positivity
  have hh : (2 : ℚ) ^ (e - 53) = 2 ^ e * (1 / 2 ^ 53) := by
    rw [show e - 53 = e + (-53) from by ring, zpow_add₀ (by norm_num : (2 : ℚ) ≠ 0)]
    norm_num
  rw [hh] at h1 h2
  have hs : (0 : ℚ) < 1 / 2 ^ 53 := by positivity
  have hle : (2 : ℚ) ^ e * (1 / 2 ^ 53) ≤ q * (1 / 2 ^ 53) :=
    mul_le_mul_of_nonneg_right h hs.le
  unfold relStep
  constructor
  · nlinarith
  · have hq : 0 < q := lt_of_lt_of_le h0 h
    have hsq : (0 : ℚ) ≤ q * (1 / 2 ^ 53) * (1 / 2 ^ 53) := by positivity
    have hup : roundAt e q ≤ q * (1 + 1 / 2 ^ 53) := by nlinarith
    have h53 : (0 : ℚ) ≤ 1 - 1 / 2 ^ 53 := by norm_num
    calc roundAt e q * (1 - 1 / 2 ^ 53) ≤ q * (1 + 1 / 2 ^ 53) * (1 - 1 / 2 ^ 53) :=
          mul_le_mul_of_nonneg_right hup h53
      _ = q - q * (1 / 2 ^ 53) * (1 / 2 ^ 53) := by ring
      _ ≤ q := by linarith

theorem roundMag_relative {q : ℚ} (h : (2 : ℚ) ^ (-1022 : ℤ) ≤ q) :
    q * relStep ≤ roundMag q ∧ roundMag q * relStep ≤ q := by
  have h0 : 0 < q := lt_of_lt_of_le (by positivity) h
  unfold roundMag
  rw [max_eq_left (le_log_of_zpow_le h)]
  exact roundAt_relative _ (zpow_log_le h0)

theorem roundPrec_relative {q : ℚ} (h : 0 < q) :
    q * relStep ≤ roundPrec q ∧ roundPrec q * relStep ≤ q :=
  roundAt_relative _ (zpow_log_le h)

/-- A magnitude is rounded to zero exactly when it is at most half the least
subnormal number. -/
theorem roundMag_eq_zero_iff {q : ℚ} (h0 : 0 ≤ q) :
    roundMag q = 0 ↔ q ≤ 2 ^ (-1075 : ℤ) := by
  constructor
  · intro hz
    by_contra hc
    have hc : (2 : ℚ) ^ (-1075 : ℤ) < q := not_le.1 hc
    have hq : 0 < q := lt_of_lt_of_le (by positivity) hc.le
    rcases le_or_lt ((2 : ℚ) ^ (-1074 : ℤ)) q with hb | hb
    · have := two_zpow_le_roundMag (-1074) (by norm_num) hb
      rw [hz] at this
      exact absurd this (not_le.2 (by positivity))
    · have hlog : Int.log 2 q < -1074 :=
        (Int.lt_zpow_iff_log_lt (b := 2) (by norm_num) hq).1 (by exact_mod_cast hb)
      unfold roundMag roundAt at hz
      rw [max_eq_right (by omega), show (-1022 : ℤ) - 52 = -1074 from by norm_num] at hz
      have hx : (1 : ℚ) / 2 < q / 2 ^ (-1074 : ℤ) := by
        rw [lt_div_iff₀ (by positivity)]
        have : (1 : ℚ) / 2 * 2 ^ (-1074 : ℤ) = 2 ^ (-1075 : ℤ) := by
          have := half_mul_two_zpow (-1075)
          rwa [show (-1075 : ℤ) + 1 = -1074 from by norm_num] at this
        rw [this]
        exact hc
      have h2 := sub_rne_le (q / 2 ^ (-1074 : ℤ))
      have hpos : (0 : ℚ) < (rne (q / 2 ^ (-1074 : ℤ)) : ℚ) := by linarith
      have : (0 : ℚ) < (rne (q / 2 ^ (-1074 : ℤ)) : ℚ) * 2 ^ (-1074 : ℤ) := by positivity
      rw [hz] at this
      exact lt_irrefl _ this
  · intro hq
    rcases eq_or_lt_of_le h0 with h0 | h0
    · rw [← h0, roundMag_zero]
    · have hlog : Int.log 2 q ≤ -1075 := log_le_of_le_zpow h0 hq
      unfold roundMag roundAt
      rw [max_eq_right (by omega), show (-1022 : ℤ) - 52 = -1074 from by norm_num]
      have hx : q / 2 ^ (-1074 : ℤ) ≤ 1 / 2 := by
        rw [div_le_iff₀ (by positivity)]
        have : (1 : ℚ) / 2 * 2 ^ (-1074 : ℤ) = 2 ^ (-1075 : ℤ) := by
          have := half_mul_two_zpow (-1075)
          rwa [show (-1075 : ℤ) + 1 = -1074 from by norm_num] at this
        rw [this]
        exact hq
      have hx0 : (0 : ℚ) ≤ q / 2 ^ (-1074 : ℤ) := by positivity
      generalize q / 2 ^ (-1074 : ℤ) = x at hx hx0
      have hfl : ⌊x⌋ = 0 := by
        rw [Int.floor_eq_iff]
        constructor
        · simpa using hx0
        · simp only [Int.cast_zero, zero_add]; linarith
      have : rne x = 0 := by
        unfold rne
        rw [hfl]
        simp only [Int.cast_zero, sub_zero]
        split_ifs with a b <;> first | rfl | (exfalso; linarith) | (exfalso; omega)
      rw [this]
      simp

theorem rne_half_even (x : ℚ) (f : ℤ) (hx : x = (f : ℚ) + 1 / 2) (h : f % 2 = 0) : rne x = f := by
  have hfl : ⌊x⌋ = f := by
    rw [Int.floor_eq_iff, hx]
    constructor <;> linarith
  unfold rne
  rw [hfl, hx]
  have e : (f : ℚ) + 1 / 2 - (f : ℚ) = 1 / 2 := by ring
  rw [e]
  simp only [lt_self_iff_false, if_false, h, if_true]

theorem rne_half_odd (x : ℚ) (f : ℤ) (hx : x = (f : ℚ) + 1 / 2) (h : f % 2 = 1) :
    rne x = f + 1 := by
  have hfl : ⌊x⌋ = f := by
    rw [Int.floor_eq_iff, hx]
    constructor <;> linarith
  unfold rne
  rw [hfl, hx]
  have e : (f : ℚ) + 1 / 2 - (f : ℚ) = 1 / 2 := by ring
  rw [e]
  have h2 : ¬ (f % 2 = 0) := by omega
  simp only [lt_self_iff_false, if_false, h2]

/-- Evaluating a rounding that lands on a finite normal value, the nearest
integer of the scaled magnitude given. -/
theorem F64.round_eval_of_rne (neg : Bool) (q : ℚ) (e m : ℤ) (r : ℚ) (he : -1022 ≤ e)
    (h1 : (2 : ℚ) ^ e ≤ q) (h2 : q < (2 : ℚ) ^ (e + 1))
    (hm : rne (q / 2 ^ (e - 52)) = m) (hr : (m : ℚ) * 2 ^ (e - 52) = r)
    (hfin : r < 2 ^ 1024) :
    F64.round neg q = F64.fin neg r := by
  have hq : 0 < q := lt_of_lt_of_le (by positivity) h1
  have hlog : Int.log 2 q = e := by
    apply le_antisymm
    · have := (Int.lt_zpow_iff_log_lt (b := 2) (by norm_num) hq (x := e + 1)).1
        (by exact_mod_cast h2)
      omega
    · exact (Int.zpow_le_iff_le_log (b := 2) (by norm_num) hq).1 (by exact_mod_cast h1)
  have h : ¬ ((2 : ℚ) ^ 1024 ≤ r) := not_le.2 hfin
  have hv : roundMag q = r := by
    unfold roundMag roundAt
    rw [hlog, max_eq_left he, hm, hr]
  simp only [F64.round, hv, if_neg h]

/-- Evaluating `math.Pow(x, 2)` where the square is a normal number. -/
theorem F64.powTwo_eval (s : Bool) (v : ℚ) (e m : ℤ) (r : ℚ) (h1 : (2 : ℚ) ^ e ≤ v * v)
    (h2 : v * v < (2 : ℚ) ^ (e + 1)) (hm : rne (v * v / 2 ^ (e - 52)) = m)
    (hr : (m : ℚ) * 2 ^ (e - 52) = r) (he : -1022 ≤ e) (hfin : r < 2 ^ 1024)
    (hr1 : (2 : ℚ) ^ e ≤ r) (hr2 : r < (2 : ℚ) ^ (e + 1)) :
    (F64.fin s v).powTwo = F64.fin false r := by
  have hq : 0 < v * v := lt_of_lt_of_le (by positivity) h1
  have hlog : Int.log 2 (v * v) = e := by
    apply le_antisymm
    · have := (Int.lt_zpow_iff_log_lt (b := 2) (by norm_num) hq (x := e + 1)).1
        (by exact_mod_cast h2)
      omega
    · exact (Int.zpow_le_iff_le_log (b := 2) (by norm_num) hq).1 (by exact_mod_cast h1)
  have hp : roundPrec (v * v) = r := by
    unfold roundPrec roundAt
    rw [hlog, hm, hr]
  simp only [F64.powTwo, hp]
  apply F64.round_eval_of_rne false r e m r he hr1 hr2 _ hr hfin
  rw [← hr]
  have hu : (2 : ℚ) ^ (e - 52) ≠ 0 := by positivity
  rw [mul_div_assoc, div_self hu, mul_one, rne_intCast]

theorem zpow_pred_eq_half (N : ℤ) : (2 : ℚ) ^ (-(N + 1)) = 2 ^ (-N) * (1 / 2) := by
  rw [show -(N + 1) = -N + (-1) from by ring, zpow_add₀ (by norm_num : (2 : ℚ) ≠ 0)]
  norm_num

theorem zpow_succ_eq_double (N : ℤ) : (2 : ℚ) ^ (N + 1) = 2 ^ N * 2 := by
  rw [zpow_add₀ (by norm_num : (2 : ℚ) ≠ 0)]
  norm_num

theorem two_zpow_neg_lt_one (k : ℤ) (h : k < 0) : (2 : ℚ) ^ k < 1 := by
  have := zpow_lt_zpow_right₀ (a := (2 : ℚ)) (by norm_num) h
  simpa using this

theorem F64.round_isZero (neg : Bool) {q : ℚ} (h0 : 0 ≤ q) :
    (F64.round neg q).isZero = true ↔ q ≤ 2 ^ (-1075 : ℤ) := by
  unfold F64.round
  split_ifs with h
  · simp only [F64.isZero, Bool.false_eq_true, false_iff, not_le]
    by_contra hc
    have := (roundMag_eq_zero_iff h0).2 (not_lt.1 hc)
    rw [this] at h
    exact absurd h (not_le.2 (by positivity))
  · simp only [F64.isZero, decide_eq_true_eq]
    exact roundMag_eq_zero_iff h0

/-- A rounding of a magnitude of at most `2 ^ 1023` does not overflow. -/
theorem F64.round_of_le (neg : Bool) {q : ℚ} (h0 : 0 ≤ q) (h : q ≤ 2 ^ (1023 : ℤ)) :
    F64.round neg q = F64.fin neg (roundMag q) := by
  have h1 := roundMag_le_two_zpow h0 1023 (by norm_num) h
  have h2 : (2 : ℚ) ^ (1023 : ℤ) < 2 ^ 1024 := by
    rw [← zpow_natCast]
    exact zpow_lt_zpow_right₀ (by norm_num) (by norm_num)
  have h3 : ¬ ((2 : ℚ) ^ 1024 ≤ roundMag q) := not_le.2 (lt_of_le_of_lt h1 h2)
  simp only [F64.round, if_neg h3]

/-- A Go constant between `2 ^ (-1074)` and `2 ^ 1023` is a positive finite
binary64 number. -/
theorem F64.lit_pos {q : ℚ} (h1 : 2 ^ (-1074 : ℤ) ≤ q) (h2 : q ≤ 2 ^ (1023 : ℤ)) :
    F64.lit q = F64.fin false (roundMag q) ∧ 0 < roundMag q := by
  have h0 : 0 < q := lt_of_lt_of_le (by positivity) h1
  refine ⟨?_, lt_of_lt_of_le (by positivity) (two_zpow_le_roundMag (-1074) (by norm_num) h1)⟩
  rw [F64.lit_of_nonneg q h0.le, F64.round_of_le false h0.le h2]

/-- A Go constant between 1/1024 and 1024 in binary64. -/
theorem F64.lit_small {q : ℚ} (h1 : 1 / 1024 ≤ q) (h2 : q ≤ 1024) :
    F64.lit q = F64.fin false (roundMag q) ∧ 0 < roundMag q := by
  apply F64.lit_pos
  · have : (2 : ℚ) ^ (-1074 : ℤ) ≤ 2 ^ (-10 : ℤ) := zpow_le_zpow_right₀ (by norm_num) (by norm_num)
    have h3 : (2 : ℚ) ^ (-10 : ℤ) = 1 / 1024 := by norm_num
    rw [h3] at this
    exact le_trans this h1
  · have : (2 : ℚ) ^ (10 : ℤ) ≤ 2 ^ (1023 : ℤ) := zpow_le_zpow_right₀ (by norm_num) (by norm_num)
    have h3 : (2 : ℚ) ^ (10 : ℤ) = 1024 := by norm_num
    rw [h3] at this
    exact le_trans h2 this

theorem divGuarded_of_not_zero (x y : F64) (h : y.isZero = false) :
    divGuarded x y = some (x.div y) := by
  simp only [divGuarded, h, Bool.false_eq_true, if_false]

theorem divGuarded_of_zero (x y : F64) (h : y.isZero = true) :
    divGuarded x y = none := by
  simp only [divGuarded, h, if_true]

theorem lit_mInKm_eq : F64.lit mInKm = F64.fin false (roundMag mInKm) ∧ 0 < roundMag mInKm :=
  F64.lit_small (q := mInKm) (by norm_num [mInKm]) (by norm_num [mInKm])

theorem lit_mInKm_not_zero : (F64.lit mInKm).isZero = false := by
  rw [lit_mInKm_eq.1]
  simp only [F64.isZero, decide_eq_false_iff_not]
  exact ne_of_gt lit_mInKm_eq.2

theorem lit_cmInM_eq : F64.lit cmInM = F64.fin false (roundMag cmInM) ∧ 0 < roundMag cmInM :=
  F64.lit_small (q := cmInM) (by norm_num [cmInM]) (by norm_num [cmInM])

theorem lit_cmInM_not_zero : (F64.lit cmInM).isZero = false := by
  rw [lit_cmInM_eq.1]
  simp only [F64.isZero, decide_eq_false_iff_not]
  exact ne_of_gt lit_cmInM_eq.2

theorem distanceGuarded_eq (action : Int) :
    distanceGuarded action = some (distance64 action) := by
  simp only [distanceGuarded, distance64, divGuarded_of_not_zero _ _ lit_mInKm_not_zero]

theorem meanSpeedGuarded_eq (action : Int) (duration : F64) :
    meanSpeedGuarded action duration = some (meanSpeed64 action duration) := by
  unfold meanSpeedGuarded meanSpeed64
  cases h : duration.isZero
  · simp only [Bool.false_eq_true, if_false, distanceGuarded_eq, Option.bind_eq_bind,
      Option.some_bind, divGuarded_of_not_zero _ _ h]
  · simp only [if_true]

theorem swimmingMeanSpeedGuarded_eq (lengthPool countPool : Int) (duration : F64) :
    swimmingMeanSpeedGuarded lengthPool countPool duration
      = some (swimmingMeanSpeed64 lengthPool countPool duration) := by
  unfold swimmingMeanSpeedGuarded swimmingMeanSpeed64
  cases h : duration.isZero
  · simp only [Bool.false_eq_true, if_false, Option.bind_eq_bind,
      divGuarded_of_not_zero _ _ lit_mInKm_not_zero,
      Option.some_bind, divGuarded_of_not_zero _ _ h]
  · simp only [if_true]

theorem runningSpentCaloriesGuarded_eq (action : Int) (weight duration : F64) :
    RunningSpentCaloriesGuarded action weight duration
      = some (RunningSpentCalories64 action weight duration) := by
  simp only [RunningSpentCaloriesGuarded, RunningSpentCalories64, meanSpeedGuarded_eq,
    divGuarded_of_not_zero _ _ lit_mInKm_not_zero, Option.bind_eq_bind, Option.some_bind,
    Option.pure_def]

theorem swimmingSpentCaloriesGuarded_eq (lengthPool countPool : Int) (duration weight : F64) :
    SwimmingSpentCaloriesGuarded lengthPool countPool duration weight
      = some (SwimmingSpentCalories64 lengthPool countPool duration weight) := by
  simp only [SwimmingSpentCaloriesGuarded, SwimmingSpentCalories64,
    swimmingMeanSpeedGuarded_eq, Option.bind_eq_bind, Option.some_bind, Option.pure_def]

theorem walkingSpentCaloriesGuarded_of_not_zero (action : Int) (duration weight height : F64)
    (h : (height.div (F64.lit cmInM)).isZero = false) :
    WalkingSpentCaloriesGuarded action duration weight height
      = some (WalkingSpentCalories64 action duration weight height) := by
  simp only [WalkingSpentCaloriesGuarded, WalkingSpentCalories64, meanSpeedGuarded_eq,
    divGuarded_of_not_zero _ _ lit_cmInM_not_zero, divGuarded_of_not_zero _ _ h,
    Option.bind_eq_bind, Option.some_bind, Option.pure_def]

theorem walkingSpentCaloriesGuarded_of_zero (action : Int) (duration weight height : F64)
    (h : (height.div (F64.lit cmInM)).isZero = true) :
    WalkingSpentCaloriesGuarded action duration weight height = none := by
  simp only [WalkingSpentCaloriesGuarded, meanSpeedGuarded_eq,
    divGuarded_of_not_zero _ _ lit_cmInM_not_zero, divGuarded_of_zero _ _ h,
    Option.bind_eq_bind, Option.some_bind, Option.none_bind]

theorem roundMag_cmInM : roundMag cmInM = 100 := by
  rw [cmInM, roundMag_eval 100 6 7036874417766400 (by norm_num) (by norm_num) (by norm_num)
    (by norm_num) (by norm_num)]
  norm_num

theorem lit_cmInM : F64.lit cmInM = F64.fin false 100 := by
  rw [lit_cmInM_eq.1, roundMag_cmInM]

/-- The height in metres is zero exactly for the finite heights of magnitude
at most `100 * 2 ^ (-1075)`. -/
theorem heightInM_isZero_iff (s : Bool) {m : ℚ} (h0 : 0 ≤ m) :
    ((F64.fin s m).div (F64.lit cmInM)).isZero = true ↔ m ≤ 100 * 2 ^ (-1075 : ℤ) := by
  rw [lit_cmInM, F64.div_fin s false m 100 (by norm_num),
    F64.round_isZero _ (by positivity), div_le_iff₀ (by norm_num)]
  constructor <;> intro h <;> linarith

theorem heightInM_not_zero_of_not_fin (height : F64) (h : ∀ s m, height ≠ F64.fin s m) :
    (height.div (F64.lit cmInM)).isZero = false := by
  rw [lit_cmInM]
  cases height with
  | nan => rfl
  | inf s => rfl
  | fin s m => exact absurd rfl (h s m)

theorem heightInM_not_zero (height : F64)
    (h : ∀ s m, height = F64.fin s m → 100 * 2 ^ (-1075 : ℤ) < m) :
    (height.div (F64.lit cmInM)).isZero = false := by
  cases height with
  | nan => exact heightInM_not_zero_of_not_fin _ (fun s m hc => by cases hc)
  | inf t => exact heightInM_not_zero_of_not_fin _ (fun s m hc => by cases hc)
  | fin s m =>
    have hm := h s m rfl
    have h0 : 0 ≤ m := le_trans (by positivity) hm.le
    cases hz : ((F64.fin s m).div (F64.lit cmInM)).isZero
    · rfl
    · exact absurd ((heightInM_isZero_iff s h0).1 hz) (not_le.2 hm)

theorem F64.zero_mul_fin (s t : Bool) (n : ℚ) :
    (F64.fin s 0).mul (F64.fin t n) = F64.fin (xor s t) 0 := by
  rw [F64.mul_fin, zero_mul, F64.round_zero]

theorem F64.fin_mul_zero (s t : Bool) (m : ℚ) :
    (F64.fin s m).mul (F64.fin t 0) = F64.fin (xor s t) 0 := by
  rw [F64.mul_fin, mul_zero, F64.round_zero]

theorem F64.zero_div_fin (s t : Bool) (n : ℚ) (h : n ≠ 0) :
    (F64.fin s 0).div (F64.fin t n) = F64.fin (xor s t) 0 := by
  rw [F64.div_fin s t 0 n h, zero_div, F64.round_zero]

theorem F64.powTwo_zero (s : Bool) : (F64.fin s 0).powTwo = F64.fin false 0 := by
  simp only [F64.powTwo, mul_zero, roundPrec_zero, F64.round_zero]

/-- A finite number plus a zero is finite when its magnitude is at most `2 ^ 1023`. -/
theorem F64.add_zero_fin (s t : Bool) {a : ℚ} (h0 : 0 ≤ a) (h : a ≤ 2 ^ (1023 : ℤ)) :
    ∃ s2 r, (F64.fin s a).add (F64.fin t 0) = F64.fin s2 r := by
  simp only [F64.add]
  split_ifs with h1 h2 h3
  · exact ⟨s, _, F64.round_of_le s (by linarith) (by linarith)⟩
  · exact ⟨s, _, F64.round_of_le s (by linarith) (by linarith)⟩
  · exact absurd h3 (not_lt.2 h0)
  · exact ⟨false, 0, rfl⟩

theorem lit_of_small {q : ℚ} (h1 : 1 / 1024 ≤ q) (h2 : q ≤ 1024) :
    ∃ c, F64.lit q = F64.fin false c ∧ 0 < c ∧ c ≤ 1024 := by
  refine ⟨roundMag q, (F64.lit_small h1 h2).1, (F64.lit_small h1 h2).2, ?_⟩
  have h3 : (2 : ℚ) ^ (10 : ℤ) = 1024 := by norm_num
  have := roundMag_le_two_zpow (q := q) (by linarith) 10 (by norm_num) (by rw [h3]; exact h2)
  rwa [h3] at this

theorem lit_of_le_one {q : ℚ} (h1 : 1 / 1024 ≤ q) (h2 : q ≤ 1) :
    ∃ c, F64.lit q = F64.fin false c ∧ 0 < c ∧ c ≤ 1 := by
  refine ⟨roundMag q, (F64.lit_small h1 (by linarith)).1, (F64.lit_small h1 (by linarith)).2, ?_⟩
  have := roundMag_le_two_zpow (q := q) (by linarith) 0 (by norm_num) (by simpa using h2)
  simpa using this

theorem two_zpow_mul_le (a b : ℚ) (i j k : ℤ) (_ha0 : 0 ≤ a) (hb0 : 0 ≤ b)
    (ha : a ≤ 2 ^ i) (hb : b ≤ 2 ^ j) (hk : i + j ≤ k) : a * b ≤ 2 ^ k := by
  have h1 : a * b ≤ 2 ^ i * 2 ^ j := mul_le_mul ha hb hb0 (by positivity)
  rw [← zpow_add₀ (by norm_num : (2 : ℚ) ≠ 0)] at h1
  exact le_trans h1 (zpow_le_zpow_right₀ (by norm_num) hk)

/-- Zero duration, running: the result is a zero for every finite weight. -/
theorem running64_zero_duration (action : Int) (sd sw : Bool) (w : ℚ) :
    (RunningSpentCalories64 action (F64.fin sw w) (F64.fin sd 0)).isZero = true := by
  obtain ⟨c18, h18, -, -⟩ := lit_of_small (q := runningCaloriesMeanSpeedMultiplier)
    (by norm_num [runningCaloriesMeanSpeedMultiplier])
    (by norm_num [runningCaloriesMeanSpeedMultiplier])
  obtain ⟨c179, h179, -, -⟩ := lit_of_small (q := runningCaloriesMeanSpeedShift)
    (by norm_num [runningCaloriesMeanSpeedShift]) (by norm_num [runningCaloriesMeanSpeedShift])
  obtain ⟨c60, h60, -, -⟩ := lit_of_small (q := minInH)
    (by norm_num [minInH]) (by norm_num [minInH])
  simp only [RunningSpentCalories64, meanSpeed64_zero, h18, h179, h60, lit_mInKm_eq.1,
    F64.fin_mul_zero, F64.zero_mul_fin, F64.zero_div_fin _ _ _ (ne_of_gt lit_mInKm_eq.2),
    F64.isZero, decide_True]

/-- Zero duration, walking: the result is a zero for every finite weight of
magnitude at most `2 ^ 1023` and every finite height whose height in metres is
not zero. -/
theorem walking64_zero_duration (action : Int) (sd sw sh : Bool) (w h : ℚ)
    (hw0 : 0 ≤ w) (hw : w ≤ 2 ^ (1023 : ℤ)) (hh : 100 * 2 ^ (-1075 : ℤ) < h) :
    (WalkingSpentCalories64 action (F64.fin sd 0) (F64.fin sw w) (F64.fin sh h)).isZero
      = true := by
  obtain ⟨c035, h035, h035p, h035l⟩ := lit_of_le_one (q := walkingCaloriesWeightMultiplier)
    (by norm_num [walkingCaloriesWeightMultiplier]) (by norm_num [walkingCaloriesWeightMultiplier])
  obtain ⟨c029, h029, -, -⟩ := lit_of_small (q := walkingSpeedHeightMultiplier)
    (by norm_num [walkingSpeedHeightMultiplier]) (by norm_num [walkingSpeedHeightMultiplier])
  obtain ⟨c278, h278, -, -⟩ := lit_of_small (q := kmhInMsec)
    (by norm_num [kmhInMsec]) (by norm_num [kmhInMsec])
  obtain ⟨c60, h60, -, -⟩ := lit_of_small (q := minInH)
    (by norm_num [minInH]) (by norm_num [minInH])
  have h0 : 0 ≤ h := le_trans (by positivity) hh.le
  -- the height in metres is a non-zero number or an infinity
  have hm : (∃ t n, (F64.fin sh h).div (F64.lit cmInM) = F64.fin t n ∧ n ≠ 0)
      ∨ ∃ t, (F64.fin sh h).div (F64.lit cmInM) = F64.inf t := by
    have hz : ((F64.fin sh h).div (F64.lit cmInM)).isZero = false := by
      cases hc : ((F64.fin sh h).div (F64.lit cmInM)).isZero
      · rfl
      · exact absurd ((heightInM_isZero_iff sh h0).1 hc) (not_le.2 hh)
    rw [lit_cmInM, F64.div_fin sh false h 100 (by norm_num)] at hz ⊢
    unfold F64.round at hz ⊢
    split_ifs at hz ⊢ with hc
    · exact Or.inr ⟨_, rfl⟩
    · refine Or.inl ⟨_, _, rfl, ?_⟩
      simpa [F64.isZero] using hz
  have hc1 : c035 ≤ 2 ^ (0 : ℤ) := by simpa using h035l
  have hprod : c035 * w ≤ 2 ^ (1023 : ℤ) :=
    two_zpow_mul_le c035 w 0 1023 1023 h035p.le hw0 hc1 hw (by norm_num)
  have hA : (F64.fin false c035).mul (F64.fin sw w) = F64.fin sw (roundMag (c035 * w)) := by
    rw [F64.mul_fin, F64.round_of_le _ (by positivity) hprod]
    simp
  have hA2 : roundMag (c035 * w) ≤ 2 ^ (1023 : ℤ) :=
    roundMag_le_two_zpow (by positivity) 1023 (by norm_num) hprod
  have hA0 : 0 ≤ roundMag (c035 * w) := roundMag_nonneg (by positivity)
  simp only [WalkingSpentCalories64, meanSpeed64_zero, h035, h029, h278, h60,
    F64.zero_mul_fin, F64.powTwo_zero, hA]
  rcases hm with ⟨t, n, hmn, hn⟩ | ⟨t, hmi⟩
  · rw [hmn, F64.zero_div_fin _ _ _ hn]
    simp only [F64.zero_mul_fin]
    obtain ⟨s2, r, hadd⟩ := F64.add_zero_fin sw (xor (xor (xor false t) false) sw) hA0 hA2
    rw [hadd]
    simp only [F64.fin_mul_zero, F64.zero_mul_fin, F64.isZero, decide_True]
  · rw [hmi]
    simp only [F64.div, F64.zero_mul_fin]
    obtain ⟨s2, r, hadd⟩ := F64.add_zero_fin sw (xor (xor (xor false t) false) sw) hA0 hA2
    rw [hadd]
    simp only [F64.fin_mul_zero, F64.zero_mul_fin, F64.isZero, decide_True]

/-- Zero duration, swimming: the result is a zero for every finite weight of
magnitude at most `2 ^ 1021`. -/
theorem swimming64_zero_duration (lengthPool countPool : Int) (sd sw : Bool) (w : ℚ)
    (hw0 : 0 ≤ w) (hw : w ≤ 2 ^ (1021 : ℤ)) :
    (SwimmingSpentCalories64 lengthPool countPool (F64.fin sd 0) (F64.fin sw w)).isZero
      = true := by
  have h11 : F64.lit swimmingCaloriesMeanSpeedShift = F64.fin false (roundMag (11 / 10)) ∧
      roundMag (11 / 10) ≤ 2 ^ (1 : ℤ) ∧ 0 ≤ roundMag (11 / 10) := by
    have := F64.lit_small (q := swimmingCaloriesMeanSpeedShift)
      (by norm_num [swimmingCaloriesMeanSpeedShift]) (by norm_num [swimmingCaloriesMeanSpeedShift])
    rw [show swimmingCaloriesMeanSpeedShift = 11 / 10 from by
      norm_num [swimmingCaloriesMeanSpeedShift]] at this
    exact ⟨by rw [← this.1]; norm_num [swimmingCaloriesMeanSpeedShift],
      roundMag_le_two_zpow (by norm_num) 1 (by norm_num) (by norm_num), this.2.le⟩
  have h2 : F64.lit swimmingCaloriesWeightMultiplier = F64.fin false (roundMag 2) ∧
      roundMag 2 ≤ 2 ^ (1 : ℤ) ∧ 0 ≤ roundMag 2 := by
    have := F64.lit_small (q := swimmingCaloriesWeightMultiplier)
      (by norm_num [swimmingCaloriesWeightMultiplier])
      (by norm_num [swimmingCaloriesWeightMultiplier])
    rw [show swimmingCaloriesWeightMultiplier = 2 from rfl] at this
    exact ⟨this.1, roundMag_le_two_zpow (by norm_num) 1 (by norm_num) (by norm_num), this.2.le⟩
  have hsms : swimmingMeanSpeed64 lengthPool countPool (F64.fin sd 0) = F64.fin false 0 := by
    simp [swimmingMeanSpeed64, F64.isZero]
  set a := roundMag (11 / 10) with ha
  have hs1 : roundMag (0 + a) ≤ 2 ^ (1 : ℤ) ∧ 0 ≤ roundMag (0 + a) := by
    rw [zero_add]
    exact ⟨roundMag_le_two_zpow h11.2.2 1 (by norm_num) h11.2.1, roundMag_nonneg h11.2.2⟩
  have e1 : (F64.fin false 0).add (F64.fin false a) = F64.fin false (roundMag (0 + a)) := by
    rw [F64.add_fin_pos, F64.round_of_le false (by rw [zero_add]; exact h11.2.2)]
    rw [zero_add]
    exact le_trans h11.2.1 (zpow_le_zpow_right₀ (by norm_num) (by norm_num))
  set b := roundMag (0 + a) with hb
  have hp2 : b * roundMag 2 ≤ 2 ^ (2 : ℤ) :=
    two_zpow_mul_le _ _ 1 1 2 hs1.2 h2.2.2 hs1.1 h2.2.1 (by norm_num)
  have e2 : (F64.fin false b).mul (F64.fin false (roundMag 2))
      = F64.fin false (roundMag (b * roundMag 2)) := by
    rw [F64.mul_fin, F64.round_of_le _ (mul_nonneg hs1.2 h2.2.2)
      (le_trans hp2 (zpow_le_zpow_right₀ (by norm_num) (by norm_num)))]
    simp
  have hc : roundMag (b * roundMag 2) ≤ 2 ^ (2 : ℤ) :=
    roundMag_le_two_zpow (mul_nonneg hs1.2 h2.2.2) 2 (by norm_num) hp2
  have hc0 : 0 ≤ roundMag (b * roundMag 2) := roundMag_nonneg (mul_nonneg hs1.2 h2.2.2)
  have e3 : (F64.fin false (roundMag (b * roundMag 2))).mul (F64.fin sw w)
      = F64.fin sw (roundMag (roundMag (b * roundMag 2) * w)) := by
    rw [F64.mul_fin, F64.round_of_le _ (mul_nonneg hc0 hw0)
      (two_zpow_mul_le _ _ 2 1021 1023 hc0 hw0 hc hw (by norm_num))]
    simp
  simp only [SwimmingSpentCalories64, hsms, h11.1, h2.1, e1, e2, e3, F64.fin_mul_zero,
    F64.isZero, decide_True]

theorem F64.nan_mul (x : F64) : F64.nan.mul x = F64.nan := by
  cases x <;> rfl

theorem F64.mul_nan (x : F64) : x.mul F64.nan = F64.nan := by
  cases x <;> rfl

theorem F64.add_nan (x : F64) : x.add F64.nan = F64.nan := by
  cases x <;> rfl

/-- At a zero mean speed and a zero height in metres the walking formula
divides zero by zero. -/
theorem walking64_nan (action : Int) (duration weight : F64) (s sh : Bool) {h : ℚ}
    (hs : meanSpeed64 action duration = F64.fin s 0) (h0 : 0 ≤ h)
    (hh : h ≤ 100 * 2 ^ (-1075 : ℤ)) :
    WalkingSpentCalories64 action duration weight (F64.fin sh h) = F64.nan := by
  obtain ⟨c278, h278, -, -⟩ := lit_of_small (q := kmhInMsec)
    (by norm_num [kmhInMsec]) (by norm_num [kmhInMsec])
  have hz := (heightInM_isZero_iff sh h0).2 hh
  have hm : ∃ t, (F64.fin sh h).div (F64.lit cmInM) = F64.fin t 0 := by
    rw [lit_cmInM, F64.div_fin sh false h 100 (by norm_num)] at hz ⊢
    unfold F64.round at hz ⊢
    split_ifs at hz ⊢ with hc
    · simp [F64.isZero] at hz
    · refine ⟨xor sh false, ?_⟩
      have : roundMag (h / 100) = 0 := by simpa [F64.isZero] using hz
      rw [this]
  obtain ⟨t, hm⟩ := hm
  have hdiv : (F64.fin false 0).div (F64.fin t 0) = F64.nan := by
    simp [F64.div]
  simp only [WalkingSpentCalories64, hs, h278, F64.zero_mul_fin, F64.powTwo_zero, hm, hdiv,
    F64.nan_mul, F64.add_nan]

theorem distance64_zero : distance64 0 = F64.fin false 0 := by
  obtain ⟨c65, h65, -, -⟩ := lit_of_small (q := lenStep)
    (by norm_num [lenStep]) (by norm_num [lenStep])
  have h0 : F64.ofInt 0 = F64.fin false 0 := by
    rw [F64.ofInt_of_nonneg 0 (le_refl 0)]
    simp [F64.round_zero]
  simp only [distance64, h0, h65, lit_mInKm_eq.1, F64.zero_mul_fin,
    F64.zero_div_fin _ _ _ (ne_of_gt lit_mInKm_eq.2), Bool.xor_false]

theorem F64.NN_round {q : ℚ} (h : 0 ≤ q) : (F64.round false q).NN := by
  unfold F64.round
  split_ifs
  · trivial
  · exact roundMag_nonneg h

theorem F64.LE2_round {q r : ℚ} (h0 : 0 ≤ q) (h : q ≤ r) :
    F64.LE2 (F64.round false q) (F64.round false r) := by
  refine ⟨F64.NN_round h0, F64.NN_round (le_trans h0 h), ?_⟩
  have hm := roundMag_mono h0 h
  unfold F64.round
  split_ifs with h1 h2 h2
  · rfl
  · exact absurd (le_trans h1 hm) h2
  · rfl
  · simpa [F64.le, F64.signed] using hm

theorem F64.LE2_refl {a : F64} (h : a.NN) : F64.LE2 a a := by
  refine ⟨h, h, ?_⟩
  cases a with
  | nan => exact absurd h (by simp [F64.NN])
  | inf s => cases s <;> simp_all [F64.NN, F64.le]
  | fin s m => cases s <;> simp_all [F64.NN, F64.le, F64.signed]

theorem F64.LE2_round_inf {q : ℚ} (h0 : 0 ≤ q) : F64.LE2 (F64.round false q) (F64.inf false) := by
  refine ⟨F64.NN_round h0, trivial, ?_⟩
  unfold F64.round
  split_ifs <;> rfl

/-- Multiplying by a positive finite number on the right keeps the order. -/
theorem F64.LE2_mul_right {a b : F64} (h : F64.LE2 a b) {c : ℚ} (hc : 0 < c) :
    F64.LE2 (a.mul (F64.fin false c)) (b.mul (F64.fin false c)) := by
  obtain ⟨ha, hb, hab⟩ := h
  cases a with
  | nan => exact absurd ha (by simp [F64.NN])
  | inf s =>
    cases s
    · cases b with
      | nan => exact absurd hb (by simp [F64.NN])
      | inf t =>
        cases t
        · simp only [F64.mul, if_neg (ne_of_gt hc), Bool.xor_false]
          exact F64.LE2_refl trivial
        · exact absurd hb (by simp [F64.NN])
      | fin t n => simp [F64.le] at hab
    · exact absurd ha (by simp [F64.NN])
  | fin s m =>
    cases s
    · have hm : 0 ≤ m := ha
      cases b with
      | nan => exact absurd hb (by simp [F64.NN])
      | inf t =>
        cases t
        · simp only [F64.mul, if_neg (ne_of_gt hc), Bool.xor_false]
          exact F64.LE2_round_inf (mul_nonneg hm hc.le)
        · exact absurd hb (by simp [F64.NN])
      | fin t n =>
        cases t
        · have hmn : m ≤ n := by simpa [F64.le, F64.signed] using hab
          simp only [F64.mul, Bool.xor_false]
          exact F64.LE2_round (mul_nonneg hm hc.le) (mul_le_mul_of_nonneg_right hmn hc.le)
        · exact absurd hb (by simp [F64.NN])
    · exact absurd ha (by simp [F64.NN])

/-- Multiplying by a positive finite number on the left keeps the order. -/
theorem F64.LE2_mul_left {a b : F64} (h : F64.LE2 a b) {c : ℚ} (hc : 0 < c) :
    F64.LE2 ((F64.fin false c).mul a) ((F64.fin false c).mul b) := by
  obtain ⟨ha, hb, hab⟩ := h
  cases a with
  | nan => exact absurd ha (by simp [F64.NN])
  | inf s =>
    cases s
    · cases b with
      | nan => exact absurd hb (by simp [F64.NN])
      | inf t =>
        cases t
        · simp only [F64.mul, if_neg (ne_of_gt hc), Bool.xor_false]
          exact F64.LE2_refl trivial
        · exact absurd hb (by simp [F64.NN])
      | fin t n => simp [F64.le] at hab
    · exact absurd ha (by simp [F64.NN])
  | fin s m =>
    cases s
    · have hm : 0 ≤ m := ha
      cases b with
      | nan => exact absurd hb (by simp [F64.NN])
      | inf t =>
        cases t
        · simp only [F64.mul, if_neg (ne_of_gt hc), Bool.xor_false]
          exact F64.LE2_round_inf (mul_nonneg hc.le hm)
        · exact absurd hb (by simp [F64.NN])
      | fin t n =>
        cases t
        · have hmn : m ≤ n := by simpa [F64.le, F64.signed] using hab
          simp only [F64.mul, Bool.xor_false]
          exact F64.LE2_round (mul_nonneg hc.le hm) (mul_le_mul_of_nonneg_left hmn hc.le)
        · exact absurd hb (by simp [F64.NN])
    · exact absurd ha (by simp [F64.NN])

/-- Dividing by a positive finite number keeps the order. -/
theorem F64.LE2_div_right {a b : F64} (h : F64.LE2 a b) {c : ℚ} (hc : 0 < c) :
    F64.LE2 (a.div (F64.fin false c)) (b.div (F64.fin false c)) := by
  obtain ⟨ha, hb, hab⟩ := h
  cases a with
  | nan => exact absurd ha (by simp [F64.NN])
  | inf s =>
    cases s
    · cases b with
      | nan => exact absurd hb (by simp [F64.NN])
      | inf t =>
        cases t
        · simp only [F64.div, Bool.xor_false]
          exact F64.LE2_refl trivial
        · exact absurd hb (by simp [F64.NN])
      | fin t n => simp [F64.le] at hab
    · exact absurd ha (by simp [F64.NN])
  | fin s m =>
    cases s
    · have hm : 0 ≤ m := ha
      cases b with
      | nan => exact absurd hb (by simp [F64.NN])
      | inf t =>
        cases t
        · simp only [F64.div, if_neg (ne_of_gt hc), Bool.xor_false]
          exact F64.LE2_round_inf (div_nonneg hm hc.le)
        · exact absurd hb (by simp [F64.NN])
      | fin t n =>
        cases t
        · have hmn : m ≤ n := by simpa [F64.le, F64.signed] using hab
          simp only [F64.div, if_neg (ne_of_gt hc), Bool.xor_false]
          exact F64.LE2_round (div_nonneg hm hc.le) (div_le_div_of_nonneg_right hmn hc.le)
        · exact absurd hb (by simp [F64.NN])
    · exact absurd ha (by simp [F64.NN])

/-- A non-negative value times a growing positive finite number grows. -/
theorem F64.LE2_mul_of_le {p : F64} (hp : p.NN) {w1 w2 : ℚ} (h1 : 0 < w1) (h : w1 ≤ w2) :
    F64.LE2 (p.mul (F64.fin false w1)) (p.mul (F64.fin false w2)) := by
  have h2 : 0 < w2 := lt_of_lt_of_le h1 h
  cases p with
  | nan => exact absurd hp (by simp [F64.NN])
  | inf s =>
    cases s
    · simp only [F64.mul, if_neg (ne_of_gt h1), if_neg (ne_of_gt h2), Bool.xor_false]
      exact F64.LE2_refl trivial
    · exact absurd hp (by simp [F64.NN])
  | fin s m =>
    cases s
    · have hm : 0 ≤ m := hp
      simp only [F64.mul, Bool.xor_false]
      exact F64.LE2_round (mul_nonneg hm h1.le) (mul_le_mul_of_nonneg_left h hm)
    · exact absurd hp (by simp [F64.NN])

/-- Addition keeps the order of non-negative values. -/
theorem F64.LE2_add {a b c d : F64} (h : F64.LE2 a b) (h2 : F64.LE2 c d) :
    F64.LE2 (a.add c) (b.add d) := by
  obtain ⟨ha, hb, hab⟩ := h
  obtain ⟨hc, hd, hcd⟩ := h2
  have key : ∀ x y : F64, x.NN → y.NN → (x.add y).NN := by
    intro x y hx hy
    cases x with
    | nan => exact absurd hx (by simp [F64.NN])
    | inf s =>
      cases s
      · cases y with
        | nan => exact absurd hy (by simp [F64.NN])
        | inf t => cases t <;> simp_all [F64.NN, F64.add]
        | fin t n => simp [F64.NN, F64.add]
      · exact absurd hx (by simp [F64.NN])
    | fin s m =>
      cases s
      · cases y with
        | nan => exact absurd hy (by simp [F64.NN])
        | inf t => cases t <;> simp_all [F64.NN, F64.add]
        | fin t n =>
          cases t
          · have hm : 0 ≤ m := hx
            have hn : 0 ≤ n := hy
            simp only [F64.add, if_true]
            exact F64.NN_round (add_nonneg hm hn)
          · exact absurd hy (by simp [F64.NN])
      · exact absurd hx (by simp [F64.NN])
  refine ⟨key a c ha hc, key b d hb hd, ?_⟩
  have top : ∀ x : F64, x.NN → x.le (F64.inf false) = true := by
    intro x hx
    cases x with
    | nan => exact absurd hx (by simp [F64.NN])
    | inf s => cases s <;> simp_all [F64.NN, F64.le]
    | fin s m => rfl
  have infl : ∀ y : F64, y.NN → (F64.inf false).add y = F64.inf false := by
    intro y hy
    cases y with
    | nan => exact absurd hy (by simp [F64.NN])
    | inf t => cases t <;> simp_all [F64.NN, F64.add]
    | fin t n => rfl
  have infr : ∀ y : F64, y.NN → y.add (F64.inf false) = F64.inf false := by
    intro y hy
    cases y with
    | nan => exact absurd hy (by simp [F64.NN])
    | inf t => cases t <;> simp_all [F64.NN, F64.add]
    | fin t n => rfl
  cases b with
  | nan => exact absurd hb (by simp [F64.NN])
  | inf s =>
    cases s
    · rw [infl d hd]
      exact top _ (key a c ha hc)
    · exact absurd hb (by simp [F64.NN])
  | fin s n =>
    cases s
    · cases d with
      | nan => exact absurd hd (by simp [F64.NN])
      | inf t =>
        cases t
        · rw [infr _ hb]
          exact top _ (key a c ha hc)
        · exact absurd hd (by simp [F64.NN])
      | fin t n2 =>
        cases t
        · cases a with
          | nan => exact absurd ha (by simp [F64.NN])
          | inf s => cases s <;> simp_all [F64.NN, F64.le]
          | fin s m =>
            cases s
            · cases c with
              | nan => exact absurd hc (by simp [F64.NN])
              | inf t => cases t <;> simp_all [F64.NN, F64.le]
              | fin t m2 =>
                cases t
                · have hm : 0 ≤ m := ha
                  have hm2 : 0 ≤ m2 := hc
                  have hmn : m ≤ n := by simpa [F64.le, F64.signed] using hab
                  have hmn2 : m2 ≤ n2 := by simpa [F64.le, F64.signed] using hcd
                  simp only [F64.add, if_true]
                  exact (F64.LE2_round (add_nonneg hm hm2) (add_le_add hmn hmn2)).2.2
                · exact absurd hc (by simp [F64.NN])
            · exact absurd ha (by simp [F64.NN])
        · exact absurd hd (by simp [F64.NN])
    · exact absurd hb (by simp [F64.NN])

theorem F64.NN_mul_pos {a : F64} (h : a.NN) {c : ℚ} (hc : 0 < c) :
    (a.mul (F64.fin false c)).NN := (F64.LE2_mul_right (F64.LE2_refl h) hc).1

theorem F64.NN_pos_mul {a : F64} (h : a.NN) {c : ℚ} (hc : 0 < c) :
    ((F64.fin false c).mul a).NN := (F64.LE2_mul_left (F64.LE2_refl h) hc).1

theorem F64.NN_div_pos {a : F64} (h : a.NN) {c : ℚ} (hc : 0 < c) :
    (a.div (F64.fin false c)).NN := (F64.LE2_div_right (F64.LE2_refl h) hc).1

theorem F64.NN_add {a b : F64} (ha : a.NN) (hb : b.NN) : (a.add b).NN :=
  (F64.LE2_add (F64.LE2_refl ha) (F64.LE2_refl hb)).1

theorem F64.NN_powTwo {a : F64} (h : a.NN) : a.powTwo.NN := by
  cases a with
  | nan => exact absurd h (by simp [F64.NN])
  | inf s => trivial
  | fin s m =>
    simp only [F64.powTwo]
    exact F64.NN_round (roundPrec_nonneg (mul_self_nonneg m))

theorem F64.NN_fin {m : ℚ} (h : 0 ≤ m) : (F64.fin false m).NN := h

theorem distance64_NN (action : Int) (h : 0 ≤ action) : (distance64 action).NN := by
  obtain ⟨c65, h65, h65p, -⟩ := lit_of_small (q := lenStep)
    (by norm_num [lenStep]) (by norm_num [lenStep])
  have h0 : (0 : ℚ) ≤ (action : ℚ) := by exact_mod_cast h
  rw [distance64, F64.ofInt_of_nonneg action h, h65, lit_mInKm_eq.1]
  exact F64.NN_div_pos (F64.NN_mul_pos (F64.NN_round h0) h65p) lit_mInKm_eq.2

theorem meanSpeed64_NN (action : Int) (h : 0 ≤ action) {d : ℚ} (hd : 0 < d) :
    (meanSpeed64 action (F64.fin false d)).NN := by
  rw [meanSpeed64_of_ne action false d (ne_of_gt hd)]
  exact F64.NN_div_pos (distance64_NN action h) hd

theorem F64.ofInt_of_lt (n : Int) (h0 : 0 ≤ n) (h : n < 2 ^ 63) :
    F64.ofInt n = F64.fin false (roundMag (n : ℚ)) ∧ 0 ≤ roundMag (n : ℚ) := by
  have hq : (0 : ℚ) ≤ (n : ℚ) := by exact_mod_cast h0
  have h1 : (n : ℚ) ≤ 2 ^ (63 : ℤ) := by
    have : (n : ℚ) < ((2 ^ 63 : ℤ) : ℚ) := by exact_mod_cast h
    have h2 : (((2 : ℤ) ^ 63 : ℤ) : ℚ) = (2 : ℚ) ^ (63 : ℤ) := by norm_num
    rw [← h2]
    exact this.le
  have h3 : (2 : ℚ) ^ (63 : ℤ) ≤ 2 ^ (1023 : ℤ) := zpow_le_zpow_right₀ (by norm_num) (by norm_num)
  exact ⟨by rw [F64.ofInt_of_nonneg n h0, F64.round_of_le false hq (le_trans h1 h3)],
    roundMag_nonneg hq⟩

theorem swimmingMeanSpeed64_NN (lengthPool countPool : Int) (hL : 0 ≤ lengthPool)
    (hL2 : lengthPool < 2 ^ 63) (hC : 0 ≤ countPool) (hC2 : countPool < 2 ^ 63)
    {d : ℚ} (hd : 0 < d) :
    (swimmingMeanSpeed64 lengthPool countPool (F64.fin false d)).NN := by
  have h1 := F64.ofInt_of_lt lengthPool hL hL2
  have h2 := F64.ofInt_of_lt countPool hC hC2
  have hz : (F64.fin false d).isZero = false := by
    simp [F64.isZero, ne_of_gt hd]
  simp only [swimmingMeanSpeed64, hz, Bool.false_eq_true, if_false, h1.1, h2.1,
    lit_mInKm_eq.1, F64.mul_fin, Bool.xor_false]
  exact F64.NN_div_pos (F64.NN_div_pos (F64.NN_round (mul_nonneg h1.2 h2.2)) lit_mInKm_eq.2) hd

/-- The height in metres of a finite height above `100 * 2 ^ (-1075)` is a
positive finite number. -/
theorem heightInM_pos {h : ℚ} (h1 : 100 * 2 ^ (-1075 : ℤ) < h) (h2 : h ≤ 2 ^ (1024 : ℤ)) :
    ∃ m, (F64.fin false h).div (F64.lit cmInM) = F64.fin false m ∧ 0 < m := by
  have h0 : 0 ≤ h := le_trans (by positivity) h1.le
  have hq : h / 100 ≤ 2 ^ (1023 : ℤ) := by
    rw [div_le_iff₀ (by norm_num)]
    have p : (0 : ℚ) ≤ 2 ^ (1023 : ℤ) := by positivity
    have e : (2 : ℚ) ^ (1024 : ℤ) = 2 ^ (1023 : ℤ) * 2 := zpow_succ_eq_double 1023
    rw [e] at h2
    linarith
  refine ⟨roundMag (h / 100), ?_, ?_⟩
  · rw [lit_cmInM, F64.div_fin false false h 100 (by norm_num),
      F64.round_of_le _ (by positivity) hq]
    simp
  · apply lt_of_le_of_ne (roundMag_nonneg (by positivity))
    intro hc
    have := (roundMag_eq_zero_iff (q := h / 100) (by positivity)).1 hc.symm
    rw [div_le_iff₀ (by norm_num)] at this
    linarith

theorem running64_monotone_in_weight (action : Int) (d w1 w2 : ℚ) (hAction : 0 ≤ action)
    (hd : 0 < d) (hw1 : 0 < w1) (hw : w1 ≤ w2) :
    F64.LE2 (RunningSpentCalories64 action (F64.fin false w1) (F64.fin false d))
      (RunningSpentCalories64 action (F64.fin false w2) (F64.fin false d)) := by
  obtain ⟨c18, h18, h18p, -⟩ := lit_of_small (q := runningCaloriesMeanSpeedMultiplier)
    (by norm_num [runningCaloriesMeanSpeedMultiplier])
    (by norm_num [runningCaloriesMeanSpeedMultiplier])
  obtain ⟨c179, h179, h179p, -⟩ := lit_of_small (q := runningCaloriesMeanSpeedShift)
    (by norm_num [runningCaloriesMeanSpeedShift]) (by norm_num [runningCaloriesMeanSpeedShift])
  obtain ⟨c60, h60, h60p, -⟩ := lit_of_small (q := minInH)
    (by norm_num [minInH]) (by norm_num [minInH])
  simp only [RunningSpentCalories64, h18, h179, h60, lit_mInKm_eq.1]
  have hp := F64.NN_mul_pos (F64.NN_pos_mul (meanSpeed64_NN action hAction hd) h18p) h179p
  exact F64.LE2_mul_right (F64.LE2_mul_right (F64.LE2_div_right
    (F64.LE2_mul_of_le hp hw1 hw) lit_mInKm_eq.2) hd) h60p

theorem walking64_monotone_in_weight (action : Int) (d h w1 w2 : ℚ) (hAction : 0 ≤ action)
    (hHeight : 100 * 2 ^ (-1075 : ℤ) < h) (hHeight2 : h ≤ 2 ^ (1024 : ℤ))
    (hd : 0 < d) (hw1 : 0 < w1) (hw : w1 ≤ w2) :
    F64.LE2 (WalkingSpentCalories64 action (F64.fin false d) (F64.fin false w1) (F64.fin false h))
      (WalkingSpentCalories64 action (F64.fin false d) (F64.fin false w2) (F64.fin false h)) := by
  obtain ⟨c035, h035, h035p, -⟩ := lit_of_small (q := walkingCaloriesWeightMultiplier)
    (by norm_num [walkingCaloriesWeightMultiplier]) (by norm_num [walkingCaloriesWeightMultiplier])
  obtain ⟨c029, h029, h029p, -⟩ := lit_of_small (q := walkingSpeedHeightMultiplier)
    (by norm_num [walkingSpeedHeightMultiplier]) (by norm_num [walkingSpeedHeightMultiplier])
  obtain ⟨c278, h278, h278p, -⟩ := lit_of_small (q := kmhInMsec)
    (by norm_num [kmhInMsec]) (by norm_num [kmhInMsec])
  obtain ⟨c60, h60, h60p, -⟩ := lit_of_small (q := minInH)
    (by norm_num [minInH]) (by norm_num [minInH])
  obtain ⟨m, hm, hmp⟩ := heightInM_pos hHeight hHeight2
  simp only [WalkingSpentCalories64, h035, h029, h278, h60, hm]
  have hx := F64.NN_mul_pos (F64.NN_div_pos (F64.NN_powTwo
    (F64.NN_mul_pos (meanSpeed64_NN action hAction hd) h278p)) hmp) h029p
  exact F64.LE2_mul_right (F64.LE2_mul_right (F64.LE2_add
    (F64.LE2_mul_of_le (F64.NN_fin h035p.le) hw1 hw) (F64.LE2_mul_of_le hx hw1 hw)) hd) h60p

theorem swimming64_monotone_in_weight (lengthPool countPool : Int) (d w1 w2 : ℚ)
    (hL : 0 ≤ lengthPool) (hL2 : lengthPool < 2 ^ 63) (hC : 0 ≤ countPool)
    (hC2 : countPool < 2 ^ 63) (hd : 0 < d) (hw1 : 0 < w1) (hw : w1 ≤ w2) :
    F64.LE2 (SwimmingSpentCalories64 lengthPool countPool (F64.fin false d) (F64.fin false w1))
      (SwimmingSpentCalories64 lengthPool countPool (F64.fin false d) (F64.fin false w2)) := by
  obtain ⟨c11, h11, h11p, -⟩ := lit_of_small (q := swimmingCaloriesMeanSpeedShift)
    (by norm_num [swimmingCaloriesMeanSpeedShift]) (by norm_num [swimmingCaloriesMeanSpeedShift])
  obtain ⟨c2, h2, h2p, -⟩ := lit_of_small (q := swimmingCaloriesWeightMultiplier)
    (by norm_num [swimmingCaloriesWeightMultiplier])
    (by norm_num [swimmingCaloriesWeightMultiplier])
  simp only [SwimmingSpentCalories64, h11, h2]
  have hp := F64.NN_mul_pos (F64.NN_add
    (swimmingMeanSpeed64_NN lengthPool countPool hL hL2 hC hC2 hd) (F64.NN_fin h11p.le)) h2p
  exact F64.LE2_mul_right (F64.LE2_mul_of_le hp hw1 hw) hd

/-! ## The binary64 formulas at concrete inputs -/

theorem lit_lenStep_val : F64.lit lenStep = F64.fin false (5854679515581645 / 9007199254740992) := by
  rw [F64.lit_of_nonneg _ (by norm_num [lenStep]), lenStep]
  exact F64.round_eval_of_rne false _ (-1) 5854679515581645 _ (by norm_num) (by norm_num) (by norm_num)
      (rne_eq_of_near _ (5854679515581645) (by norm_num) (by norm_num))
      (by norm_num) (by norm_num)

theorem lit_mInKm_val : F64.lit mInKm = F64.fin false 1000 := by
  rw [F64.lit_of_nonneg _ (by norm_num [mInKm]), mInKm]
  exact F64.round_eval_of_rne false _ (9) 8796093022208000 _ (by norm_num) (by norm_num) (by norm_num)
      (rne_eq_of_near _ (8796093022208000) (by norm_num) (by norm_num))
      (by norm_num) (by norm_num)

theorem lit_minInH_val : F64.lit minInH = F64.fin false 60 := by
  rw [F64.lit_of_nonneg _ (by norm_num [minInH]), minInH]
  exact F64.round_eval_of_rne false _ (5) 8444249301319680 _ (by norm_num) (by norm_num) (by norm_num)
      (rne_eq_of_near _ (8444249301319680) (by norm_num) (by norm_num))
      (by norm_num) (by norm_num)

theorem lit_kmhInMsec_val : F64.lit kmhInMsec = F64.fin false (626000348204499 / 2251799813685248) := by
  rw [F64.lit_of_nonneg _ (by norm_num [kmhInMsec]), kmhInMsec]
  exact F64.round_eval_of_rne false _ (-2) 5008002785635992 _ (by norm_num) (by norm_num) (by norm_num)
      (rne_eq_of_near _ (5008002785635992) (by norm_num) (by norm_num))
      (by norm_num) (by norm_num)

theorem lit_cmInM_val : F64.lit cmInM = F64.fin false 100 := by
  rw [F64.lit_of_nonneg _ (by norm_num [cmInM]), cmInM]
  exact F64.round_eval_of_rne false _ (6) 7036874417766400 _ (by norm_num) (by norm_num) (by norm_num)
      (rne_eq_of_near _ (7036874417766400) (by norm_num) (by norm_num))
      (by norm_num) (by norm_num)

theorem lit_runningCaloriesMeanSpeedMultiplier_val : F64.lit runningCaloriesMeanSpeedMultiplier = F64.fin false 18 := by
  rw [F64.lit_of_nonneg _ (by norm_num [runningCaloriesMeanSpeedMultiplier]), runningCaloriesMeanSpeedMultiplier]
  exact F64.round_eval_of_rne false _ (4) 5066549580791808 _ (by norm_num) (by norm_num) (by norm_num)
      (rne_eq_of_near _ (5066549580791808) (by norm_num) (by norm_num))
      (by norm_num) (by norm_num)

theorem lit_runningCaloriesMeanSpeedShift_val : F64.lit runningCaloriesMeanSpeedShift = F64.fin false (2015360833248297 / 1125899906842624) := by
  rw [F64.lit_of_nonneg _ (by norm_num [runningCaloriesMeanSpeedShift]), runningCaloriesMeanSpeedShift]
  exact F64.round_eval_of_rne false _ (0) 8061443332993188 _ (by norm_num) (by norm_num) (by norm_num)
      (rne_eq_of_near _ (8061443332993188) (by norm_num) (by norm_num))
      (by norm_num) (by norm_num)

theorem lit_walkingCaloriesWeightMultiplier_val : F64.lit walkingCaloriesWeightMultiplier = F64.fin false (1261007895663739 / 36028797018963968) := by
  rw [F64.lit_of_nonneg _ (by norm_num [walkingCaloriesWeightMultiplier]), walkingCaloriesWeightMultiplier]
  exact F64.round_eval_of_rne false _ (-5) 5044031582654956 _ (by norm_num) (by norm_num) (by norm_num)
      (rne_eq_of_near _ (5044031582654956) (by norm_num) (by norm_num))
      (by norm_num) (by norm_num)

theorem lit_walkingSpeedHeightMultiplier_val : F64.lit walkingSpeedHeightMultiplier = F64.fin false (8358680908399641 / 288230376151711744) := by
  rw [F64.lit_of_nonneg _ (by norm_num [walkingSpeedHeightMultiplier]), walkingSpeedHeightMultiplier]
  exact F64.round_eval_of_rne false _ (-6) 8358680908399641 _ (by norm_num) (by norm_num) (by norm_num)
      (rne_eq_of_near _ (8358680908399641) (by norm_num) (by norm_num))
      (by norm_num) (by norm_num)

theorem lit_swimmingCaloriesMeanSpeedShift_val : F64.lit swimmingCaloriesMeanSpeedShift = F64.fin false (2476979795053773 / 2251799813685248) := by
  rw [F64.lit_of_nonneg _ (by norm_num [swimmingCaloriesMeanSpeedShift]), swimmingCaloriesMeanSpeedShift]
  exact F64.round_eval_of_rne false _ (0) 4953959590107546 _ (by norm_num) (by norm_num) (by norm_num)
      (rne_eq_of_near _ (4953959590107546) (by norm_num) (by norm_num))
      (by norm_num) (by norm_num)

theorem lit_swimmingCaloriesWeightMultiplier_val : F64.lit swimmingCaloriesWeightMultiplier = F64.fin false 2 := by
  rw [F64.lit_of_nonneg _ (by norm_num [swimmingCaloriesWeightMultiplier]), swimmingCaloriesWeightMultiplier]
  exact F64.round_eval_of_rne false _ (1) 4503599627370496 _ (by norm_num) (by norm_num) (by norm_num)
      (rne_eq_of_near _ (4503599627370496) (by norm_num) (by norm_num))
      (by norm_num) (by norm_num)

/-- Binary64 running calories of 5 steps at 70 kg in 1 hour. -/
theorem running64_5_70_1 :
    RunningSpentCalories64 5 (F64.fin false 70) (F64.fin false 1) = F64.fin false (7922786507665705 / 18014398509481984) := by
  have h1 : F64.ofInt 5 = F64.fin false 5 :=
    (F64.ofInt_of_nonneg 5 (by norm_num)).trans
      (F64.round_eval_of_rne false _ (2) 5629499534213120 _ (by norm_num) (by norm_num) (by norm_num)
      (rne_eq_of_near _ (5629499534213120) (by norm_num) (by norm_num))
      (by norm_num) (by norm_num))
  have h2 : (F64.fin false 5).mul (F64.fin false (5854679515581645 / 9007199254740992)) = F64.fin false (13 / 4) :=
    (F64.mul_fin false false 5 (5854679515581645 / 9007199254740992)).trans
      (F64.round_eval_of_rne false _ (1) 7318349394477056 _ (by norm_num) (by norm_num) (by norm_num)
      (rne_eq_of_near _ (7318349394477056) (by norm_num) (by norm_num))
      (by norm_num) (by norm_num))
  have h3 : (F64.fin false (13 / 4)).div (F64.fin false 1000) = F64.fin false (7493989779944505 / 2305843009213693952) :=
    (F64.div_fin false false (13 / 4) 1000 (by norm_num)).trans
      (F64.round_eval_of_rne false _ (-9) 7493989779944505 _ (by norm_num) (by norm_num) (by norm_num)
      (rne_eq_of_near _ (7493989779944505) (by norm_num) (by norm_num))
      (by norm_num) (by norm_num))
  have h4 : (F64.fin false (7493989779944505 / 2305843009213693952)).div (F64.fin false 1) = F64.fin false (7493989779944505 / 2305843009213693952) :=
    (F64.div_fin false false (7493989779944505 / 2305843009213693952) 1 (by norm_num)).trans
      (F64.round_eval_of_rne false _ (-9) 7493989779944505 _ (by norm_num) (by norm_num) (by norm_num)
      (rne_eq_of_near _ (7493989779944505) (by norm_num) (by norm_num))
      (by norm_num) (by norm_num))
  have h5 : (F64.fin false 18).mul (F64.fin false (7493989779944505 / 2305843009213693952)) = F64.fin false (131730289100587 / 2251799813685248) :=
    (F64.mul_fin false false 18 (7493989779944505 / 2305843009213693952)).trans
      (F64.round_eval_of_rne false _ (-5) 8430738502437568 _ (by norm_num) (by norm_num) (by norm_num)
      (rne_eq_of_near _ (8430738502437568) (by norm_num) (by norm_num))
      (by norm_num) (by norm_num))
  have h6 : (F64.fin false (131730289100587 / 2251799813685248)).mul (F64.fin false (2015360833248297 / 1125899906842624)) = F64.fin false (943188869960203 / 9007199254740992) :=
    (F64.mul_fin false false (131730289100587 / 2251799813685248) (2015360833248297 / 1125899906842624)).trans
      (F64.round_eval_of_rne false _ (-4) 7545510959681624 _ (by norm_num) (by norm_num) (by norm_num)
      (rne_eq_of_near _ (7545510959681624) (by norm_num) (by norm_num))
      (by norm_num) (by norm_num))
  have h7 : (F64.fin false (943188869960203 / 9007199254740992)).mul (F64.fin false 70) = F64.fin false (257903206629743 / 35184372088832) :=
    (F64.mul_fin false false (943188869960203 / 9007199254740992) 70).trans
      (F64.round_eval_of_rne false _ (2) 8252902612151776 _ (by norm_num) (by norm_num) (by norm_num)
      (rne_eq_of_near _ (8252902612151776) (by norm_num) (by norm_num))
      (by norm_num) (by norm_num))
  have h8 : (F64.fin false (257903206629743 / 35184372088832)).div (F64.fin false 1000) = F64.fin false (8450972274843419 / 1152921504606846976) :=
    (F64.div_fin false false (257903206629743 / 35184372088832) 1000 (by norm_num)).trans
      (F64.round_eval_of_rne false _ (-8) 8450972274843419 _ (by norm_num) (by norm_num) (by norm_num)
      (rne_eq_of_near _ (8450972274843419) (by norm_num) (by norm_num))
      (by norm_num) (by norm_num))
  have h9 : (F64.fin false (8450972274843419 / 1152921504606846976)).mul (F64.fin false 1) = F64.fin false (8450972274843419 / 1152921504606846976) :=
    (F64.mul_fin false false (8450972274843419 / 1152921504606846976) 1).trans
      (F64.round_eval_of_rne false _ (-8) 8450972274843419 _ (by norm_num) (by norm_num) (by norm_num)
      (rne_eq_of_near _ (8450972274843419) (by norm_num) (by norm_num))
      (by norm_num) (by norm_num))
  have h10 : (F64.fin false (8450972274843419 / 1152921504606846976)).mul (F64.fin false 60) = F64.fin false (7922786507665705 / 18014398509481984) :=
    (F64.mul_fin false false (8450972274843419 / 1152921504606846976) 60).trans
      (F64.round_eval_of_rne false _ (-2) 7922786507665705 _ (by norm_num) (by norm_num) (by norm_num)
      (rne_eq_of_near _ (7922786507665705) (by norm_num) (by norm_num))
      (by norm_num) (by norm_num))
  simp only [RunningSpentCalories64, distance64]
  rw [meanSpeed64_of_ne _ _ _ (by norm_num)]
  simp only [distance64, lit_lenStep_val, lit_mInKm_val, lit_minInH_val,
    lit_runningCaloriesMeanSpeedMultiplier_val, lit_runningCaloriesMeanSpeedShift_val]
  rw [h1, h2, h3, h4, h5, h6, h7, h8, h9, h10]

/-- Binary64 running calories of 5 steps at 70 kg in 3 hours. -/
theorem running64_5_70_3 :
    RunningSpentCalories64 5 (F64.fin false 70) (F64.fin false 3) = F64.fin false (7922786507665703 / 18014398509481984) := by
  have h1 : F64.ofInt 5 = F64.fin false 5 :=
    (F64.ofInt_of_nonneg 5 (by norm_num)).trans
      (F64.round_eval_of_rne false _ (2) 5629499534213120 _ (by norm_num) (by norm_num) (by norm_num)
      (rne_eq_of_near _ (5629499534213120) (by norm_num) (by norm_num))
      (by norm_num) (by norm_num))
  have h2 : (F64.fin false 5).mul (F64.fin false (5854679515581645 / 9007199254740992)) = F64.fin false (13 / 4) :=
    (F64.mul_fin false false 5 (5854679515581645 / 9007199254740992)).trans
      (F64.round_eval_of_rne false _ (1) 7318349394477056 _ (by norm_num) (by norm_num) (by norm_num)
      (rne_eq_of_near _ (7318349394477056) (by norm_num) (by norm_num))
      (by norm_num) (by norm_num))
  have h3 : (F64.fin false (13 / 4)).div (F64.fin false 1000) = F64.fin false (7493989779944505 / 2305843009213693952) :=
    (F64.div_fin false false (13 / 4) 1000 (by norm_num)).trans
      (F64.round_eval_of_rne false _ (-9) 7493989779944505 _ (by norm_num) (by norm_num) (by norm_num)
      (rne_eq_of_near _ (7493989779944505) (by norm_num) (by norm_num))
      (by norm_num) (by norm_num))
  have h4 : (F64.fin false (7493989779944505 / 2305843009213693952)).div (F64.fin false 3) = F64.fin false (2497996593314835 / 2305843009213693952) :=
    (F64.div_fin false false (7493989779944505 / 2305843009213693952) 3 (by norm_num)).trans
      (F64.round_eval_of_rne false _ (-10) 4995993186629670 _ (by norm_num) (by norm_num) (by norm_num)
      (rne_eq_of_near _ (4995993186629670) (by norm_num) (by norm_num))
      (by norm_num) (by norm_num))
  have h5 : (F64.fin false 18).mul (F64.fin false (2497996593314835 / 2305843009213693952)) = F64.fin false (5620492334958379 / 288230376151711744) :=
    (F64.mul_fin false false 18 (2497996593314835 / 2305843009213693952)).trans
      (F64.round_eval_of_rne false _ (-6) 5620492334958379 _ (by norm_num) (by norm_num) (by norm_num)
      (rne_eq_of_near _ (5620492334958379) (by norm_num) (by norm_num))
      (by norm_num) (by norm_num))
  have h6 : (F64.fin false (5620492334958379 / 288230376151711744)).mul (F64.fin false (2015360833248297 / 1125899906842624)) = F64.fin false (5030340639787749 / 144115188075855872) :=
    (F64.mul_fin false false (5620492334958379 / 288230376151711744) (2015360833248297 / 1125899906842624)).trans
      (F64.round_eval_of_rne false _ (-5) 5030340639787749 _ (by norm_num) (by norm_num) (by norm_num)
      (rne_eq_of_near _ (5030340639787749) (by norm_num) (by norm_num))
      (by norm_num) (by norm_num))
  have h7 : (F64.fin false (5030340639787749 / 144115188075855872)).mul (F64.fin false 70) = F64.fin false (2750967537383925 / 1125899906842624) :=
    (F64.mul_fin false false (5030340639787749 / 144115188075855872) 70).trans
      (F64.round_eval_of_rne false _ (1) 5501935074767850 _ (by norm_num) (by norm_num) (by norm_num)
      (rne_eq_of_near _ (5501935074767850) (by norm_num) (by norm_num))
      (by norm_num) (by norm_num))
  have h8 : (F64.fin false (2750967537383925 / 1125899906842624)).div (F64.fin false 1000) = F64.fin false (2816990758281139 / 1152921504606846976) :=
    (F64.div_fin false false (2750967537383925 / 1125899906842624) 1000 (by norm_num)).trans
      (F64.round_eval_of_rne false _ (-9) 5633981516562278 _ (by norm_num) (by norm_num) (by norm_num)
      (rne_eq_of_near _ (5633981516562278) (by norm_num) (by norm_num))
      (by norm_num) (by norm_num))
  have h9 : (F64.fin false (2816990758281139 / 1152921504606846976)).mul (F64.fin false 3) = F64.fin false (8450972274843417 / 1152921504606846976) :=
    (F64.mul_fin false false (2816990758281139 / 1152921504606846976) 3).trans
      (F64.round_eval_of_rne false _ (-8) 8450972274843417 _ (by norm_num) (by norm_num) (by norm_num)
      (rne_eq_of_near _ (8450972274843417) (by norm_num) (by norm_num))
      (by norm_num) (by norm_num))
  have h10 : (F64.fin false (8450972274843417 / 1152921504606846976)).mul (F64.fin false 60) = F64.fin false (7922786507665703 / 18014398509481984) :=
    (F64.mul_fin false false (8450972274843417 / 1152921504606846976) 60).trans
      (F64.round_eval_of_rne false _ (-2) 7922786507665703 _ (by norm_num) (by norm_num) (by norm_num)
      (rne_eq_of_near _ (7922786507665703) (by norm_num) (by norm_num))
      (by norm_num) (by norm_num))
  simp only [RunningSpentCalories64, distance64]
  rw [meanSpeed64_of_ne _ _ _ (by norm_num)]
  simp only [distance64, lit_lenStep_val, lit_mInKm_val, lit_minInH_val,
    lit_runningCaloriesMeanSpeedMultiplier_val, lit_runningCaloriesMeanSpeedShift_val]
  rw [h1, h2, h3, h4, h5, h6, h7, h8, h9, h10]

/-- Binary64 running calories of 1000 steps at 70 kg in 1 hour. -/
theorem running64_1000_70_1 :
    RunningSpentCalories64 1000 (F64.fin false 70) (F64.fin false 1) = F64.fin false (773709619889229 / 8796093022208) := by
  have h1 : F64.ofInt 1000 = F64.fin false 1000 :=
    (F64.ofInt_of_nonneg 1000 (by norm_num)).trans
      (F64.round_eval_of_rne false _ (9) 8796093022208000 _ (by norm_num) (by norm_num) (by norm_num)
      (rne_eq_of_near _ (8796093022208000) (by norm_num) (by norm_num))
      (by norm_num) (by norm_num))
  have h2 : (F64.fin false 1000).mul (F64.fin false (5854679515581645 / 9007199254740992)) = F64.fin false 650 :=
    (F64.mul_fin false false 1000 (5854679515581645 / 9007199254740992)).trans
      (F64.round_eval_of_rne false _ (9) 5717460464435200 _ (by norm_num) (by norm_num) (by norm_num)
      (rne_eq_of_near _ (5717460464435200) (by norm_num) (by norm_num))
      (by norm_num) (by norm_num))
  have h3 : (F64.fin false 650).div (F64.fin false 1000) = F64.fin false (5854679515581645 / 9007199254740992) :=
    (F64.div_fin false false 650 1000 (by norm_num)).trans
      (F64.round_eval_of_rne false _ (-1) 5854679515581645 _ (by norm_num) (by norm_num) (by norm_num)
      (rne_eq_of_near _ (5854679515581645) (by norm_num) (by norm_num))
      (by norm_num) (by norm_num))
  have h4 : (F64.fin false (5854679515581645 / 9007199254740992)).div (F64.fin false 1) = F64.fin false (5854679515581645 / 9007199254740992) :=
    (F64.div_fin false false (5854679515581645 / 9007199254740992) 1 (by norm_num)).trans
      (F64.round_eval_of_rne false _ (-1) 5854679515581645 _ (by norm_num) (by norm_num) (by norm_num)
      (rne_eq_of_near _ (5854679515581645) (by norm_num) (by norm_num))
      (by norm_num) (by norm_num))
  have h5 : (F64.fin false 18).mul (F64.fin false (5854679515581645 / 9007199254740992)) = F64.fin false (6586514455029351 / 562949953421312) :=
    (F64.mul_fin false false 18 (5854679515581645 / 9007199254740992)).trans
      (F64.round_eval_of_rne false _ (3) 6586514455029351 _ (by norm_num) (by norm_num) (by norm_num)
      (rne_eq_of_near _ (6586514455029351) (by norm_num) (by norm_num))
      (by norm_num) (by norm_num))
  have h6 : (F64.fin false (6586514455029351 / 562949953421312)).mul (F64.fin false (2015360833248297 / 1125899906842624)) = F64.fin false (5894930437251269 / 281474976710656) :=
    (F64.mul_fin false false (6586514455029351 / 562949953421312) (2015360833248297 / 1125899906842624)).trans
      (F64.round_eval_of_rne false _ (4) 5894930437251269 _ (by norm_num) (by norm_num) (by norm_num)
      (rne_eq_of_near _ (5894930437251269) (by norm_num) (by norm_num))
      (by norm_num) (by norm_num))
  have h7 : (F64.fin false (5894930437251269 / 281474976710656)).mul (F64.fin false 70) = F64.fin false (6447580165743575 / 4398046511104) :=
    (F64.mul_fin false false (5894930437251269 / 281474976710656) 70).trans
      (F64.round_eval_of_rne false _ (10) 6447580165743575 _ (by norm_num) (by norm_num) (by norm_num)
      (rne_eq_of_near _ (6447580165743575) (by norm_num) (by norm_num))
      (by norm_num) (by norm_num))
  have h8 : (F64.fin false (6447580165743575 / 4398046511104)).div (F64.fin false 1000) = F64.fin false (6602322089721421 / 4503599627370496) :=
    (F64.div_fin false false (6447580165743575 / 4398046511104) 1000 (by norm_num)).trans
      (F64.round_eval_of_rne false _ (0) 6602322089721421 _ (by norm_num) (by norm_num) (by norm_num)
      (rne_eq_of_near _ (6602322089721421) (by norm_num) (by norm_num))
      (by norm_num) (by norm_num))
  have h9 : (F64.fin false (6602322089721421 / 4503599627370496)).mul (F64.fin false 1) = F64.fin false (6602322089721421 / 4503599627370496) :=
    (F64.mul_fin false false (6602322089721421 / 4503599627370496) 1).trans
      (F64.round_eval_of_rne false _ (0) 6602322089721421 _ (by norm_num) (by norm_num) (by norm_num)
      (rne_eq_of_near _ (6602322089721421) (by norm_num) (by norm_num))
      (by norm_num) (by norm_num))
  have h10 : (F64.fin false (6602322089721421 / 4503599627370496)).mul (F64.fin false 60) = F64.fin false (773709619889229 / 8796093022208) :=
    (F64.mul_fin false false (6602322089721421 / 4503599627370496) 60).trans
      (F64.round_eval_of_rne false _ (6) 6189676959113832 _ (by norm_num) (by norm_num) (by norm_num)
      (rne_eq_of_near _ (6189676959113832) (by norm_num) (by norm_num))
      (by norm_num) (by norm_num))
  simp only [RunningSpentCalories64, distance64]
  rw [meanSpeed64_of_ne _ _ _ (by norm_num)]
  simp only [distance64, lit_lenStep_val, lit_mInKm_val, lit_minInH_val,
    lit_runningCaloriesMeanSpeedMultiplier_val, lit_runningCaloriesMeanSpeedShift_val]
  rw [h1, h2, h3, h4, h5, h6, h7, h8, h9, h10]

/-- Binary64 running calories of 1000 steps at 70 kg in 3 hours. -/
theorem running64_1000_70_3 :
    RunningSpentCalories64 1000 (F64.fin false 70) (F64.fin false 3) = F64.fin false (6189676959113833 / 70368744177664) := by
  have h1 : F64.ofInt 1000 = F64.fin false 1000 :=
    (F64.ofInt_of_nonneg 1000 (by norm_num)).trans
      (F64.round_eval_of_rne false _ (9) 8796093022208000 _ (by norm_num) (by norm_num) (by norm_num)
      (rne_eq_of_near _ (8796093022208000) (by norm_num) (by norm_num))
      (by norm_num) (by norm_num))
  have h2 : (F64.fin false 1000).mul (F64.fin false (5854679515581645 / 9007199254740992)) = F64.fin false 650 :=
    (F64.mul_fin false false 1000 (5854679515581645 / 9007199254740992)).trans
      (F64.round_eval_of_rne false _ (9) 5717460464435200 _ (by norm_num) (by norm_num) (by norm_num)
      (rne_eq_of_near _ (5717460464435200) (by norm_num) (by norm_num))
      (by norm_num) (by norm_num))
  have h3 : (F64.fin false 650).div (F64.fin false 1000) = F64.fin false (5854679515581645 / 9007199254740992) :=
    (F64.div_fin false false 650 1000 (by norm_num)).trans
      (F64.round_eval_of_rne false _ (-1) 5854679515581645 _ (by norm_num) (by norm_num) (by norm_num)
      (rne_eq_of_near _ (5854679515581645) (by norm_num) (by norm_num))
      (by norm_num) (by norm_num))
  have h4 : (F64.fin false (5854679515581645 / 9007199254740992)).div (F64.fin false 3) = F64.fin false (1951559838527215 / 9007199254740992) :=
    (F64.div_fin false false (5854679515581645 / 9007199254740992) 3 (by norm_num)).trans
      (F64.round_eval_of_rne false _ (-3) 7806239354108860 _ (by norm_num) (by norm_num) (by norm_num)
      (rne_eq_of_near _ (7806239354108860) (by norm_num) (by norm_num))
      (by norm_num) (by norm_num))
  have h5 : (F64.fin false 18).mul (F64.fin false (1951559838527215 / 9007199254740992)) = F64.fin false (2195504818343117 / 562949953421312) :=
    (F64.mul_fin false false 18 (1951559838527215 / 9007199254740992)).trans
      (F64.round_eval_of_rne false _ (1) 8782019273372468 _ (by norm_num) (by norm_num) (by norm_num)
      (by rw [rne_half_odd _ (8782019273372467) (by norm_num) (by norm_num)]; norm_num)
      (by norm_num) (by norm_num))
  have h6 : (F64.fin false (2195504818343117 / 562949953421312)).mul (F64.fin false (2015360833248297 / 1125899906842624)) = F64.fin false (7859907249668359 / 1125899906842624) :=
    (F64.mul_fin false false (2195504818343117 / 562949953421312) (2015360833248297 / 1125899906842624)).trans
      (F64.round_eval_of_rne false _ (2) 7859907249668359 _ (by norm_num) (by norm_num) (by norm_num)
      (rne_eq_of_near _ (7859907249668359) (by norm_num) (by norm_num))
      (by norm_num) (by norm_num))
  have h7 : (F64.fin false (7859907249668359 / 1125899906842624)).mul (F64.fin false 70) = F64.fin false (268649173572649 / 549755813888) :=
    (F64.mul_fin false false (7859907249668359 / 1125899906842624) 70).trans
      (F64.round_eval_of_rne false _ (8) 8596773554324768 _ (by norm_num) (by norm_num) (by norm_num)
      (rne_eq_of_near _ (8596773554324768) (by norm_num) (by norm_num))
      (by norm_num) (by norm_num))
  have h8 : (F64.fin false (268649173572649 / 549755813888)).div (F64.fin false 1000) = F64.fin false (4401548059814281 / 9007199254740992) :=
    (F64.div_fin false false (268649173572649 / 549755813888) 1000 (by norm_num)).trans
      (F64.round_eval_of_rne false _ (-2) 8803096119628562 _ (by norm_num) (by norm_num) (by norm_num)
      (rne_eq_of_near _ (8803096119628562) (by norm_num) (by norm_num))
      (by norm_num) (by norm_num))
  have h9 : (F64.fin false (4401548059814281 / 9007199254740992)).mul (F64.fin false 3) = F64.fin false (3301161044860711 / 2251799813685248) :=
    (F64.mul_fin false false (4401548059814281 / 9007199254740992) 3).trans
      (F64.round_eval_of_rne false _ (0) 6602322089721422 _ (by norm_num) (by norm_num) (by norm_num)
      (by rw [rne_half_odd _ (6602322089721421) (by norm_num) (by norm_num)]; norm_num)
      (by norm_num) (by norm_num))
  have h10 : (F64.fin false (3301161044860711 / 2251799813685248)).mul (F64.fin false 60) = F64.fin false (6189676959113833 / 70368744177664) :=
    (F64.mul_fin false false (3301161044860711 / 2251799813685248) 60).trans
      (F64.round_eval_of_rne false _ (6) 6189676959113833 _ (by norm_num) (by norm_num) (by norm_num)
      (rne_eq_of_near _ (6189676959113833) (by norm_num) (by norm_num))
      (by norm_num) (by norm_num))
  simp only [RunningSpentCalories64, distance64]
  rw [meanSpeed64_of_ne _ _ _ (by norm_num)]
  simp only [distance64, lit_lenStep_val, lit_mInKm_val, lit_minInH_val,
    lit_runningCaloriesMeanSpeedMultiplier_val, lit_runningCaloriesMeanSpeedShift_val]
  rw [h1, h2, h3, h4, h5, h6, h7, h8, h9, h10]

/-- Binary64 swimming calories of 31 lengths of 25 m at 70 kg in half an hour. -/
theorem swimming64_25_31_half :
    SwimmingSpentCalories64 25 31 (F64.fin false (1 / 2)) (F64.fin false 70) = F64.fin false (6526701022478337 / 35184372088832) := by
  have h1 : F64.ofInt 25 = F64.fin false 25 :=
    (F64.ofInt_of_nonneg 25 (by norm_num)).trans
      (F64.round_eval_of_rne false _ (4) 7036874417766400 _ (by norm_num) (by norm_num) (by norm_num)
      (rne_eq_of_near _ (7036874417766400) (by norm_num) (by norm_num))
      (by norm_num) (by norm_num))
  have h2 : F64.ofInt 31 = F64.fin false 31 :=
    (F64.ofInt_of_nonneg 31 (by norm_num)).trans
      (F64.round_eval_of_rne false _ (4) 8725724278030336 _ (by norm_num) (by norm_num) (by norm_num)
      (rne_eq_of_near _ (8725724278030336) (by norm_num) (by norm_num))
      (by norm_num) (by norm_num))
  have h3 : (F64.fin false 25).mul (F64.fin false 31) = F64.fin false 775 :=
    (F64.mul_fin false false 25 31).trans
      (F64.round_eval_of_rne false _ (9) 6816972092211200 _ (by norm_num) (by norm_num) (by norm_num)
      (rne_eq_of_near _ (6816972092211200) (by norm_num) (by norm_num))
      (by norm_num) (by norm_num))
  have h4 : (F64.fin false 775).div (F64.fin false 1000) = F64.fin false (6980579422424269 / 9007199254740992) :=
    (F64.div_fin false false 775 1000 (by norm_num)).trans
      (F64.round_eval_of_rne false _ (-1) 6980579422424269 _ (by norm_num) (by norm_num) (by norm_num)
      (rne_eq_of_near _ (6980579422424269) (by norm_num) (by norm_num))
      (by norm_num) (by norm_num))
  have h5 : (F64.fin false (6980579422424269 / 9007199254740992)).div (F64.fin false (1 / 2)) = F64.fin false (6980579422424269 / 4503599627370496) :=
    (F64.div_fin false false (6980579422424269 / 9007199254740992) (1 / 2) (by norm_num)).trans
      (F64.round_eval_of_rne false _ (0) 6980579422424269 _ (by norm_num) (by norm_num) (by norm_num)
      (rne_eq_of_near _ (6980579422424269) (by norm_num) (by norm_num))
      (by norm_num) (by norm_num))
  have h6 : (F64.fin false (6980579422424269 / 4503599627370496)).add (F64.fin false (2476979795053773 / 2251799813685248)) = F64.fin false (1491817376566477 / 562949953421312) :=
    (F64.add_fin_pos (6980579422424269 / 4503599627370496) (2476979795053773 / 2251799813685248)).trans
      (F64.round_eval_of_rne false _ (1) 5967269506265908 _ (by norm_num) (by norm_num) (by norm_num)
      (by rw [rne_half_odd _ (5967269506265907) (by norm_num) (by norm_num)]; norm_num)
      (by norm_num) (by norm_num))
  have h7 : (F64.fin false (1491817376566477 / 562949953421312)).mul (F64.fin false 2) = F64.fin false (1491817376566477 / 281474976710656) :=
    (F64.mul_fin false false (1491817376566477 / 562949953421312) 2).trans
      (F64.round_eval_of_rne false _ (2) 5967269506265908 _ (by norm_num) (by norm_num) (by norm_num)
      (rne_eq_of_near _ (5967269506265908) (by norm_num) (by norm_num))
      (by norm_num) (by norm_num))
  have h8 : (F64.fin false (1491817376566477 / 281474976710656)).mul (F64.fin false 70) = F64.fin false (6526701022478337 / 17592186044416) :=
    (F64.mul_fin false false (1491817376566477 / 281474976710656) 70).trans
      (F64.round_eval_of_rne false _ (8) 6526701022478337 _ (by norm_num) (by norm_num) (by norm_num)
      (rne_eq_of_near _ (6526701022478337) (by norm_num) (by norm_num))
      (by norm_num) (by norm_num))
  have h9 : (F64.fin false (6526701022478337 / 17592186044416)).mul (F64.fin false (1 / 2)) = F64.fin false (6526701022478337 / 35184372088832) :=
    (F64.mul_fin false false (6526701022478337 / 17592186044416) (1 / 2)).trans
      (F64.round_eval_of_rne false _ (7) 6526701022478337 _ (by norm_num) (by norm_num) (by norm_num)
      (rne_eq_of_near _ (6526701022478337) (by norm_num) (by norm_num))
      (by norm_num) (by norm_num))
  have hz : (F64.fin false (1 / 2)).isZero = false := by
    simp only [F64.isZero, decide_eq_false_iff_not]
    norm_num
  simp only [SwimmingSpentCalories64, swimmingMeanSpeed64, hz, Bool.false_eq_true, if_false,
    lit_mInKm_val, lit_swimmingCaloriesMeanSpeedShift_val,
    lit_swimmingCaloriesWeightMultiplier_val]
  rw [h1, h2, h3, h4, h5, h6, h7, h8, h9]

/-- Binary64 swimming calories of 31 lengths of 25 m at 70 kg in the next duration after half an hour. -/
theorem swimming64_25_31_next :
    SwimmingSpentCalories64 25 31 (F64.fin false (4503599627370497 / 9007199254740992)) (F64.fin false 70) = F64.fin false (371 / 2) := by
  have h1 : F64.ofInt 25 = F64.fin false 25 :=
    (F64.ofInt_of_nonneg 25 (by norm_num)).trans
      (F64.round_eval_of_rne false _ (4) 7036874417766400 _ (by norm_num) (by norm_num) (by norm_num)
      (rne_eq_of_near _ (7036874417766400) (by norm_num) (by norm_num))
      (by norm_num) (by norm_num))
  have h2 : F64.ofInt 31 = F64.fin false 31 :=
    (F64.ofInt_of_nonneg 31 (by norm_num)).trans
      (F64.round_eval_of_rne false _ (4) 8725724278030336 _ (by norm_num) (by norm_num) (by norm_num)
      (rne_eq_of_near _ (8725724278030336) (by norm_num) (by norm_num))
      (by norm_num) (by norm_num))
  have h3 : (F64.fin false 25).mul (F64.fin false 31) = F64.fin false 775 :=
    (F64.mul_fin false false 25 31).trans
      (F64.round_eval_of_rne false _ (9) 6816972092211200 _ (by norm_num) (by norm_num) (by norm_num)
      (rne_eq_of_near _ (6816972092211200) (by norm_num) (by norm_num))
      (by norm_num) (by norm_num))
  have h4 : (F64.fin false 775).div (F64.fin false 1000) = F64.fin false (6980579422424269 / 9007199254740992) :=
    (F64.div_fin false false 775 1000 (by norm_num)).trans
      (F64.round_eval_of_rne false _ (-1) 6980579422424269 _ (by norm_num) (by norm_num) (by norm_num)
      (rne_eq_of_near _ (6980579422424269) (by norm_num) (by norm_num))
      (by norm_num) (by norm_num))
  have h5 : (F64.fin false (6980579422424269 / 9007199254740992)).div (F64.fin false (4503599627370497 / 9007199254740992)) = F64.fin false (6980579422424267 / 4503599627370496) :=
    (F64.div_fin false false (6980579422424269 / 9007199254740992) (4503599627370497 / 9007199254740992) (by norm_num)).trans
      (F64.round_eval_of_rne false _ (0) 6980579422424267 _ (by norm_num) (by norm_num) (by norm_num)
      (rne_eq_of_near _ (6980579422424267) (by norm_num) (by norm_num))
      (by norm_num) (by norm_num))
  have h6 : (F64.fin false (6980579422424267 / 4503599627370496)).add (F64.fin false (2476979795053773 / 2251799813685248)) = F64.fin false (2983634753132953 / 1125899906842624) :=
    (F64.add_fin_pos (6980579422424267 / 4503599627370496) (2476979795053773 / 2251799813685248)).trans
      (F64.round_eval_of_rne false _ (1) 5967269506265906 _ (by norm_num) (by norm_num) (by norm_num)
      (rne_half_even _ (5967269506265906) (by norm_num) (by norm_num))
      (by norm_num) (by norm_num))
  have h7 : (F64.fin false (2983634753132953 / 1125899906842624)).mul (F64.fin false 2) = F64.fin false (2983634753132953 / 562949953421312) :=
    (F64.mul_fin false false (2983634753132953 / 1125899906842624) 2).trans
      (F64.round_eval_of_rne false _ (2) 5967269506265906 _ (by norm_num) (by norm_num) (by norm_num)
      (rne_eq_of_near _ (5967269506265906) (by norm_num) (by norm_num))
      (by norm_num) (by norm_num))
  have h8 : (F64.fin false (2983634753132953 / 562949953421312)).mul (F64.fin false 70) = F64.fin false (6526701022478335 / 17592186044416) :=
    (F64.mul_fin false false (2983634753132953 / 562949953421312) 70).trans
      (F64.round_eval_of_rne false _ (8) 6526701022478335 _ (by norm_num) (by norm_num) (by norm_num)
      (rne_eq_of_near _ (6526701022478335) (by norm_num) (by norm_num))
      (by norm_num) (by norm_num))
  have h9 : (F64.fin false (6526701022478335 / 17592186044416)).mul (F64.fin false (4503599627370497 / 9007199254740992)) = F64.fin false (371 / 2) :=
    (F64.mul_fin false false (6526701022478335 / 17592186044416) (4503599627370497 / 9007199254740992)).trans
      (F64.round_eval_of_rne false _ (7) 6526701022478336 _ (by norm_num) (by norm_num) (by norm_num)
      (rne_eq_of_near _ (6526701022478336) (by norm_num) (by norm_num))
      (by norm_num) (by norm_num))
  have hz : (F64.fin false (4503599627370497 / 9007199254740992)).isZero = false := by
    simp only [F64.isZero, decide_eq_false_iff_not]
    norm_num
  simp only [SwimmingSpentCalories64, swimmingMeanSpeed64, hz, Bool.false_eq_true, if_false,
    lit_mInKm_val, lit_swimmingCaloriesMeanSpeedShift_val,
    lit_swimmingCaloriesWeightMultiplier_val]
  rw [h1, h2, h3, h4, h5, h6, h7, h8, h9]

/-- Binary64 walking calories of 10000 steps in half an hour at 70 kg and 180 cm. -/
theorem walking64_10000_half :
    WalkingSpentCalories64 10000 (F64.fin false (1 / 2)) (F64.fin false 70) (F64.fin false 180) = F64.fin false (1133370057744463 / 2199023255552) := by
  have h1 : F64.ofInt 10000 = F64.fin false 10000 :=
    (F64.ofInt_of_nonneg 10000 (by norm_num)).trans
      (F64.round_eval_of_rne false _ (13) 5497558138880000 _ (by norm_num) (by norm_num) (by norm_num)
      (rne_eq_of_near _ (5497558138880000) (by norm_num) (by norm_num))
      (by norm_num) (by norm_num))
  have h2 : (F64.fin false 10000).mul (F64.fin false (5854679515581645 / 9007199254740992)) = F64.fin false 6500 :=
    (F64.mul_fin false false 10000 (5854679515581645 / 9007199254740992)).trans
      (F64.round_eval_of_rne false _ (12) 7146825580544000 _ (by norm_num) (by norm_num) (by norm_num)
      (rne_eq_of_near _ (7146825580544000) (by norm_num) (by norm_num))
      (by norm_num) (by norm_num))
  have h3 : (F64.fin false 6500).div (F64.fin false 1000) = F64.fin false (13 / 2) :=
    (F64.div_fin false false 6500 1000 (by norm_num)).trans
      (F64.round_eval_of_rne false _ (2) 7318349394477056 _ (by norm_num) (by norm_num) (by norm_num)
      (rne_eq_of_near _ (7318349394477056) (by norm_num) (by norm_num))
      (by norm_num) (by norm_num))
  have h4 : (F64.fin false (13 / 2)).div (F64.fin false (1 / 2)) = F64.fin false 13 :=
    (F64.div_fin false false (13 / 2) (1 / 2) (by norm_num)).trans
      (F64.round_eval_of_rne false _ (3) 7318349394477056 _ (by norm_num) (by norm_num) (by norm_num)
      (rne_eq_of_near _ (7318349394477056) (by norm_num) (by norm_num))
      (by norm_num) (by norm_num))
  have h5 : (F64.fin false 13).mul (F64.fin false (626000348204499 / 2251799813685248)) = F64.fin false (8138004526658487 / 2251799813685248) :=
    (F64.mul_fin false false 13 (626000348204499 / 2251799813685248)).trans
      (F64.round_eval_of_rne false _ (1) 8138004526658487 _ (by norm_num) (by norm_num) (by norm_num)
      (rne_eq_of_near _ (8138004526658487) (by norm_num) (by norm_num))
      (by norm_num) (by norm_num))
  have h6 : (F64.fin false 180).div (F64.fin false 100) = F64.fin false (8106479329266893 / 4503599627370496) :=
    (F64.div_fin false false 180 100 (by norm_num)).trans
      (F64.round_eval_of_rne false _ (0) 8106479329266893 _ (by norm_num) (by norm_num) (by norm_num)
      (rne_eq_of_near _ (8106479329266893) (by norm_num) (by norm_num))
      (by norm_num) (by norm_num))
  have h7 : (F64.fin false (8138004526658487 / 2251799813685248)).powTwo = F64.fin false (919085886229493 / 70368744177664) :=
    F64.powTwo_eval false (8138004526658487 / 2251799813685248) (3) 7352687089835944 (919085886229493 / 70368744177664) (by norm_num) (by norm_num)
      (rne_eq_of_near _ (7352687089835944) (by norm_num) (by norm_num))
      (by norm_num) (by norm_num) (by norm_num) (by norm_num) (by norm_num)
  have h8 : (F64.fin false (919085886229493 / 70368744177664)).div (F64.fin false (8106479329266893 / 4503599627370496)) = F64.fin false (4084826161019969 / 562949953421312) :=
    (F64.div_fin false false (919085886229493 / 70368744177664) (8106479329266893 / 4503599627370496) (by norm_num)).trans
      (F64.round_eval_of_rne false _ (2) 8169652322039938 _ (by norm_num) (by norm_num) (by norm_num)
      (rne_eq_of_near _ (8169652322039938) (by norm_num) (by norm_num))
      (by norm_num) (by norm_num))
  have h9 : (F64.fin false (4084826161019969 / 562949953421312)).mul (F64.fin false (8358680908399641 / 288230376151711744)) = F64.fin false (7581437354853063 / 36028797018963968) :=
    (F64.mul_fin false false (4084826161019969 / 562949953421312) (8358680908399641 / 288230376151711744)).trans
      (F64.round_eval_of_rne false _ (-3) 7581437354853063 _ (by norm_num) (by norm_num) (by norm_num)
      (rne_eq_of_near _ (7581437354853063) (by norm_num) (by norm_num))
      (by norm_num) (by norm_num))
  have h10 : (F64.fin false (7581437354853063 / 36028797018963968)).mul (F64.fin false 70) = F64.fin false (4146098553435269 / 281474976710656) :=
    (F64.mul_fin false false (7581437354853063 / 36028797018963968) 70).trans
      (F64.round_eval_of_rne false _ (3) 8292197106870538 _ (by norm_num) (by norm_num) (by norm_num)
      (rne_eq_of_near _ (8292197106870538) (by norm_num) (by norm_num))
      (by norm_num) (by norm_num))
  have h11 : (F64.fin false (1261007895663739 / 36028797018963968)).mul (F64.fin false 70) = F64.fin false (2758454771764429 / 1125899906842624) :=
    (F64.mul_fin false false (1261007895663739 / 36028797018963968) 70).trans
      (F64.round_eval_of_rne false _ (1) 5516909543528858 _ (by norm_num) (by norm_num) (by norm_num)
      (rne_eq_of_near _ (5516909543528858) (by norm_num) (by norm_num))
      (by norm_num) (by norm_num))
  have h12 : (F64.fin false (2758454771764429 / 1125899906842624)).add (F64.fin false (4146098553435269 / 281474976710656)) = F64.fin false (604464030797047 / 35184372088832) :=
    (F64.add_fin_pos (2758454771764429 / 1125899906842624) (4146098553435269 / 281474976710656)).trans
      (F64.round_eval_of_rne false _ (4) 4835712246376376 _ (by norm_num) (by norm_num) (by norm_num)
      (rne_eq_of_near _ (4835712246376376) (by norm_num) (by norm_num))
      (by norm_num) (by norm_num))
  have h13 : (F64.fin false (604464030797047 / 35184372088832)).mul (F64.fin false (1 / 2)) = F64.fin false (604464030797047 / 70368744177664) :=
    (F64.mul_fin false false (604464030797047 / 35184372088832) (1 / 2)).trans
      (F64.round_eval_of_rne false _ (3) 4835712246376376 _ (by norm_num) (by norm_num) (by norm_num)
      (rne_eq_of_near _ (4835712246376376) (by norm_num) (by norm_num))
      (by norm_num) (by norm_num))
  have h14 : (F64.fin false (604464030797047 / 70368744177664)).mul (F64.fin false 60) = F64.fin false (1133370057744463 / 2199023255552) :=
    (F64.mul_fin false false (604464030797047 / 70368744177664) 60).trans
      (F64.round_eval_of_rne false _ (9) 4533480230977852 _ (by norm_num) (by norm_num) (by norm_num)
      (rne_half_even _ (4533480230977852) (by norm_num) (by norm_num))
      (by norm_num) (by norm_num))
  simp only [WalkingSpentCalories64]
  rw [meanSpeed64_of_ne _ _ _ (by norm_num)]
  simp only [distance64, lit_lenStep_val, lit_mInKm_val, lit_minInH_val, lit_kmhInMsec_val,
    lit_cmInM_val, lit_walkingCaloriesWeightMultiplier_val,
    lit_walkingSpeedHeightMultiplier_val]
  rw [h1, h2, h3, h4, h5, h6, h7, h8, h9, h10, h11, h12, h13, h14]

/-- Binary64 walking calories of 10000 steps in one hour at 70 kg and 180 cm. -/
theorem walking64_10000_one :
    WalkingSpentCalories64 10000 (F64.fin false 1) (F64.fin false 70) (F64.fin false 180) = F64.fin false (6473018742374717 / 17592186044416) := by
  have h1 : F64.ofInt 10000 = F64.fin false 10000 :=
    (F64.ofInt_of_nonneg 10000 (by norm_num)).trans
      (F64.round_eval_of_rne false _ (13) 5497558138880000 _ (by norm_num) (by norm_num) (by norm_num)
      (rne_eq_of_near _ (5497558138880000) (by norm_num) (by norm_num))
      (by norm_num) (by norm_num))
  have h2 : (F64.fin false 10000).mul (F64.fin false (5854679515581645 / 9007199254740992)) = F64.fin false 6500 :=
    (F64.mul_fin false false 10000 (5854679515581645 / 9007199254740992)).trans
      (F64.round_eval_of_rne false _ (12) 7146825580544000 _ (by norm_num) (by norm_num) (by norm_num)
      (rne_eq_of_near _ (7146825580544000) (by norm_num) (by norm_num))
      (by norm_num) (by norm_num))
  have h3 : (F64.fin false 6500).div (F64.fin false 1000) = F64.fin false (13 / 2) :=
    (F64.div_fin false false 6500 1000 (by norm_num)).trans
      (F64.round_eval_of_rne false _ (2) 7318349394477056 _ (by norm_num) (by norm_num) (by norm_num)
      (rne_eq_of_near _ (7318349394477056) (by norm_num) (by norm_num))
      (by norm_num) (by norm_num))
  have h4 : (F64.fin false (13 / 2)).div (F64.fin false 1) = F64.fin false (13 / 2) :=
    (F64.div_fin false false (13 / 2) 1 (by norm_num)).trans
      (F64.round_eval_of_rne false _ (2) 7318349394477056 _ (by norm_num) (by norm_num) (by norm_num)
      (rne_eq_of_near _ (7318349394477056) (by norm_num) (by norm_num))
      (by norm_num) (by norm_num))
  have h5 : (F64.fin false (13 / 2)).mul (F64.fin false (626000348204499 / 2251799813685248)) = F64.fin false (8138004526658487 / 4503599627370496) :=
    (F64.mul_fin false false (13 / 2) (626000348204499 / 2251799813685248)).trans
      (F64.round_eval_of_rne false _ (0) 8138004526658487 _ (by norm_num) (by norm_num) (by norm_num)
      (rne_eq_of_near _ (8138004526658487) (by norm_num) (by norm_num))
      (by norm_num) (by norm_num))
  have h6 : (F64.fin false 180).div (F64.fin false 100) = F64.fin false (8106479329266893 / 4503599627370496) :=
    (F64.div_fin false false 180 100 (by norm_num)).trans
      (F64.round_eval_of_rne false _ (0) 8106479329266893 _ (by norm_num) (by norm_num) (by norm_num)
      (rne_eq_of_near _ (8106479329266893) (by norm_num) (by norm_num))
      (by norm_num) (by norm_num))
  have h7 : (F64.fin false (8138004526658487 / 4503599627370496)).powTwo = F64.fin false (919085886229493 / 281474976710656) :=
    F64.powTwo_eval false (8138004526658487 / 4503599627370496) (1) 7352687089835944 (919085886229493 / 281474976710656) (by norm_num) (by norm_num)
      (rne_eq_of_near _ (7352687089835944) (by norm_num) (by norm_num))
      (by norm_num) (by norm_num) (by norm_num) (by norm_num) (by norm_num)
  have h8 : (F64.fin false (919085886229493 / 281474976710656)).div (F64.fin false (8106479329266893 / 4503599627370496)) = F64.fin false (4084826161019969 / 2251799813685248) :=
    (F64.div_fin false false (919085886229493 / 281474976710656) (8106479329266893 / 4503599627370496) (by norm_num)).trans
      (F64.round_eval_of_rne false _ (0) 8169652322039938 _ (by norm_num) (by norm_num) (by norm_num)
      (rne_eq_of_near _ (8169652322039938) (by norm_num) (by norm_num))
      (by norm_num) (by norm_num))
  have h9 : (F64.fin false (4084826161019969 / 2251799813685248)).mul (F64.fin false (8358680908399641 / 288230376151711744)) = F64.fin false (7581437354853063 / 144115188075855872) :=
    (F64.mul_fin false false (4084826161019969 / 2251799813685248) (8358680908399641 / 288230376151711744)).trans
      (F64.round_eval_of_rne false _ (-5) 7581437354853063 _ (by norm_num) (by norm_num) (by norm_num)
      (rne_eq_of_near _ (7581437354853063) (by norm_num) (by norm_num))
      (by norm_num) (by norm_num))
  have h10 : (F64.fin false (7581437354853063 / 144115188075855872)).mul (F64.fin false 70) = F64.fin false (4146098553435269 / 1125899906842624) :=
    (F64.mul_fin false false (7581437354853063 / 144115188075855872) 70).trans
      (F64.round_eval_of_rne false _ (1) 8292197106870538 _ (by norm_num) (by norm_num) (by norm_num)
      (rne_eq_of_near _ (8292197106870538) (by norm_num) (by norm_num))
      (by norm_num) (by norm_num))
  have h11 : (F64.fin false (1261007895663739 / 36028797018963968)).mul (F64.fin false 70) = F64.fin false (2758454771764429 / 1125899906842624) :=
    (F64.mul_fin false false (1261007895663739 / 36028797018963968) 70).trans
      (F64.round_eval_of_rne false _ (1) 5516909543528858 _ (by norm_num) (by norm_num) (by norm_num)
      (rne_eq_of_near _ (5516909543528858) (by norm_num) (by norm_num))
      (by norm_num) (by norm_num))
  have h12 : (F64.fin false (2758454771764429 / 1125899906842624)).add (F64.fin false (4146098553435269 / 1125899906842624)) = F64.fin false (3452276662599849 / 562949953421312) :=
    (F64.add_fin_pos (2758454771764429 / 1125899906842624) (4146098553435269 / 1125899906842624)).trans
      (F64.round_eval_of_rne false _ (2) 6904553325199698 _ (by norm_num) (by norm_num) (by norm_num)
      (rne_eq_of_near _ (6904553325199698) (by norm_num) (by norm_num))
      (by norm_num) (by norm_num))
  have h13 : (F64.fin false (3452276662599849 / 562949953421312)).mul (F64.fin false 1) = F64.fin false (3452276662599849 / 562949953421312) :=
    (F64.mul_fin false false (3452276662599849 / 562949953421312) 1).trans
      (F64.round_eval_of_rne false _ (2) 6904553325199698 _ (by norm_num) (by norm_num) (by norm_num)
      (rne_eq_of_near _ (6904553325199698) (by norm_num) (by norm_num))
      (by norm_num) (by norm_num))
  have h14 : (F64.fin false (3452276662599849 / 562949953421312)).mul (F64.fin false 60) = F64.fin false (6473018742374717 / 17592186044416) :=
    (F64.mul_fin false false (3452276662599849 / 562949953421312) 60).trans
      (F64.round_eval_of_rne false _ (8) 6473018742374717 _ (by norm_num) (by norm_num) (by norm_num)
      (rne_eq_of_near _ (6473018742374717) (by norm_num) (by norm_num))
      (by norm_num) (by norm_num))
  simp only [WalkingSpentCalories64]
  rw [meanSpeed64_of_ne _ _ _ (by norm_num)]
  simp only [distance64, lit_lenStep_val, lit_mInKm_val, lit_minInH_val, lit_kmhInMsec_val,
    lit_cmInM_val, lit_walkingCaloriesWeightMultiplier_val,
    lit_walkingSpeedHeightMultiplier_val]
  rw [h1, h2, h3, h4, h5, h6, h7, h8, h9, h10, h11, h12, h13, h14]

/-! ## The binary64 formulas against the exact ones -/


theorem relStep_pos : 0 < relStep := by
  unfold relStep; norm_num

theorem relStep_le_one : relStep ≤ 1 := by
  unfold relStep; norm_num

theorem relStep_pow_pos (n : ℕ) : 0 < relStep ^ n := pow_pos relStep_pos n

theorem relStep_pow_le_one (n : ℕ) : relStep ^ n ≤ 1 :=
  pow_le_one₀ relStep_pos.le relStep_le_one

theorem relStep_pow_ge (n : ℕ) : 1 - (n : ℚ) / 2 ^ 53 ≤ relStep ^ n := by
  have := one_add_mul_le_pow (R := ℚ) (a := -(1 / 2 ^ 53)) (by norm_num) n
  have h : (1 : ℚ) + -(1 / 2 ^ 53) = relStep := by unfold relStep; ring
  rw [h] at this
  calc 1 - (n : ℚ) / 2 ^ 53 = 1 + (n : ℚ) * -(1 / 2 ^ 53) := by ring
    _ ≤ relStep ^ n := this

theorem relStep_pow_ge_half (n : ℕ) (h : n ≤ 1000) : 1 / 2 ≤ relStep ^ n := by
  have h1 := relStep_pow_ge n
  have h2 : (n : ℚ) ≤ 1000 := by exact_mod_cast h
  have h3 : (n : ℚ) / 2 ^ 53 ≤ 1 / 2 := by
    rw [div_le_iff₀ (by positivity)]
    norm_num
    linarith
  linarith

theorem relStep_pow_anti {k j : ℕ} (h : k ≤ j) : relStep ^ j ≤ relStep ^ k :=
  pow_le_pow_of_le_one relStep_pos.le relStep_le_one h

theorem Near.refl (a : ℚ) : Near 0 a a := by
  simp [Near]

theorem Near.monoN {k j : ℕ} {a b : ℚ} (h : Near k a b) (hkj : k ≤ j) (ha : 0 ≤ a)
    (hb : 0 ≤ b) : Near j a b :=
  ⟨le_trans (mul_le_mul_of_nonneg_left (relStep_pow_anti hkj) hb) h.1,
    le_trans (mul_le_mul_of_nonneg_left (relStep_pow_anti hkj) ha) h.2⟩

theorem Near.trans {k j : ℕ} {a b c : ℚ} (h1 : Near k a b) (h2 : Near j b c) :
    Near (k + j) a c := by
  constructor
  · calc c * relStep ^ (k + j) = c * relStep ^ j * relStep ^ k := by rw [pow_add]; ring
      _ ≤ b * relStep ^ k := mul_le_mul_of_nonneg_right h2.1 (relStep_pow_pos k).le
      _ ≤ a := h1.1
  · calc a * relStep ^ (k + j) = a * relStep ^ k * relStep ^ j := by rw [pow_add]; ring
      _ ≤ b * relStep ^ j := mul_le_mul_of_nonneg_right h1.2 (relStep_pow_pos j).le
      _ ≤ c := h2.2

theorem Near.mulN {k j : ℕ} {a b c d : ℚ} (h1 : Near k a b) (h2 : Near j c d)
    (ha : 0 ≤ a) (hb : 0 ≤ b) (hc : 0 ≤ c) (hd : 0 ≤ d) : Near (k + j) (a * c) (b * d) := by
  have hk := (relStep_pow_pos k).le
  have hj := (relStep_pow_pos j).le
  constructor
  · calc b * d * relStep ^ (k + j) = (b * relStep ^ k) * (d * relStep ^ j) := by
          rw [pow_add]; ring
      _ ≤ a * c := mul_le_mul h1.1 h2.1 (mul_nonneg hd hj) ha
  · calc a * c * relStep ^ (k + j) = (a * relStep ^ k) * (c * relStep ^ j) := by
          rw [pow_add]; ring
      _ ≤ b * d := mul_le_mul h1.2 h2.2 (mul_nonneg hc hj) hb

theorem Near.divN {k j : ℕ} {a b c d : ℚ} (h1 : Near k a b) (h2 : Near j c d)
    (ha : 0 ≤ a) (hb : 0 ≤ b) (hc : 0 < c) (hd : 0 < d) : Near (k + j) (a / c) (b / d) := by
  have hk := relStep_pow_pos k
  have hj := relStep_pow_pos j
  constructor
  · rw [le_div_iff₀ hc]
    calc b / d * relStep ^ (k + j) * c = (b * relStep ^ k) * (c * relStep ^ j) / d := by
          rw [pow_add]; field_simp; ring
      _ ≤ a * d / d := by
          apply div_le_div_of_nonneg_right _ hd.le
          exact mul_le_mul h1.1 h2.2 (mul_nonneg hc.le hj.le) ha
      _ = a := by field_simp
  · rw [le_div_iff₀ hd]
    calc a / c * relStep ^ (k + j) * d = (a * relStep ^ k) * (d * relStep ^ j) / c := by
          rw [pow_add]; field_simp; ring
      _ ≤ b * c / c := by
          apply div_le_div_of_nonneg_right _ hc.le
          exact mul_le_mul h1.2 h2.1 (mul_nonneg hd.le hj.le) hb
      _ = b := by field_simp

theorem Near.addN {k : ℕ} {a b c d : ℚ} (h1 : Near k a b) (h2 : Near k c d) :
    Near k (a + c) (b + d) := by
  constructor
  · have := add_le_add h1.1 h2.1
    linarith
  · have := add_le_add h1.2 h2.2
    linarith

theorem Near.pos_left {k : ℕ} {a b : ℚ} (h : Near k a b) (hb : 0 < b) : 0 < a :=
  lt_of_lt_of_le (mul_pos hb (relStep_pow_pos k)) h.1

/-- A magnitude near a value of bounded exponent has a bounded exponent. -/
theorem Near.range {n : ℕ} {p x : ℚ} {N : ℤ} (h : Near n p x) (hn : n ≤ 1000)
    (h1 : 2 ^ (-N) ≤ x) (h2 : x ≤ 2 ^ N) :
    2 ^ (-(N + 1)) ≤ p ∧ p ≤ 2 ^ (N + 1) := by
  have hh := relStep_pow_ge_half n hn
  have hx : 0 < x := lt_of_lt_of_le (by positivity) h1
  have hp : 0 < p := h.pos_left hx
  constructor
  · rw [zpow_pred_eq_half]
    calc (2 : ℚ) ^ (-N) * (1 / 2) ≤ x * relStep ^ n :=
          mul_le_mul h1 hh (by norm_num) hx.le
      _ ≤ p := h.1
  · rw [zpow_succ_eq_double]
    have h3 : p * (1 / 2) ≤ 2 ^ N :=
      le_trans (le_trans (mul_le_mul_of_nonneg_left hh hp.le) h.2) h2
    linarith

theorem Appr.nonneg {k : ℕ} {L : ℤ} {p x : ℚ} (h : Appr k L p x) : 0 ≤ p ∧ 0 ≤ x := by
  rcases h with ⟨hx, hp⟩ | ⟨hn, h1, -⟩
  · rw [hx, hp]; exact ⟨le_refl 0, le_refl 0⟩
  · have hx : 0 < x := lt_of_lt_of_le (by positivity) h1
    exact ⟨(hn.pos_left hx).le, hx.le⟩

theorem Appr.monoA {k j : ℕ} {L M : ℤ} {p x : ℚ} (h : Appr k L p x) (hkj : k ≤ j)
    (hLM : L ≤ M) : Appr j M p x := by
  have h0 := h.nonneg
  rcases h with hz | ⟨hn, h1, h2⟩
  · exact Or.inl hz
  · exact Or.inr ⟨hn.monoN hkj h0.1 h0.2,
      le_trans (zpow_le_zpow_right₀ (by norm_num) (by omega)) h1,
      le_trans h2 (zpow_le_zpow_right₀ (by norm_num) hLM)⟩

/-- Rounding an approximation of bounded exponent costs one more rounding and
neither overflows nor underflows. -/
theorem F64.Tracks_round {n : ℕ} {N : ℤ} {p x : ℚ} (h : Appr n N p x) (hn : n ≤ 1000)
    (hN : N ≤ 1021) : F64.Tracks (n + 1) N (F64.round false p) x := by
  rcases h with ⟨hx, hp⟩ | ⟨hnear, h1, h2⟩
  · exact ⟨0, by rw [hp, F64.round_zero], Or.inl ⟨hx, rfl⟩⟩
  · obtain ⟨hlo, hhi⟩ := hnear.range hn h1 h2
    have hx : 0 < x := lt_of_lt_of_le (by positivity) h1
    have hp : 0 < p := hnear.pos_left hx
    have hlo2 : (2 : ℚ) ^ (-1022 : ℤ) ≤ p :=
      le_trans (zpow_le_zpow_right₀ (by norm_num) (by omega)) hlo
    have hhi2 : p ≤ (2 : ℚ) ^ (1023 : ℤ) :=
      le_trans hhi (zpow_le_zpow_right₀ (by norm_num) (by omega))
    obtain ⟨r1, r2⟩ := roundMag_relative hlo2
    refine ⟨roundMag p, F64.round_of_le false hp.le hhi2, Or.inr ⟨?_, h1, h2⟩⟩
    have hr : Near 1 (roundMag p) p := ⟨by simpa using r1, by simpa using r2⟩
    have := hr.trans hnear
    rwa [add_comm] at this

theorem Appr.mulA {k j : ℕ} {L M : ℤ} {p q x y : ℚ} (h1 : Appr k L p x) (h2 : Appr j M q y) :
    Appr (k + j) (L + M) (p * q) (x * y) := by
  have n1 := h1.nonneg
  have n2 := h2.nonneg
  rcases h1 with ⟨hx, hp⟩ | ⟨hn1, a1, b1⟩
  · exact Or.inl ⟨by rw [hx, zero_mul], by rw [hp, zero_mul]⟩
  · rcases h2 with ⟨hy, hq⟩ | ⟨hn2, a2, b2⟩
    · exact Or.inl ⟨by rw [hy, mul_zero], by rw [hq, mul_zero]⟩
    · refine Or.inr ⟨hn1.mulN hn2 n1.1 n1.2 n2.1 n2.2, ?_, ?_⟩
      · rw [show -(L + M) = -L + -M from by ring, zpow_add₀ (by norm_num : (2 : ℚ) ≠ 0)]
        exact mul_le_mul a1 a2 (by positivity) n1.2
      · rw [zpow_add₀ (by norm_num : (2 : ℚ) ≠ 0)]
        exact mul_le_mul b1 b2 n2.2 (by positivity)

theorem Appr.divA {k j : ℕ} {L M : ℤ} {p q x y : ℚ} (h1 : Appr k L p x) (h2 : Appr j M q y)
    (hy : y ≠ 0) : Appr (k + j) (L + M) (p / q) (x / y) := by
  have n1 := h1.nonneg
  rcases h2 with ⟨hy0, -⟩ | ⟨hn2, a2, b2⟩
  · exact absurd hy0 hy
  · have hy0 : 0 < y := lt_of_lt_of_le (by positivity) a2
    have hq0 : 0 < q := hn2.pos_left hy0
    rcases h1 with ⟨hx, hp⟩ | ⟨hn1, a1, b1⟩
    · exact Or.inl ⟨by rw [hx, zero_div], by rw [hp, zero_div]⟩
    · refine Or.inr ⟨hn1.divN hn2 n1.1 n1.2 hq0 hy0, ?_, ?_⟩
      · rw [show -(L + M) = -L - M from by ring, zpow_sub₀ (by norm_num : (2 : ℚ) ≠ 0)]
        exact div_le_div₀ (n1.2) a1 hy0 b2
      · rw [show L + M = L - -M from by ring, zpow_sub₀ (by norm_num : (2 : ℚ) ≠ 0)]
        exact div_le_div₀ (by positivity) b1 (by positivity) a2

theorem Appr.addA {k : ℕ} {L : ℤ} {p q x y : ℚ} (h1 : Appr k L p x) (h2 : Appr k L q y) :
    Appr k (L + 1) (p + q) (x + y) := by
  have n1 := h1.nonneg
  have n2 := h2.nonneg
  have hL : (2 : ℚ) ^ (-(L + 1)) ≤ 2 ^ (-L) := zpow_le_zpow_right₀ (by norm_num) (by omega)
  have hL2 : (2 : ℚ) ^ L ≤ 2 ^ (L + 1) := zpow_le_zpow_right₀ (by norm_num) (by omega)
  rcases h1 with ⟨hx, hp⟩ | ⟨hn1, a1, b1⟩
  · rw [hx, hp, zero_add, zero_add]
    exact h2.monoA (le_refl k) (by omega)
  · rcases h2 with ⟨hy, hq⟩ | ⟨hn2, a2, b2⟩
    · rw [hy, hq, add_zero, add_zero]
      exact Appr.monoA (Or.inr ⟨hn1, a1, b1⟩) (le_refl k) (by omega)
    · refine Or.inr ⟨hn1.addN hn2, ?_, ?_⟩
      · linarith
      · rw [zpow_succ_eq_double]
        linarith

theorem F64.Tracks.monoT {k j : ℕ} {L M : ℤ} {v : F64} {x : ℚ} (h : F64.Tracks k L v x)
    (hkj : k ≤ j) (hLM : L ≤ M) : F64.Tracks j M v x := by
  obtain ⟨z, hv, ha⟩ := h
  exact ⟨z, hv, ha.monoA hkj hLM⟩

theorem F64.Tracks.mulT {k j : ℕ} {L M : ℤ} {a b : F64} {x y : ℚ} (h1 : F64.Tracks k L a x)
    (h2 : F64.Tracks j M b y) (hn : k + j ≤ 1000) (hN : L + M ≤ 1021) :
    F64.Tracks (k + j + 1) (L + M) (a.mul b) (x * y) := by
  obtain ⟨z, hz, h1⟩ := h1
  obtain ⟨w, hw, h2⟩ := h2
  rw [hz, hw, F64.mul_fin]
  exact F64.Tracks_round (h1.mulA h2) hn hN

theorem F64.Tracks.divT {k j : ℕ} {L M : ℤ} {a b : F64} {x y : ℚ} (h1 : F64.Tracks k L a x)
    (h2 : F64.Tracks j M b y) (hy : y ≠ 0) (hn : k + j ≤ 1000) (hN : L + M ≤ 1021) :
    F64.Tracks (k + j + 1) (L + M) (a.div b) (x / y) := by
  obtain ⟨z, hz, h1⟩ := h1
  obtain ⟨w, hw, h2⟩ := h2
  have hw0 : w ≠ 0 := by
    rcases h2 with ⟨hy0, -⟩ | ⟨hn2, a2, -⟩
    · exact absurd hy0 hy
    · exact ne_of_gt (hn2.pos_left (lt_of_lt_of_le (by positivity) a2))
  rw [hz, hw, F64.div_fin false false z w hw0]
  exact F64.Tracks_round (h1.divA h2 hy) hn hN

theorem F64.Tracks.addT {k : ℕ} {L : ℤ} {a b : F64} {x y : ℚ} (h1 : F64.Tracks k L a x)
    (h2 : F64.Tracks k L b y) (hn : k ≤ 1000) (hN : L + 1 ≤ 1021) :
    F64.Tracks (k + 1) (L + 1) (a.add b) (x + y) := by
  obtain ⟨z, hz, h1⟩ := h1
  obtain ⟨w, hw, h2⟩ := h2
  rw [hz, hw, F64.add_fin_pos]
  exact F64.Tracks_round (h1.addA h2) hn hN

theorem F64.Tracks.powTwoT {k : ℕ} {L : ℤ} {a : F64} {x : ℚ} (h1 : F64.Tracks k L a x)
    (hn : k + k + 1 ≤ 1000) (hN : L + L ≤ 1021) :
    F64.Tracks (k + k + 1 + 1) (L + L) a.powTwo (x * x) := by
  obtain ⟨z, hz, h1⟩ := h1
  rw [hz]
  simp only [F64.powTwo]
  apply F64.Tracks_round _ hn hN
  have hm := h1.mulA h1
  rcases hm with ⟨hx, hp⟩ | ⟨hnear, a1, b1⟩
  · exact Or.inl ⟨hx, by rw [hp, roundPrec_zero]⟩
  · have hx : 0 < x * x := lt_of_lt_of_le (by positivity) a1
    have hp : 0 < z * z := hnear.pos_left hx
    obtain ⟨r1, r2⟩ := roundPrec_relative hp
    have hr : Near 1 (roundPrec (z * z)) (z * z) := ⟨by simpa using r1, by simpa using r2⟩
    have := hr.trans hnear
    rw [add_comm] at this
    exact Or.inr ⟨this, a1, b1⟩

theorem F64.Tracks_fin {w : ℚ} {L : ℤ} (h1 : 2 ^ (-L) ≤ w) (h2 : w ≤ 2 ^ L) :
    F64.Tracks 0 L (F64.fin false w) w :=
  ⟨w, rfl, Or.inr ⟨Near.refl w, h1, h2⟩⟩

theorem F64.Tracks_lit {q : ℚ} (h1 : 1 / 1024 ≤ q) (h2 : q ≤ 1024) :
    F64.Tracks 1 10 (F64.lit q) q := by
  rw [F64.lit_of_nonneg q (by linarith)]
  apply F64.Tracks_round (n := 0) _ (by norm_num) (by norm_num)
  have e1 : (2 : ℚ) ^ (-10 : ℤ) = 1 / 1024 := by norm_num
  have e2 : (2 : ℚ) ^ (10 : ℤ) = 1024 := by norm_num
  exact Or.inr ⟨Near.refl q, by rw [e1]; exact h1, by rw [e2]; exact h2⟩

theorem F64.Tracks_ofInt (n : Int) (h0 : 0 ≤ n) (h : n < 2 ^ 63) :
    F64.Tracks 1 63 (F64.ofInt n) (n : ℚ) := by
  rw [F64.ofInt_of_nonneg n h0]
  apply F64.Tracks_round (n := 0) _ (by norm_num) (by norm_num)
  rcases eq_or_lt_of_le h0 with h0 | h0
  · exact Or.inl ⟨by rw [← h0]; simp, by rw [← h0]; simp⟩
  · refine Or.inr ⟨Near.refl _, ?_, ?_⟩
    · have h1 : (1 : ℚ) ≤ (n : ℚ) := by exact_mod_cast h0
      have h2 : (2 : ℚ) ^ (-63 : ℤ) ≤ 1 := (two_zpow_neg_lt_one _ (by norm_num)).le
      linarith
    · have : (n : ℚ) < ((2 ^ 63 : ℤ) : ℚ) := by exact_mod_cast h
      have h2 : (((2 : ℤ) ^ 63 : ℤ) : ℚ) = (2 : ℚ) ^ (63 : ℤ) := by norm_num
      rw [← h2]
      exact this.le

theorem distance64_tracks (action : Int) (h0 : 0 ≤ action) (h : action < 2 ^ 63) :
    F64.Tracks 5 83 (distance64 action) (distance action) := by
  unfold distance64 distance
  exact F64.Tracks.divT
    (F64.Tracks.mulT (F64.Tracks_ofInt action h0 h)
      (F64.Tracks_lit (q := lenStep) (by norm_num [lenStep]) (by norm_num [lenStep]))
      (by norm_num) (by norm_num))
    (F64.Tracks_lit (q := mInKm) (by norm_num [mInKm]) (by norm_num [mInKm]))
    (by norm_num [mInKm]) (by norm_num) (by norm_num)

theorem meanSpeed64_tracks (action : Int) (h0 : 0 ≤ action) (h : action < 2 ^ 63) {d : ℚ}
    (h1 : 2 ^ (-100 : ℤ) ≤ d) (h2 : d ≤ 2 ^ (100 : ℤ)) :
    F64.Tracks 6 183 (meanSpeed64 action (F64.fin false d)) (meanSpeed action d) := by
  have hd : d ≠ 0 := ne_of_gt (lt_of_lt_of_le (by positivity) h1)
  rw [meanSpeed64_of_ne action false d hd]
  simp only [meanSpeed, if_neg hd]
  exact F64.Tracks.divT (distance64_tracks action h0 h) (F64.Tracks_fin h1 h2) hd
    (by norm_num) (by norm_num)

/-- The binary64 running calories approximate the exact ones within 16 roundings. -/
theorem running64_tracks (action : Int) (h0 : 0 ≤ action) (h : action < 2 ^ 63) {w d : ℚ}
    (hw1 : 2 ^ (-100 : ℤ) ≤ w) (hw2 : w ≤ 2 ^ (100 : ℤ))
    (hd1 : 2 ^ (-100 : ℤ) ≤ d) (hd2 : d ≤ 2 ^ (100 : ℤ)) :
    F64.Tracks 16 423 (RunningSpentCalories64 action (F64.fin false w) (F64.fin false d))
      (RunningSpentCalories action w d) := by
  unfold RunningSpentCalories64 RunningSpentCalories
  have t18 := F64.Tracks_lit (q := runningCaloriesMeanSpeedMultiplier)
    (by norm_num [runningCaloriesMeanSpeedMultiplier])
    (by norm_num [runningCaloriesMeanSpeedMultiplier])
  have t179 := F64.Tracks_lit (q := runningCaloriesMeanSpeedShift)
    (by norm_num [runningCaloriesMeanSpeedShift]) (by norm_num [runningCaloriesMeanSpeedShift])
  have t1000 := F64.Tracks_lit (q := mInKm) (by norm_num [mInKm]) (by norm_num [mInKm])
  have t60 := F64.Tracks_lit (q := minInH) (by norm_num [minInH]) (by norm_num [minInH])
  have s1 := F64.Tracks.mulT t18 (meanSpeed64_tracks action h0 h hd1 hd2) (by norm_num)
    (by norm_num)
  have s2 := F64.Tracks.mulT s1 t179 (by norm_num) (by norm_num)
  have s3 := F64.Tracks.mulT s2 (F64.Tracks_fin hw1 hw2) (by norm_num) (by norm_num)
  have s4 := F64.Tracks.divT s3 t1000 (by norm_num [mInKm]) (by norm_num) (by norm_num)
  have s5 := F64.Tracks.mulT s4 (F64.Tracks_fin hd1 hd2) (by norm_num) (by norm_num)
  have s6 := F64.Tracks.mulT s5 t60 (by norm_num) (by norm_num)
  exact s6.monoT (by norm_num) (by norm_num)

theorem swimmingMeanSpeed64_tracks (lengthPool countPool : Int) (hL : 0 ≤ lengthPool)
    (hL2 : lengthPool < 2 ^ 63) (hC : 0 ≤ countPool) (hC2 : countPool < 2 ^ 63) {d : ℚ}
    (h1 : 2 ^ (-100 : ℤ) ≤ d) (h2 : d ≤ 2 ^ (100 : ℤ)) :
    F64.Tracks 6 236 (swimmingMeanSpeed64 lengthPool countPool (F64.fin false d))
      (swimmingMeanSpeed lengthPool countPool d) := by
  have hd : d ≠ 0 := ne_of_gt (lt_of_lt_of_le (by positivity) h1)
  have hz : (F64.fin false d).isZero = false := by simp [F64.isZero, hd]
  simp only [swimmingMeanSpeed64, hz, swimmingMeanSpeed, if_neg hd, Bool.false_eq_true,
    if_false]
  have s1 := F64.Tracks.mulT (F64.Tracks_ofInt lengthPool hL hL2)
    (F64.Tracks_ofInt countPool hC hC2) (by norm_num) (by norm_num)
  have s2 := F64.Tracks.divT s1
    (F64.Tracks_lit (q := mInKm) (by norm_num [mInKm]) (by norm_num [mInKm]))
    (by norm_num [mInKm]) (by norm_num) (by norm_num)
  have s3 := F64.Tracks.divT s2 (F64.Tracks_fin h1 h2) hd (by norm_num) (by norm_num)
  exact s3.monoT (by norm_num) (by norm_num)

/-- The binary64 swimming calories approximate the exact ones within 11 roundings. -/
theorem swimming64_tracks (lengthPool countPool : Int) (hL : 0 ≤ lengthPool)
    (hL2 : lengthPool < 2 ^ 63) (hC : 0 ≤ countPool) (hC2 : countPool < 2 ^ 63) {w d : ℚ}
    (hw1 : 2 ^ (-100 : ℤ) ≤ w) (hw2 : w ≤ 2 ^ (100 : ℤ))
    (hd1 : 2 ^ (-100 : ℤ) ≤ d) (hd2 : d ≤ 2 ^ (100 : ℤ)) :
    F64.Tracks 11 447
      (SwimmingSpentCalories64 lengthPool countPool (F64.fin false d) (F64.fin false w))
      (SwimmingSpentCalories lengthPool countPool d w) := by
  unfold SwimmingSpentCalories64 SwimmingSpentCalories
  have t11 := F64.Tracks_lit (q := swimmingCaloriesMeanSpeedShift)
    (by norm_num [swimmingCaloriesMeanSpeedShift]) (by norm_num [swimmingCaloriesMeanSpeedShift])
  have t2 := F64.Tracks_lit (q := swimmingCaloriesWeightMultiplier)
    (by norm_num [swimmingCaloriesWeightMultiplier])
    (by norm_num [swimmingCaloriesWeightMultiplier])
  have s0 := swimmingMeanSpeed64_tracks lengthPool countPool hL hL2 hC hC2 hd1 hd2
  have s1 := F64.Tracks.addT s0 (t11.monoT (by norm_num) (by norm_num)) (by norm_num)
    (by norm_num)
  have s2 := F64.Tracks.mulT s1 t2 (by norm_num) (by norm_num)
  have s3 := F64.Tracks.mulT s2 (F64.Tracks_fin hw1 hw2) (by norm_num) (by norm_num)
  have s4 := F64.Tracks.mulT s3 (F64.Tracks_fin hd1 hd2) (by norm_num) (by norm_num)
  exact s4.monoT (by norm_num) (by norm_num)

/-- The binary64 walking calories approximate the exact ones within 28 roundings. -/
theorem walking64_tracks (action : Int) (h0 : 0 ≤ action) (h : action < 2 ^ 63) {d w ht : ℚ}
    (hw1 : 2 ^ (-100 : ℤ) ≤ w) (hw2 : w ≤ 2 ^ (100 : ℤ))
    (hd1 : 2 ^ (-100 : ℤ) ≤ d) (hd2 : d ≤ 2 ^ (100 : ℤ))
    (hh1 : 2 ^ (-100 : ℤ) ≤ ht) (hh2 : ht ≤ 2 ^ (100 : ℤ)) :
    F64.Tracks 28 717
      (WalkingSpentCalories64 action (F64.fin false d) (F64.fin false w) (F64.fin false ht))
      (WalkingSpentCalories action d w ht) := by
  unfold WalkingSpentCalories64 WalkingSpentCalories mathPow
  simp only [pow_two]
  have t035 := F64.Tracks_lit (q := walkingCaloriesWeightMultiplier)
    (by norm_num [walkingCaloriesWeightMultiplier]) (by norm_num [walkingCaloriesWeightMultiplier])
  have t029 := F64.Tracks_lit (q := walkingSpeedHeightMultiplier)
    (by norm_num [walkingSpeedHeightMultiplier]) (by norm_num [walkingSpeedHeightMultiplier])
  have t278 := F64.Tracks_lit (q := kmhInMsec) (by norm_num [kmhInMsec]) (by norm_num [kmhInMsec])
  have t100 := F64.Tracks_lit (q := cmInM) (by norm_num [cmInM]) (by norm_num [cmInM])
  have t60 := F64.Tracks_lit (q := minInH) (by norm_num [minInH]) (by norm_num [minInH])
  have hht : ht ≠ 0 := ne_of_gt (lt_of_lt_of_le (by positivity) hh1)
  have v := F64.Tracks.mulT (meanSpeed64_tracks action h0 h hd1 hd2) t278 (by norm_num)
    (by norm_num)
  have p := F64.Tracks.powTwoT v (by norm_num) (by norm_num)
  have hm := F64.Tracks.divT (F64.Tracks_fin hh1 hh2) t100 (by norm_num [cmInM]) (by norm_num)
    (by norm_num)
  have x1 := F64.Tracks.divT p hm (div_ne_zero hht (by norm_num [cmInM])) (by norm_num)
    (by norm_num)
  have x2 := F64.Tracks.mulT x1 t029 (by norm_num) (by norm_num)
  have x3 := F64.Tracks.mulT x2 (F64.Tracks_fin hw1 hw2) (by norm_num) (by norm_num)
  have a1 := F64.Tracks.mulT t035 (F64.Tracks_fin hw1 hw2) (by norm_num) (by norm_num)
  have s1 := F64.Tracks.addT (a1.monoT (j := 24) (M := 606) (by norm_num) (by norm_num))
    (x3.monoT (j := 24) (M := 606) (by norm_num) (by norm_num)) (by norm_num) (by norm_num)
  have s2 := F64.Tracks.mulT s1 (F64.Tracks_fin hd1 hd2) (by norm_num) (by norm_num)
  have s3 := F64.Tracks.mulT s2 t60 (by norm_num) (by norm_num)
  exact s3.monoT (by norm_num) (by norm_num)

/-- Two approximations of ordered exact values are ordered up to the roundings. -/
theorem Appr.leA {k : ℕ} {L : ℤ} {p q x y : ℚ} (h1 : Appr k L p x) (h2 : Appr k L q y)
    (hxy : x ≤ y) : p * relStep ^ (k + k) ≤ q := by
  have n2 := h2.nonneg
  rcases h1 with ⟨-, hp⟩ | ⟨hn1, a1, -⟩
  · rw [hp, zero_mul]; exact n2.1
  · have hx : 0 < x := lt_of_lt_of_le (by positivity) a1
    rcases h2 with ⟨hy, -⟩ | ⟨hn2, -, -⟩
    · rw [hy] at hxy
      exact absurd hxy (not_le.2 hx)
    · calc p * relStep ^ (k + k) = p * relStep ^ k * relStep ^ k := by rw [pow_add]; ring
        _ ≤ x * relStep ^ k := mul_le_mul_of_nonneg_right hn1.2 (relStep_pow_pos k).le
        _ ≤ y * relStep ^ k := mul_le_mul_of_nonneg_right hxy (relStep_pow_pos k).le
        _ ≤ q := hn2.1

/-- Two binary64 values tracking ordered exact values are ordered up to the
factor `1 - n / 2 ^ 53`, where `n` counts the roundings of both. -/
theorem F64.Tracks.leT {k : ℕ} {L : ℤ} {a b : F64} {x y : ℚ} (h1 : F64.Tracks k L a x)
    (h2 : F64.Tracks k L b y) (hxy : x ≤ y) :
    ∃ r1 r2, a = F64.fin false r1 ∧ b = F64.fin false r2
      ∧ r1 * (1 - ((k + k : ℕ) : ℚ) / 2 ^ 53) ≤ r2 := by
  obtain ⟨z, hz, a1⟩ := h1
  obtain ⟨w, hw, a2⟩ := h2
  refine ⟨z, w, hz, hw, ?_⟩
  exact le_trans (mul_le_mul_of_nonneg_left (relStep_pow_ge (k + k)) a1.nonneg.1)
    (a1.leA a2 hxy)

/-- A binary64 value tracking `x` lies within the factor `1 - k / 2 ^ 53` of it. -/
theorem F64.Tracks.bounds {k : ℕ} {L : ℤ} {a : F64} {x : ℚ} (h : F64.Tracks k L a x) :
    ∃ r, a = F64.fin false r ∧ x * (1 - (k : ℚ) / 2 ^ 53) ≤ r
      ∧ r * (1 - (k : ℚ) / 2 ^ 53) ≤ x := by
  obtain ⟨z, hz, a1⟩ := h
  have n1 := a1.nonneg
  refine ⟨z, hz, ?_, ?_⟩
  · rcases a1 with ⟨hx, hp⟩ | ⟨hn, -, -⟩
    · rw [hx, hp, zero_mul]
    · exact le_trans (mul_le_mul_of_nonneg_left (relStep_pow_ge k) n1.2) hn.1
  · rcases a1 with ⟨hx, hp⟩ | ⟨hn, -, -⟩
    · rw [hx, hp, zero_mul]
    · exact le_trans (mul_le_mul_of_nonneg_left (relStep_pow_ge k) n1.1) hn.2

theorem two_zpow_neg1074_le : (2 : ℚ) ^ (-1074 : ℤ) ≤ 100 * 2 ^ (-1075 : ℤ) := by
  have h := half_mul_two_zpow (-1075)
  rw [show (-1075 : ℤ) + 1 = -1074 from by norm_num] at h
  have p : (0 : ℚ) < 2 ^ (-1074 : ℤ) := by positivity
  rw [← h]
  linarith

/-! ## Theorems -/

/-- C1: for each of the three recognised labels the report is the five-line
template filled with the label, the duration, `distance action` and the speed
and calories of the direct formula calls of that label. -/
theorem showTrainingInfo_recognized (action : Int) (duration weight height : ℚ)
    (lengthPool countPool : Int) :
    ShowTrainingInfo action "Бег" duration weight height lengthPool countPool
        = "Тип тренировки: " ++ "Бег" ++ "\n"
          ++ "Длительность: " ++ fmtFloat2 duration ++ " ч.\n"
          ++ "Дистанция: " ++ fmtFloat2 (distance action) ++ " км.\n"
          ++ "Скорость: " ++ fmtFloat2 (meanSpeed action duration) ++ " км/ч\n"
          ++ "Сожгли калорий: "
          ++ fmtFloat2 (RunningSpentCalories action weight duration) ++ "\n"
    ∧ ShowTrainingInfo action "Ходьба" duration weight height lengthPool countPool
        = "Тип тренировки: " ++ "Ходьба" ++ "\n"
          ++ "Длительность: " ++ fmtFloat2 duration ++ " ч.\n"
          ++ "Дистанция: " ++ fmtFloat2 (distance action) ++ " км.\n"
          ++ "Скорость: " ++ fmtFloat2 (meanSpeed action duration) ++ " км/ч\n"
          ++ "Сожгли калорий: "
          ++ fmtFloat2 (WalkingSpentCalories action duration weight height) ++ "\n"
    ∧ ShowTrainingInfo action "Плавание" duration weight height lengthPool countPool
        = "Тип тренировки: " ++ "Плавание" ++ "\n"
          ++ "Длительность: " ++ fmtFloat2 duration ++ " ч.\n"
          ++ "Дистанция: " ++ fmtFloat2 (distance action) ++ " км.\n"
          ++ "Скорость: "
          ++ fmtFloat2 (swimmingMeanSpeed lengthPool countPool duration) ++ " км/ч\n"
          ++ "Сожгли калорий: "
          ++ fmtFloat2 (SwimmingSpentCalories lengthPool countPool duration weight) ++ "\n" := by
  have h1 : ¬ ("Ходьба" = "Бег") := by decide
  have h2 : ¬ ("Плавание" = "Бег") := by decide
  have h3 : ¬ ("Плавание" = "Ходьба") := by decide
  refine ⟨?_, ?_, ?_⟩
  · simp only [ShowTrainingInfo, resultOutput, if_true]
  · simp only [ShowTrainingInfo, resultOutput, if_neg h1, if_true]
  · simp only [ShowTrainingInfo, resultOutput, if_neg h2, if_neg h3, if_true]

/-- C2: for a training type that is none of the three recognised labels the
report is the fixed sentinel, whatever the numeric inputs are, so two calls
with different numeric inputs return the same string. -/
theorem showTrainingInfo_unknown (trainingType : String)
    (hRun : trainingType ≠ "Бег") (hWalk : trainingType ≠ "Ходьба")
    (hSwim : trainingType ≠ "Плавание")
    (action : Int) (duration weight height : ℚ) (lengthPool countPool : Int)
    (action2 : Int) (duration2 weight2 height2 : ℚ) (lengthPool2 countPool2 : Int) :
    ShowTrainingInfo action trainingType duration weight height lengthPool countPool
        = "неизвестный тип тренировки"
    ∧ ShowTrainingInfo action trainingType duration weight height lengthPool countPool
        = ShowTrainingInfo action2 trainingType duration2 weight2 height2 lengthPool2
            countPool2 := by
  simp only [ShowTrainingInfo, unknownTrainingType, if_neg hRun, if_neg hWalk, if_neg hSwim,
    and_self]

/-- Witness of C2 at the labels "Cycling" and the lower-case "бег". -/
theorem showTrainingInfo_unknown_witness :
    ShowTrainingInfo 1000 "Cycling" (1 / 2) 70 180 25 40 = "неизвестный тип тренировки"
    ∧ ShowTrainingInfo 1000 "бег" (1 / 2) 70 180 25 40 = "неизвестный тип тренировки" :=
  ⟨(showTrainingInfo_unknown "Cycling" (by decide) (by decide) (by decide)
      1000 (1 / 2) 70 180 25 40 0 0 0 0 0 0).1,
   (showTrainingInfo_unknown "бег" (by decide) (by decide) (by decide)
      1000 (1 / 2) 70 180 25 40 0 0 0 0 0 0).1⟩

/-- C3: the running calories are
`18 * meanSpeed * 1.79 * weight / 1000 * duration * 60`, read left to right. -/
theorem runningSpentCalories_formula (action : Int) (weight duration : ℚ) :
    RunningSpentCalories action weight duration
      = 18 * meanSpeed action duration * 1.79 * weight / 1000 * duration * 60 := by
  simp only [RunningSpentCalories, runningCaloriesMeanSpeedMultiplier,
    runningCaloriesMeanSpeedShift, mInKm, minInH]

/-- C4: for a non-zero height the walking calories are
`(0.035 * weight + (v ^ 2 / (height / 100)) * 0.029 * weight) * duration * 60`
with `v = meanSpeed * 0.278`. -/
theorem walkingSpentCalories_formula (action : Int) (duration weight height : ℚ)
    (_hHeight : height ≠ 0) :
    WalkingSpentCalories action duration weight height
      = (0.035 * weight
          + ((meanSpeed action duration * 0.278) ^ 2 / (height / 100)) * 0.029 * weight)
        * duration * 60 := by
  simp only [WalkingSpentCalories, walkingCaloriesWeightMultiplier,
    walkingSpeedHeightMultiplier, mathPow, kmhInMsec, cmInM, minInH]

/-- Witness of C4: 1000 steps in half an hour, 70 kg, 180 cm. -/
theorem walkingSpentCalories_formula_witness :
    (180 : ℚ) ≠ 0
    ∧ WalkingSpentCalories 1000 (1 / 2) 70 180
      = (0.035 * 70 + ((meanSpeed 1000 (1 / 2) * 0.278) ^ 2 / (180 / 100)) * 0.029 * 70)
        * (1 / 2) * 60 :=
  ⟨by norm_num, walkingSpentCalories_formula 1000 (1 / 2) 70 180 (by norm_num)⟩

/-- C5: the swimming calories are
`(swimmingMeanSpeed + 1.1) * 2 * weight * duration`. -/
theorem swimmingSpentCalories_formula (lengthPool countPool : Int) (duration weight : ℚ) :
    SwimmingSpentCalories lengthPool countPool duration weight
      = (swimmingMeanSpeed lengthPool countPool duration + 1.1) * 2 * weight * duration := by
  simp only [SwimmingSpentCalories, swimmingCaloriesMeanSpeedShift,
    swimmingCaloriesWeightMultiplier]

/-- C6: the swimming mean speed is `lengthPool * countPool / 1000 / duration`
for a non-zero duration and `0` for a zero duration; 40 lengths of a 25 m pool
in one hour give 1 km/h. -/
theorem swimmingMeanSpeed_formula (lengthPool countPool : Int) (duration : ℚ) :
    (duration ≠ 0 →
        swimmingMeanSpeed lengthPool countPool duration
          = ((lengthPool * countPool : Int) : ℚ) / 1000 / duration)
    ∧ (duration = 0 → swimmingMeanSpeed lengthPool countPool duration = 0)
    ∧ swimmingMeanSpeed 25 40 1 = 1 := by
  refine ⟨fun h => ?_, fun h => ?_, ?_⟩
  · simp only [swimmingMeanSpeed, if_neg h, mInKm, Int.cast_mul]
  · simp only [swimmingMeanSpeed, if_pos h]
  · simp only [swimmingMeanSpeed, mInKm]
    norm_num

/-- Witness of C6: both branches at concrete durations. -/
theorem swimmingMeanSpeed_formula_witness :
    swimmingMeanSpeed 25 40 2 = ((25 * 40 : Int) : ℚ) / 1000 / 2
    ∧ swimmingMeanSpeed 25 40 0 = 0 :=
  ⟨(swimmingMeanSpeed_formula 25 40 2).1 (by norm_num),
   (swimmingMeanSpeed_formula 25 40 0).2.1 rfl⟩

/-- C7: a zero duration gives mean speed zero, for every action count. -/
theorem meanSpeed_zero_duration (action : Int) : meanSpeed action 0 = 0 := by
  simp only [meanSpeed, if_true]

/-- C8: for a non-zero duration the mean speed is the distance over the
duration; over one hour it is the distance itself. -/
theorem meanSpeed_formula (action : Int) (duration : ℚ) (hDuration : duration ≠ 0) :
    meanSpeed action duration = distance action / duration
    ∧ meanSpeed action 1 = distance action := by
  constructor
  · simp only [meanSpeed, if_neg hDuration]
  · simp only [meanSpeed, if_neg one_ne_zero, div_one]

/-- Witness of C8 at 1538 steps in one hour. -/
theorem meanSpeed_formula_witness :
    (1 : ℚ) ≠ 0 ∧ meanSpeed 1538 1 = distance 1538 / 1 ∧ meanSpeed 1538 1 = distance 1538 :=
  ⟨one_ne_zero, meanSpeed_formula 1538 1 one_ne_zero⟩

/-- C9: the distance is `action * 0.65 / 1000`; no steps give distance zero and
a thousand steps give 0.65 km. -/
theorem distance_formula (action : Int) :
    distance action = (action : ℚ) * 0.65 / 1000
    ∧ distance 0 = 0
    ∧ distance 1000 = 0.65 := by
  refine ⟨?_, ?_, ?_⟩
  · simp only [distance, lenStep, mInKm]
  · simp only [distance, lenStep, mInKm]
    norm_num
  · simp only [distance, lenStep, mInKm]
    norm_num

/-- C10: 1000 steps of running in half an hour at 70 kg give distance 0.65,
mean speed 1.3 and calories 87.9606, and the report prints them as 0.50, 0.65,
1.30 and 87.96 whatever the height and the pool inputs are. -/
theorem running_end_to_end (height : ℚ) (lengthPool countPool : Int) :
    distance 1000 = 0.65
    ∧ meanSpeed 1000 0.5 = 1.3
    ∧ RunningSpentCalories 1000 70 0.5 = 87.9606
    ∧ ShowTrainingInfo 1000 "Бег" 0.5 70 height lengthPool countPool
        = "Тип тренировки: Бег\nДлительность: 0.50 ч.\nДистанция: 0.65 км.\n"
          ++ "Скорость: 1.30 км/ч\nСожгли калорий: 87.96\n" := by
  have hd : distance 1000 = 0.65 := by
    simp only [distance, lenStep, mInKm]
    norm_num
  have hne : ¬ ((0.5 : ℚ) = 0) := by norm_num
  have hs : meanSpeed 1000 0.5 = 1.3 := by
    simp only [meanSpeed, if_neg hne, hd]
    norm_num
  have hc : RunningSpentCalories 1000 70 0.5 = 87.9606 := by
    simp only [RunningSpentCalories, runningCaloriesMeanSpeedMultiplier,
      runningCaloriesMeanSpeedShift, mInKm, minInH, hs]
    norm_num
  have f1 : fmtFloat2 (0.5 : ℚ) = "0.50" :=
    (fmtFloat2_of_num_den _ 1 2 (by norm_num) (by norm_num)).trans (by decide)
  have f2 : fmtFloat2 (0.65 : ℚ) = "0.65" :=
    (fmtFloat2_of_num_den _ 13 20 (by norm_num) (by norm_num)).trans (by decide)
  have f3 : fmtFloat2 (1.3 : ℚ) = "1.30" :=
    (fmtFloat2_of_num_den _ 13 10 (by norm_num) (by norm_num)).trans (by decide)
  have f4 : fmtFloat2 (87.9606 : ℚ) = "87.96" :=
    (fmtFloat2_of_num_den _ 439803 5000 (by norm_num) (by norm_num)).trans (by decide)
  refine ⟨hd, hs, hc, ?_⟩
  simp only [ShowTrainingInfo, resultOutput, if_true, hd, hs, hc, f1, f2, f3, f4]
  decide

/-- C11, as stated, fails in binary64: at the least positive height the height
in metres is zero, so with no steps the walking formula is 0 / 0 = NaN for
both weights and the comparison is false. -/
theorem walking64_not_monotone_in_weight :
    (0 : Int) ≤ 0 ∧ (0 : ℚ) < 2 ^ (-1074 : ℤ) ∧ (0 : ℚ) < 1 ∧ (60 : ℚ) ≤ 70
    ∧ F64.le
        (WalkingSpentCalories64 0 (F64.fin false 1) (F64.fin false 60)
          (F64.fin false (2 ^ (-1074 : ℤ))))
        (WalkingSpentCalories64 0 (F64.fin false 1) (F64.fin false 70)
          (F64.fin false (2 ^ (-1074 : ℤ)))) = false := by
  refine ⟨le_refl 0, by positivity, by norm_num, by norm_num, ?_⟩
  have hs : meanSpeed64 0 (F64.fin false 1) = F64.fin false 0 := by
    rw [meanSpeed64_of_ne 0 false 1 one_ne_zero, distance64_zero,
      F64.zero_div_fin false false 1 one_ne_zero]
    rfl
  rw [walking64_nan 0 (F64.fin false 1) (F64.fin false 60) false false hs (by positivity)
    two_zpow_neg1074_le,
    walking64_nan 0 (F64.fin false 1) (F64.fin false 70) false false hs (by positivity)
    two_zpow_neg1074_le]
  rfl

/-- C11, amended: for a non-negative action count, non-negative Go integer
pool inputs, a positive finite duration, a finite height above
`100 * 2 ^ (-1075)` (so that the height in metres is not zero) and finite
weights `0 < w1 ≤ w2`, each of the three binary64 calorie formulas at `w1` is
at most the one at `w2`. -/
theorem calories64_monotone_in_weight (action lengthPool countPool : Int)
    (duration height w1 w2 : ℚ)
    (hAction : 0 ≤ action) (hLength : 0 ≤ lengthPool) (hLengthInt : lengthPool < 2 ^ 63)
    (hCount : 0 ≤ countPool) (hCountInt : countPool < 2 ^ 63)
    (hHeight : 100 * 2 ^ (-1075 : ℤ) < height) (hHeightFin : height ≤ 2 ^ (1024 : ℤ))
    (hDuration : 0 < duration) (hPos : 0 < w1) (hWeight : w1 ≤ w2) :
    F64.le (RunningSpentCalories64 action (F64.fin false w1) (F64.fin false duration))
        (RunningSpentCalories64 action (F64.fin false w2) (F64.fin false duration)) = true
    ∧ F64.le
        (WalkingSpentCalories64 action (F64.fin false duration) (F64.fin false w1)
          (F64.fin false height))
        (WalkingSpentCalories64 action (F64.fin false duration) (F64.fin false w2)
          (F64.fin false height)) = true
    ∧ F64.le
        (SwimmingSpentCalories64 lengthPool countPool (F64.fin false duration)
          (F64.fin false w1))
        (SwimmingSpentCalories64 lengthPool countPool (F64.fin false duration)
          (F64.fin false w2)) = true :=
  ⟨(running64_monotone_in_weight action duration w1 w2 hAction hDuration hPos hWeight).2.2,
    (walking64_monotone_in_weight action duration height w1 w2 hAction hHeight hHeightFin
      hDuration hPos hWeight).2.2,
    (swimming64_monotone_in_weight lengthPool countPool duration w1 w2 hLength hLengthInt
      hCount hCountInt hDuration hPos hWeight).2.2⟩

/-- Witness of C11 amended: 1000 steps, a 25 m pool swum 40 times, one hour,
180 cm, weights 60 and 70. -/
theorem calories64_monotone_in_weight_witness :
    F64.le (RunningSpentCalories64 1000 (F64.fin false 60) (F64.fin false 1))
        (RunningSpentCalories64 1000 (F64.fin false 70) (F64.fin false 1)) = true
    ∧ F64.le
        (WalkingSpentCalories64 1000 (F64.fin false 1) (F64.fin false 60) (F64.fin false 180))
        (WalkingSpentCalories64 1000 (F64.fin false 1) (F64.fin false 70) (F64.fin false 180))
        = true
    ∧ F64.le (SwimmingSpentCalories64 25 40 (F64.fin false 1) (F64.fin false 60))
        (SwimmingSpentCalories64 25 40 (F64.fin false 1) (F64.fin false 70)) = true :=
  calories64_monotone_in_weight 1000 25 40 1 180 60 70 (by norm_num) (by norm_num)
    (by norm_num) (by norm_num) (by norm_num)
    (lt_of_le_of_lt (mul_le_mul_of_nonneg_left (two_zpow_neg_lt_one (-1075) (by norm_num)).le
      (by norm_num)) (by norm_num))
    (le_trans (by norm_num : (180 : ℚ) ≤ 2 ^ (8 : ℤ))
      (zpow_le_zpow_right₀ (by norm_num) (by norm_num)))
    (by norm_num) (by norm_num) (by norm_num)

/-- C12, as stated, fails, in binary64 too: 10000 steps at 70 kg and 180 cm
burn more walking calories in half an hour than in one hour. -/
theorem walking64_not_monotone_in_duration :
    (0 : Int) ≤ 10000 ∧ (0 : ℚ) < 70 ∧ (0 : ℚ) < 180 ∧ (0 : ℚ) < 1 / 2 ∧ (1 / 2 : ℚ) ≤ 1
    ∧ F64.le
        (WalkingSpentCalories64 10000 (F64.fin false (1 / 2)) (F64.fin false 70)
          (F64.fin false 180))
        (WalkingSpentCalories64 10000 (F64.fin false 1) (F64.fin false 70)
          (F64.fin false 180)) = false := by
  refine ⟨by norm_num, by norm_num, by norm_num, by norm_num, by norm_num, ?_⟩
  rw [walking64_10000_half, walking64_10000_one]
  simp only [F64.le, F64.signed, Bool.false_eq_true, if_false, decide_eq_false_iff_not, not_le]
  norm_num

/-- C12, amended: for a non-negative Go integer action count, a weight, a
height and durations `t1 ≤ t2` between `2 ^ (-100)` and `2 ^ 100` with
`(distance * 0.278) ^ 2 / (height / 100) * 0.029 ≤ 0.035 * t1 * t2`, the
binary64 walking calories at `t1` and `t2` are finite and those at `t1`,
times `1 - 2 ^ (-47)`, are at most those at `t2`. -/
theorem walking64_monotone_in_duration (action : Int) (weight height t1 t2 : ℚ)
    (hAction : 0 ≤ action) (hInt : action < 2 ^ 63)
    (hw1 : 2 ^ (-100 : ℤ) ≤ weight) (hw2 : weight ≤ 2 ^ (100 : ℤ))
    (hh1 : 2 ^ (-100 : ℤ) ≤ height) (hh2 : height ≤ 2 ^ (100 : ℤ))
    (ht1 : 2 ^ (-100 : ℤ) ≤ t1) (ht : t1 ≤ t2) (ht2 : t2 ≤ 2 ^ (100 : ℤ))
    (hSpeed : (distance action * 0.278) ^ 2 / (height / 100) * 0.029 ≤ 0.035 * t1 * t2) :
    ∃ r1 r2,
      WalkingSpentCalories64 action (F64.fin false t1) (F64.fin false weight)
          (F64.fin false height) = F64.fin false r1
      ∧ WalkingSpentCalories64 action (F64.fin false t2) (F64.fin false weight)
          (F64.fin false height) = F64.fin false r2
      ∧ r1 * (1 - 1 / 2 ^ 47) ≤ r2 := by
  have p1 : 0 < t1 := lt_of_lt_of_le (by positivity) ht1
  have pw : 0 < weight := lt_of_lt_of_le (by positivity) hw1
  have ph : 0 < height := lt_of_lt_of_le (by positivity) hh1
  have k1 := walking64_tracks action hAction hInt hw1 hw2 ht1 (le_trans ht ht2) hh1 hh2
  have k2 := walking64_tracks action hAction hInt hw1 hw2 (le_trans ht1 ht) ht2 hh1 hh2
  have hx := (walkingSpentCalories_le_iff action weight height t1 t2 hAction pw ph p1 ht).1
    hSpeed
  obtain ⟨r1, r2, e1, e2, hle⟩ := k1.leT k2 hx
  refine ⟨r1, r2, e1, e2, ?_⟩
  have n1 := (show 0 ≤ r1 from by
    obtain ⟨z, hz, a1⟩ := k1
    rw [hz] at e1
    cases e1
    exact a1.nonneg.1)
  have : (1 : ℚ) - 1 / 2 ^ 47 ≤ 1 - ((28 + 28 : ℕ) : ℚ) / 2 ^ 53 := by norm_num
  exact le_trans (mul_le_mul_of_nonneg_left this n1) hle

/-- Witness of C12 amended: 1000 steps at 70 kg and 180 cm, half an hour
against one hour. -/
theorem walking64_monotone_in_duration_witness :
    ∃ r1 r2,
      WalkingSpentCalories64 1000 (F64.fin false (1 / 2)) (F64.fin false 70)
          (F64.fin false 180) = F64.fin false r1
      ∧ WalkingSpentCalories64 1000 (F64.fin false 1) (F64.fin false 70)
          (F64.fin false 180) = F64.fin false r2
      ∧ r1 * (1 - 1 / 2 ^ 47) ≤ r2 :=
  walking64_monotone_in_duration 1000 70 180 (1 / 2) 1 (by norm_num) (by norm_num)
    (by norm_num) (by norm_num) (by norm_num) (by norm_num) (by norm_num) (by norm_num)
    (by norm_num) (by simp only [distance, lenStep, mInKm]; norm_num)

/-- C13, as stated, fails in binary64: 31 lengths of a 25 m pool at 70 kg give
more swimming calories in half an hour than in the next representable
duration. -/
theorem swimming64_not_monotone_in_duration :
    (0 : Int) ≤ 25 ∧ (0 : Int) ≤ 31 ∧ (0 : ℚ) < 70 ∧ (0 : ℚ) < 1 / 2
    ∧ (1 / 2 : ℚ) ≤ 4503599627370497 / 9007199254740992
    ∧ F64.le (SwimmingSpentCalories64 25 31 (F64.fin false (1 / 2)) (F64.fin false 70))
        (SwimmingSpentCalories64 25 31
          (F64.fin false (4503599627370497 / 9007199254740992)) (F64.fin false 70)) = false := by
  refine ⟨by norm_num, by norm_num, by norm_num, by norm_num, by norm_num, ?_⟩
  rw [swimming64_25_31_half, swimming64_25_31_next]
  simp only [F64.le, F64.signed, Bool.false_eq_true, if_false, decide_eq_false_iff_not, not_le]
  norm_num

/-- C13, amended: for non-negative Go integer pool inputs and a weight and
durations `t1 ≤ t2` between `2 ^ (-100)` and `2 ^ 100`, the binary64 swimming
calories at `t1` and `t2` are finite and those at `t1`, times
`1 - 2 ^ (-48)`, are at most those at `t2`. -/
theorem swimming64_monotone_in_duration (lengthPool countPool : Int) (weight t1 t2 : ℚ)
    (hLength : 0 ≤ lengthPool) (hLengthInt : lengthPool < 2 ^ 63)
    (hCount : 0 ≤ countPool) (hCountInt : countPool < 2 ^ 63)
    (hw1 : 2 ^ (-100 : ℤ) ≤ weight) (hw2 : weight ≤ 2 ^ (100 : ℤ))
    (ht1 : 2 ^ (-100 : ℤ) ≤ t1) (ht : t1 ≤ t2) (ht2 : t2 ≤ 2 ^ (100 : ℤ)) :
    ∃ r1 r2,
      SwimmingSpentCalories64 lengthPool countPool (F64.fin false t1) (F64.fin false weight)
          = F64.fin false r1
      ∧ SwimmingSpentCalories64 lengthPool countPool (F64.fin false t2) (F64.fin false weight)
          = F64.fin false r2
      ∧ r1 * (1 - 1 / 2 ^ 48) ≤ r2 := by
  have p1 : 0 < t1 := lt_of_lt_of_le (by positivity) ht1
  have pw : 0 < weight := lt_of_lt_of_le (by positivity) hw1
  have k1 := swimming64_tracks lengthPool countPool hLength hLengthInt hCount hCountInt
    hw1 hw2 ht1 (le_trans ht ht2)
  have k2 := swimming64_tracks lengthPool countPool hLength hLengthInt hCount hCountInt
    hw1 hw2 (le_trans ht1 ht) ht2
  have hx := swimmingSpentCalories_le_of_le lengthPool countPool weight t1 t2 hLength hCount
    pw p1 ht
  obtain ⟨r1, r2, e1, e2, hle⟩ := k1.leT k2 hx
  refine ⟨r1, r2, e1, e2, ?_⟩
  have n1 := (show 0 ≤ r1 from by
    obtain ⟨z, hz, a1⟩ := k1
    rw [hz] at e1
    cases e1
    exact a1.nonneg.1)
  have : (1 : ℚ) - 1 / 2 ^ 48 ≤ 1 - ((11 + 11 : ℕ) : ℚ) / 2 ^ 53 := by norm_num
  exact le_trans (mul_le_mul_of_nonneg_left this n1) hle

/-- Witness of C13 amended: a 25 m pool swum 40 times at 70 kg, half an hour
against one hour. -/
theorem swimming64_monotone_in_duration_witness :
    ∃ r1 r2,
      SwimmingSpentCalories64 25 40 (F64.fin false (1 / 2)) (F64.fin false 70)
          = F64.fin false r1
      ∧ SwimmingSpentCalories64 25 40 (F64.fin false 1) (F64.fin false 70) = F64.fin false r2
      ∧ r1 * (1 - 1 / 2 ^ 48) ≤ r2 :=
  swimming64_monotone_in_duration 25 40 70 (1 / 2) 1 (by norm_num) (by norm_num) (by norm_num)
    (by norm_num) (by norm_num) (by norm_num) (by norm_num) (by norm_num) (by norm_num)

/-- C14, as stated, fails in binary64: 5 steps at 70 kg give more running
calories in one hour than in three. -/
theorem running64_not_monotone_in_duration :
    (0 : Int) ≤ 5 ∧ (0 : ℚ) < 70 ∧ (0 : ℚ) < 1 ∧ (1 : ℚ) ≤ 3
    ∧ F64.le (RunningSpentCalories64 5 (F64.fin false 70) (F64.fin false 1))
        (RunningSpentCalories64 5 (F64.fin false 70) (F64.fin false 3)) = false := by
  refine ⟨by norm_num, by norm_num, by norm_num, by norm_num, ?_⟩
  rw [running64_5_70_1, running64_5_70_3]
  simp only [F64.le, F64.signed, Bool.false_eq_true, if_false, decide_eq_false_iff_not, not_le]
  norm_num

/-- C14, amended: for a non-negative Go integer action count and a weight
and durations `t1 ≤ t2` between `2 ^ (-100)` and `2 ^ 100`, the binary64
running calories at `t1` and `t2` are finite and those at `t1`, times
`1 - 2 ^ (-48)`, are at most those at `t2`. -/
theorem running64_monotone_in_duration (action : Int) (weight t1 t2 : ℚ)
    (hAction : 0 ≤ action) (hInt : action < 2 ^ 63)
    (hw1 : 2 ^ (-100 : ℤ) ≤ weight) (hw2 : weight ≤ 2 ^ (100 : ℤ))
    (ht1 : 2 ^ (-100 : ℤ) ≤ t1) (ht : t1 ≤ t2) (ht2 : t2 ≤ 2 ^ (100 : ℤ)) :
    ∃ r1 r2,
      RunningSpentCalories64 action (F64.fin false weight) (F64.fin false t1) = F64.fin false r1
      ∧ RunningSpentCalories64 action (F64.fin false weight) (F64.fin false t2)
          = F64.fin false r2
      ∧ r1 * (1 - 1 / 2 ^ 48) ≤ r2 := by
  have p1 : 0 < t1 := lt_of_lt_of_le (by positivity) ht1
  have p2 : 0 < t2 := lt_of_lt_of_le p1 ht
  have k1 := running64_tracks action hAction hInt hw1 hw2 ht1 (le_trans ht ht2)
  have k2 := running64_tracks action hAction hInt hw1 hw2 (le_trans ht1 ht) ht2
  have hx : RunningSpentCalories action weight t1 ≤ RunningSpentCalories action weight t2 := by
    rw [runningSpentCalories_of_ne action weight t1 (ne_of_gt p1),
      runningSpentCalories_of_ne action weight t2 (ne_of_gt p2)]
  obtain ⟨r1, r2, e1, e2, hle⟩ := k1.leT k2 hx
  refine ⟨r1, r2, e1, e2, ?_⟩
  have : (1 : ℚ) - ((16 + 16 : ℕ) : ℚ) / 2 ^ 53 = 1 - 1 / 2 ^ 48 := by norm_num
  rwa [this] at hle

/-- Witness of C14 amended: 1000 steps at 70 kg, half an hour against one hour. -/
theorem running64_monotone_in_duration_witness :
    ∃ r1 r2,
      RunningSpentCalories64 1000 (F64.fin false 70) (F64.fin false (1 / 2)) = F64.fin false r1
      ∧ RunningSpentCalories64 1000 (F64.fin false 70) (F64.fin false 1) = F64.fin false r2
      ∧ r1 * (1 - 1 / 2 ^ 48) ≤ r2 :=
  running64_monotone_in_duration 1000 70 (1 / 2) 1 (by norm_num) (by norm_num) (by norm_num)
    (by norm_num) (by norm_num) (by norm_num) (by norm_num)

/-- C15, as stated, fails: with guarded division the walking formula reaches
a zero divisor at height 0 (`heightInM = 0 / 100 = 0` divides the squared
speed). -/
theorem walking_divides_by_zero_height :
    WalkingSpentCaloriesGuarded 1000 (F64.fin false 1) (F64.fin false 70) (F64.fin false 0)
      = none :=
  walkingSpentCaloriesGuarded_of_zero _ _ _ _
    ((heightInM_isZero_iff false (le_refl 0)).2 (by positivity))

/-- C15, amended: for every input whose height is NaN, infinite, or finite of
magnitude above `100 * 2 ^ (-1075)`, none of the six formulas meets a zero
divisor: with guarded division each returns the value of the unguarded
formula.  For a finite height of magnitude at most `100 * 2 ^ (-1075)` the
walking formula does divide by zero. -/
theorem no_zero_divisor_of_height (action lengthPool countPool : Int)
    (duration weight height : F64)
    (hHeight : ∀ s m, height = F64.fin s m → 100 * 2 ^ (-1075 : ℤ) < m) :
    distanceGuarded action = some (distance64 action)
    ∧ meanSpeedGuarded action duration = some (meanSpeed64 action duration)
    ∧ swimmingMeanSpeedGuarded lengthPool countPool duration
        = some (swimmingMeanSpeed64 lengthPool countPool duration)
    ∧ RunningSpentCaloriesGuarded action weight duration
        = some (RunningSpentCalories64 action weight duration)
    ∧ WalkingSpentCaloriesGuarded action duration weight height
        = some (WalkingSpentCalories64 action duration weight height)
    ∧ SwimmingSpentCaloriesGuarded lengthPool countPool duration weight
        = some (SwimmingSpentCalories64 lengthPool countPool duration weight)
    ∧ ∀ s m, 0 ≤ m → m ≤ 100 * 2 ^ (-1075 : ℤ) →
        WalkingSpentCaloriesGuarded action duration weight (F64.fin s m) = none :=
  ⟨distanceGuarded_eq action, meanSpeedGuarded_eq action duration,
    swimmingMeanSpeedGuarded_eq lengthPool countPool duration,
    runningSpentCaloriesGuarded_eq action weight duration,
    walkingSpentCaloriesGuarded_of_not_zero action duration weight height
      (heightInM_not_zero height hHeight),
    swimmingSpentCaloriesGuarded_eq lengthPool countPool duration weight,
    fun s _ h0 hm => walkingSpentCaloriesGuarded_of_zero action duration weight _
      ((heightInM_isZero_iff s h0).2 hm)⟩

/-- Witness of C15 amended: the guarded walking formula at height 180 returns
the value of the unguarded one. -/
theorem no_zero_divisor_of_height_witness :
    WalkingSpentCaloriesGuarded 1000 (F64.fin false 1) (F64.fin false 70) (F64.fin false 180)
      = some (WalkingSpentCalories64 1000 (F64.fin false 1) (F64.fin false 70)
          (F64.fin false 180)) :=
  (no_zero_divisor_of_height 1000 25 40 (F64.fin false 1) (F64.fin false 70)
    (F64.fin false 180) (fun s m h => by
      cases h
      have h1 : (2 : ℚ) ^ (-1075 : ℤ) < 1 := two_zpow_neg_lt_one _ (by norm_num)
      linarith)).2.2.2.2.1

/-- C16: the report of "Бег" is the same for any two values of height, pool
length and pool count; the report of "Ходьба" for any two values of pool
length and pool count; the report of "Плавание" for any two heights. -/
theorem showTrainingInfo_noninterference (action : Int) (duration weight height height2 : ℚ)
    (lengthPool countPool lengthPool2 countPool2 : Int) :
    ShowTrainingInfo action "Бег" duration weight height lengthPool countPool
        = ShowTrainingInfo action "Бег" duration weight height2 lengthPool2 countPool2
    ∧ ShowTrainingInfo action "Ходьба" duration weight height lengthPool countPool
        = ShowTrainingInfo action "Ходьба" duration weight height lengthPool2 countPool2
    ∧ ShowTrainingInfo action "Плавание" duration weight height lengthPool countPool
        = ShowTrainingInfo action "Плавание" duration weight height2 lengthPool countPool := by
  have h1 : ¬ ("Ходьба" = "Бег") := by decide
  have h2 : ¬ ("Плавание" = "Бег") := by decide
  have h3 : ¬ ("Плавание" = "Ходьба") := by decide
  refine ⟨?_, ?_, ?_⟩
  · simp only [ShowTrainingInfo, if_true]
  · simp only [ShowTrainingInfo, if_neg h1, if_true]
  · simp only [ShowTrainingInfo, if_neg h2, if_neg h3, if_true]

/-- C17, as stated, fails for "Плавание": 1000 strokes and 40 lengths of a
25 m pool in one hour are reported with distance 0.65 and speed 1.00, not
0.65 / 1. -/
theorem swimming_speed_not_distance_over_duration :
    (1 : ℚ) ≠ 0
    ∧ selectedValues 1000 "Плавание" 1 70 180 25 40 = some (0.65, 1, 294)
    ∧ ¬ ((1 : ℚ) = 0.65 / 1)
    ∧ ShowTrainingInfo 1000 "Плавание" 1 70 180 25 40
        = "Тип тренировки: Плавание\nДлительность: 1.00 ч.\nДистанция: 0.65 км.\n"
          ++ "Скорость: 1.00 км/ч\nСожгли калорий: 294.00\n" := by
  have h2 : ¬ ("Плавание" = "Бег") := by decide
  have h3 : ¬ ("Плавание" = "Ходьба") := by decide
  have hd : distance 1000 = 0.65 := by
    simp only [distance, lenStep, mInKm]
    norm_num
  have hs : swimmingMeanSpeed 25 40 1 = 1 := by
    simp only [swimmingMeanSpeed, if_neg one_ne_zero, mInKm]
    norm_num
  have hc : SwimmingSpentCalories 25 40 1 70 = 294 := by
    simp only [SwimmingSpentCalories, hs, swimmingCaloriesMeanSpeedShift,
      swimmingCaloriesWeightMultiplier]
    norm_num
  have hsel : selectedValues 1000 "Плавание" 1 70 180 25 40 = some (0.65, 1, 294) := by
    simp only [selectedValues, if_neg h2, if_neg h3, if_true, hd, hs, hc]
  have f1 : fmtFloat2 (1 : ℚ) = "1.00" :=
    (fmtFloat2_of_num_den _ 1 1 (by norm_num) (by norm_num)).trans (by decide)
  have f2 : fmtFloat2 (0.65 : ℚ) = "0.65" :=
    (fmtFloat2_of_num_den _ 13 20 (by norm_num) (by norm_num)).trans (by decide)
  have f3 : fmtFloat2 (294 : ℚ) = "294.00" :=
    (fmtFloat2_of_num_den _ 294 1 (by norm_num) (by norm_num)).trans (by decide)
  refine ⟨one_ne_zero, hsel, by norm_num, ?_⟩
  rw [showTrainingInfo_eq_selected, hsel]
  simp only [resultOutput, f1, f2, f3]
  decide

/-- C17, amended: for a non-zero duration the report is the template filled
with the selected values; for "Бег" and "Ходьба" the selected speed is the
selected distance over the duration, and for "Плавание" the selected distance
is `distance action` while the selected speed is
`lengthPool * countPool / 1000 / duration`. -/
theorem selected_speed (action : Int) (trainingType : String) (duration weight height : ℚ)
    (lengthPool countPool : Int) (d v c : ℚ) (hDuration : duration ≠ 0)
    (hSel : selectedValues action trainingType duration weight height lengthPool countPool
      = some (d, v, c)) :
    ShowTrainingInfo action trainingType duration weight height lengthPool countPool
        = resultOutput trainingType duration d v c
    ∧ (trainingType = "Бег" ∨ trainingType = "Ходьба" → v = d / duration)
    ∧ (trainingType = "Плавание" →
        d = distance action ∧ v = (lengthPool : ℚ) * (countPool : ℚ) / 1000 / duration) := by
  have h1 : ¬ ("Ходьба" = "Бег") := by decide
  have h2 : ¬ ("Плавание" = "Бег") := by decide
  have h3 : ¬ ("Плавание" = "Ходьба") := by decide
  refine ⟨?_, ?_, ?_⟩
  · rw [showTrainingInfo_eq_selected, hSel]
  · intro h
    rcases h with h | h
    · subst h
      simp only [selectedValues, if_true, Option.some.injEq, Prod.mk.injEq] at hSel
      rw [← hSel.1, ← hSel.2.1]
      exact meanSpeed_of_ne action duration hDuration
    · subst h
      simp only [selectedValues, if_neg h1, if_true, Option.some.injEq, Prod.mk.injEq] at hSel
      rw [← hSel.1, ← hSel.2.1]
      exact meanSpeed_of_ne action duration hDuration
  · intro h
    subst h
    simp only [selectedValues, if_neg h2, if_neg h3, if_true, Option.some.injEq,
      Prod.mk.injEq] at hSel
    refine ⟨hSel.1.symm, ?_⟩
    rw [← hSel.2.1]
    simp only [swimmingMeanSpeed, if_neg hDuration, mInKm]

/-- Witness of C17 amended: the running report of 1000 steps in two hours. -/
theorem selected_speed_witness :
    ShowTrainingInfo 1000 "Бег" 2 70 180 25 40
        = resultOutput "Бег" 2 (distance 1000) (meanSpeed 1000 2)
            (RunningSpentCalories 1000 70 2)
    ∧ meanSpeed 1000 2 = distance 1000 / 2 :=
  have h := selected_speed 1000 "Бег" 2 70 180 25 40 (distance 1000) (meanSpeed 1000 2)
    (RunningSpentCalories 1000 70 2) (by norm_num) (by simp only [selectedValues, if_true])
  ⟨h.1, h.2.1 (Or.inl rfl)⟩

/-- C18, as stated, fails in binary64: the running calories of 1000 steps at
70 kg differ between one hour and three hours, so the duration does not
cancel. -/
theorem running64_duration_does_not_cancel :
    (1 : ℚ) ≠ 0 ∧ (3 : ℚ) ≠ 0
    ∧ F64.eq (RunningSpentCalories64 1000 (F64.fin false 70) (F64.fin false 1))
        (RunningSpentCalories64 1000 (F64.fin false 70) (F64.fin false 3)) = false := by
  refine ⟨by norm_num, by norm_num, ?_⟩
  rw [running64_1000_70_1, running64_1000_70_3]
  simp only [F64.eq, F64.signed, Bool.false_eq_true, if_false, decide_eq_false_iff_not]
  norm_num

/-- C18, amended: for a non-negative Go integer action count and a weight
and duration between `2 ^ (-100)` and `2 ^ 100`, the binary64 running
calories are a finite number within the factor `1 - 2 ^ (-49)` of
`18 * 1.79 * 60 / 1000 * weight * distance action = 0.00125658 * action * weight`;
for a zero duration and any finite weight they are zero. -/
theorem running64_duration_cancels (action : Int) (weight duration : ℚ)
    (hAction : 0 ≤ action) (hInt : action < 2 ^ 63)
    (hw1 : 2 ^ (-100 : ℤ) ≤ weight) (hw2 : weight ≤ 2 ^ (100 : ℤ))
    (hd1 : 2 ^ (-100 : ℤ) ≤ duration) (hd2 : duration ≤ 2 ^ (100 : ℤ)) :
    (∃ r,
      RunningSpentCalories64 action (F64.fin false weight) (F64.fin false duration)
          = F64.fin false r
      ∧ 18 * 1.79 * 60 / 1000 * weight * distance action
          = 0.00125658 * (action : ℚ) * weight
      ∧ 0.00125658 * (action : ℚ) * weight * (1 - 1 / 2 ^ 49) ≤ r
      ∧ r * (1 - 1 / 2 ^ 49) ≤ 0.00125658 * (action : ℚ) * weight)
    ∧ ∀ (sd sw : Bool) (w : ℚ),
        (RunningSpentCalories64 action (F64.fin sw w) (F64.fin sd 0)).isZero = true := by
  have pd : 0 < duration := lt_of_lt_of_le (by positivity) hd1
  have k := (running64_tracks action hAction hInt hw1 hw2 hd1 hd2).bounds
  have hx : RunningSpentCalories action weight duration
      = 0.00125658 * (action : ℚ) * weight := by
    rw [runningSpentCalories_of_ne action weight duration (ne_of_gt pd)]
    simp only [distance, lenStep, mInKm]
    ring
  have hy : 18 * 1.79 * 60 / 1000 * weight * distance action
      = 0.00125658 * (action : ℚ) * weight := by
    simp only [distance, lenStep, mInKm]
    ring
  have e : (1 : ℚ) - ((16 : ℕ) : ℚ) / 2 ^ 53 = 1 - 1 / 2 ^ 49 := by norm_num
  rw [hx, e] at k
  obtain ⟨r, hr, b1, b2⟩ := k
  exact ⟨⟨r, hr, hy, b1, b2⟩, fun sd sw w => running64_zero_duration action sd sw w⟩

/-- Witness of C18 amended: 1000 steps at 70 kg in half an hour. -/
theorem running64_duration_cancels_witness :
    ∃ r,
      RunningSpentCalories64 1000 (F64.fin false 70) (F64.fin false (1 / 2)) = F64.fin false r
      ∧ 18 * 1.79 * 60 / 1000 * 70 * distance 1000 = 0.00125658 * ((1000 : Int) : ℚ) * 70
      ∧ 0.00125658 * ((1000 : Int) : ℚ) * 70 * (1 - 1 / 2 ^ 49) ≤ r
      ∧ r * (1 - 1 / 2 ^ 49) ≤ 0.00125658 * ((1000 : Int) : ℚ) * 70 :=
  (running64_duration_cancels 1000 70 (1 / 2) (by norm_num) (by norm_num) (by norm_num)
    (by norm_num) (by norm_num) (by norm_num)).1

/-- C19, as stated, fails in binary64: at the least positive height the height
in metres is zero, and a zero duration gives the walking formula 0 / 0 = NaN,
which is not zero. -/
theorem walking64_zero_duration_nan :
    (2 : ℚ) ^ (-1074 : ℤ) ≠ 0
    ∧ WalkingSpentCalories64 1000 (F64.fin false 0) (F64.fin false 70)
        (F64.fin false (2 ^ (-1074 : ℤ))) = F64.nan
    ∧ (WalkingSpentCalories64 1000 (F64.fin false 0) (F64.fin false 70)
        (F64.fin false (2 ^ (-1074 : ℤ)))).isZero = false := by
  have h := walking64_nan 1000 (F64.fin false 0) (F64.fin false 70) false false
    (meanSpeed64_zero 1000 false) (by positivity) two_zpow_neg1074_le
  refine ⟨by positivity, h, ?_⟩
  rw [h]
  rfl

/-- C19, amended: for a zero duration of either sign, every finite weight of
magnitude at most `2 ^ 1021` and every finite height of magnitude above
`100 * 2 ^ (-1075)` (so that the height in metres is not zero), the binary64
running, walking and swimming calories are zero. -/
theorem zero_duration_zero_calories64 (action lengthPool countPool : Int)
    (sd sw sh : Bool) (weight height : ℚ)
    (hWeight : 0 ≤ weight) (hWeightMax : weight ≤ 2 ^ (1021 : ℤ))
    (hHeight : 100 * 2 ^ (-1075 : ℤ) < height) :
    (RunningSpentCalories64 action (F64.fin sw weight) (F64.fin sd 0)).isZero = true
    ∧ (WalkingSpentCalories64 action (F64.fin sd 0) (F64.fin sw weight)
        (F64.fin sh height)).isZero = true
    ∧ (SwimmingSpentCalories64 lengthPool countPool (F64.fin sd 0)
        (F64.fin sw weight)).isZero = true :=
  ⟨running64_zero_duration action sd sw weight,
    walking64_zero_duration action sd sw sh weight height hWeight
      (le_trans hWeightMax (zpow_le_zpow_right₀ (by norm_num) (by norm_num))) hHeight,
    swimming64_zero_duration lengthPool countPool sd sw weight hWeight hWeightMax⟩

/-- Witness of C19 amended: 1000 steps, a 25 m pool swum 40 times, 70 kg, 180 cm. -/
theorem zero_duration_zero_calories64_witness :
    (RunningSpentCalories64 1000 (F64.fin false 70) (F64.fin false 0)).isZero = true
    ∧ (WalkingSpentCalories64 1000 (F64.fin false 0) (F64.fin false 70)
        (F64.fin false 180)).isZero = true
    ∧ (SwimmingSpentCalories64 25 40 (F64.fin false 0) (F64.fin false 70)).isZero = true :=
  zero_duration_zero_calories64 1000 25 40 false false false 70 180 (by norm_num)
    (le_trans (by norm_num : (70 : ℚ) ≤ 2 ^ (7 : ℤ))
      (zpow_le_zpow_right₀ (by norm_num) (by norm_num)))
    (lt_of_le_of_lt (mul_le_mul_of_nonneg_left (two_zpow_neg_lt_one (-1075) (by norm_num)).le
      (by norm_num)) (by norm_num))

/-- C20: the report is the sentinel exactly when the training type is none of
the three recognised labels; for a recognised label it starts with
"Тип тренировки: " followed by the label. -/
theorem sentinel_iff_unrecognized (action : Int) (trainingType : String)
    (duration weight height : ℚ) (lengthPool countPool : Int) :
    (ShowTrainingInfo action trainingType duration weight height lengthPool countPool
        = "неизвестный тип тренировки"
      ↔ trainingType ≠ "Бег" ∧ trainingType ≠ "Ходьба" ∧ trainingType ≠ "Плавание")
    ∧ (trainingType = "Бег" ∨ trainingType = "Ходьба" ∨ trainingType = "Плавание" →
        ∃ rest, ShowTrainingInfo action trainingType duration weight height lengthPool
          countPool = "Тип тренировки: " ++ trainingType ++ rest) := by
  have hreport : trainingType = "Бег" ∨ trainingType = "Ходьба" ∨ trainingType = "Плавание" →
      ∃ rest, ShowTrainingInfo action trainingType duration weight height lengthPool
        countPool = "Тип тренировки: " ++ trainingType ++ rest := by
    intro h
    obtain ⟨⟨d, v, c⟩, hv⟩ :=
      selectedValues_isSome action trainingType duration weight height lengthPool countPool h
    rw [showTrainingInfo_eq_selected, hv]
    exact resultOutput_prefix trainingType duration d v c
  refine ⟨⟨fun hs => ?_, fun hn => ?_⟩, hreport⟩
  · by_contra hcon
    have hrec : trainingType = "Бег" ∨ trainingType = "Ходьба" ∨ trainingType = "Плавание" := by
      by_contra hno
      simp only [not_or] at hno
      exact hcon hno
    obtain ⟨rest, hr⟩ := hreport hrec
    exact report_ne_sentinel trainingType rest (hr.symm.trans hs)
  · simp only [ShowTrainingInfo, if_neg hn.1, if_neg hn.2.1, if_neg hn.2.2, unknownTrainingType]

end Ftracker
